import Mathlib

/-!
# Change admission for AKO custom resources

A shallow embedding of `internal/k8s/crdcontroller.go`: the change filters
(`isHostRuleUpdated`, `isHTTPRuleUpdated`, `isAviInfraUpdated`), the reference
resolver (`checkRefOnController`, `checkRefsOnController`), the validators
(`validateHostRuleObj`, `validateHTTPRuleObj`, `validateAviInfraSetting`,
`validateMultiClusterIngressObj`, `validateServiceImportObj`) and the Add, Update
and Delete handlers of the eight kinds.

Calls that leave the file (status updates, controller queries, secret lookups,
removals from the resource-version cache, additions to a work queue) are
recorded in a trace of `Event`s, in program order.  Everything the file reads
from other packages (`lib`, `utils`, `objects`, `cache`, the controller, the
secret lister) is a field of `Env`, `Utils` or `Lib`, and so are the answers of
the Go runtime and library that depend on more than the model holds: the order
of `range` over a map, the longest slice `make` returns, the range of
`float64`, and `reflect.DeepEqual` on specs whose types are declared elsewhere.
-/

set_option autoImplicit false
set_option linter.unusedVariables false

namespace AKO

/-! ## Data model -/

/-- Modelled from the spec: constant `lib.StatusAccepted` (package `lib` is not
part of the sources at hand); the state `Accepted` of the data model. -/
def StatusAccepted : String := "Accepted"

/-- Modelled from the spec: constant `lib.StatusRejected` (package `lib` is not
part of the sources at hand); the state `Rejected` of the data model. -/
def StatusRejected : String := "Rejected"

/-- Modelled from the spec: constant `akov1alpha1.Exact`, the exact FQDN match
mode (the API types are not part of the sources at hand). -/
def Exact : String := "Exact"

/-- Modelled from the spec: constant `akov1alpha1.HostRuleSecretTypeAviReference`,
a certificate named on the controller (the API types are not part of the
sources at hand). -/
def HostRuleSecretTypeAviReference : String := "ref"

/-- Modelled from the spec: constant `akov1alpha1.HostRuleSecretTypeSecretReference`,
a certificate held in a cluster secret (the API types are not part of the
sources at hand). -/
def HostRuleSecretTypeSecretReference : String := "secret"

/-- Status sub-resource shared by HostRule, HTTPRule and AviInfraSetting. -/
structure CRDStatus where
  Status : String
  Error : String
  deriving DecidableEq, Repr

/-- Argument of the status writers, `status.UpdateCRDStatusOptions`. -/
structure UpdateCRDStatusOptions where
  Status : String
  Error : String
  deriving DecidableEq, Repr

/-- One entry of `TCPSettings.Listeners`. -/
structure HostRuleTCPListeners where
  EnableSSL : Bool
  deriving DecidableEq, Repr

/-- The value behind the pointer `Spec.VirtualHost.TCPSettings`. -/
structure HostRuleTCPSettings where
  Listeners : List HostRuleTCPListeners
  LoadBalancerIP : String
  deriving DecidableEq, Repr

/-- The struct `Spec.VirtualHost.Gslb`. -/
structure HostRuleGSLB where
  Fqdn : String
  deriving DecidableEq, Repr

/-- A typed certificate reference (`Name`, `Type`; `Type` is reserved in Lean,
hence `Type_`). -/
structure HostRuleSecret where
  Name : String
  Type_ : String
  deriving DecidableEq, Repr

/-- The struct `TLS.SSLKeyCertificate` with its alternate certificate. -/
structure HostRuleSSLKeyCertificate where
  Name : String
  Type_ : String
  AlternateCertificate : HostRuleSecret
  deriving DecidableEq, Repr

/-- The struct `Spec.VirtualHost.TLS`. -/
structure HostRuleTLS where
  SSLKeyCertificate : HostRuleSSLKeyCertificate
  SSLProfile : String
  deriving DecidableEq, Repr

/-- The struct `Spec.VirtualHost.HTTPPolicy`. -/
structure HostRuleHTTPPolicy where
  PolicySets : List String
  deriving DecidableEq, Repr

/-- The fields of `Spec.VirtualHost` that the controller reads.  `Aliases` is a
slice that may be nil, `TCPSettings` a pointer that may be nil. -/
structure HostRuleVirtualHost where
  Fqdn : String
  FqdnType : String
  TCPSettings : Option HostRuleTCPSettings
  Gslb : HostRuleGSLB
  Aliases : Option (List String)
  WAFPolicy : String
  ApplicationProfile : String
  TLS : HostRuleTLS
  AnalyticsProfile : String
  ErrorPageProfile : String
  HTTPPolicy : HostRuleHTTPPolicy
  Datascripts : List String
  deriving DecidableEq, Repr

/-- Spec of a HostRule. -/
structure HostRuleSpec where
  VirtualHost : HostRuleVirtualHost
  deriving DecidableEq, Repr

/-- A HostRule object: metadata, spec and status. -/
structure HostRule where
  Namespace : String
  Name : String
  ResourceVersion : String
  Spec : HostRuleSpec
  Status : CRDStatus
  deriving DecidableEq, Repr

/-- The struct `path.TLS` of an HTTPRule path. -/
structure HTTPRuleTLS where
  SSLProfile : String
  PKIProfile : String
  DestinationCA : String
  deriving DecidableEq, Repr

/-- One entry of `Spec.Paths` of an HTTPRule. -/
structure HTTPRulePaths where
  TLS : HTTPRuleTLS
  ApplicationPersistence : String
  HealthMonitors : List String
  deriving DecidableEq, Repr

/-- Spec of an HTTPRule. -/
structure HTTPRuleSpec where
  Paths : List HTTPRulePaths
  deriving DecidableEq, Repr

/-- An HTTPRule object. -/
structure HTTPRule where
  Namespace : String
  Name : String
  ResourceVersion : String
  Spec : HTTPRuleSpec
  Status : CRDStatus
  deriving DecidableEq, Repr

/-- One entry of `Spec.Network.VipNetworks`. -/
structure AviInfraSettingVipNetwork where
  NetworkName : String
  Cidr : String
  V6Cidr : String
  deriving DecidableEq, Repr

/-- The struct `Spec.Network`; `EnableRhi` is a pointer to a bool. -/
structure AviInfraSettingNetwork where
  VipNetworks : List AviInfraSettingVipNetwork
  EnableRhi : Option Bool
  BgpPeerLabels : List String
  deriving DecidableEq, Repr

/-- The struct `Spec.SeGroup`. -/
structure AviInfraSettingSeGroup where
  Name : String
  deriving DecidableEq, Repr

/-- Spec of an AviInfraSetting. -/
structure AviInfraSettingSpec where
  Network : AviInfraSettingNetwork
  SeGroup : AviInfraSettingSeGroup
  deriving DecidableEq, Repr

/-- An AviInfraSetting object. -/
structure AviInfraSetting where
  Namespace : String
  Name : String
  ResourceVersion : String
  Spec : AviInfraSettingSpec
  Status : CRDStatus
  deriving DecidableEq, Repr

/-! ## Change filter -/

/-- The two helpers of package `utils` used by the change filters:
`utils.Stringify`, once per spec type it is applied to, and `utils.Hash`. -/
structure Utils where
  StringifyHostRuleSpec : HostRuleSpec → String
  StringifyHTTPRuleSpec : HTTPRuleSpec → String
  StringifyAviInfraSettingSpec : AviInfraSettingSpec → String
  Hash : String → Nat

/-- Embedding of `isHostRuleUpdated`. -/
def isHostRuleUpdated (u : Utils) (oldHostRule newHostRule : HostRule) : Bool :=
  if oldHostRule.ResourceVersion == newHostRule.ResourceVersion then
    false
  else
    let oldSpecHash := u.Hash (u.StringifyHostRuleSpec oldHostRule.Spec ++ oldHostRule.Status.Status)
    let newSpecHash := u.Hash (u.StringifyHostRuleSpec newHostRule.Spec ++ newHostRule.Status.Status)
    oldSpecHash != newSpecHash

/-- Embedding of `isHTTPRuleUpdated`. -/
def isHTTPRuleUpdated (u : Utils) (oldHTTPRule newHTTPRule : HTTPRule) : Bool :=
  if oldHTTPRule.ResourceVersion == newHTTPRule.ResourceVersion then
    false
  else
    let oldSpecHash := u.Hash (u.StringifyHTTPRuleSpec oldHTTPRule.Spec ++ oldHTTPRule.Status.Status)
    let newSpecHash := u.Hash (u.StringifyHTTPRuleSpec newHTTPRule.Spec ++ newHTTPRule.Status.Status)
    oldSpecHash != newSpecHash

/-- Embedding of `isAviInfraUpdated`. -/
def isAviInfraUpdated (u : Utils) (oldAviInfra newAviInfra : AviInfraSetting) : Bool :=
  if oldAviInfra.ResourceVersion == newAviInfra.ResourceVersion then
    false
  else
    let oldSpecHash := u.Hash (u.StringifyAviInfraSettingSpec oldAviInfra.Spec ++ oldAviInfra.Status.Status)
    let newSpecHash := u.Hash (u.StringifyAviInfraSettingSpec newAviInfra.Spec ++ newAviInfra.Status.Status)
    oldSpecHash != newSpecHash

/-! ## Values exchanged with the controller -/

/-- A parsed JSON text.  Numbers keep their literal: the decoder turns it into a
`float64` when it stores the number into an `interface{}`. -/
inductive Json where
  | null
  | bool (b : Bool)
  | num (literal : String)
  | str (s : String)
  | arr (elems : List Json)
  | obj (fields : List (String × Json))

/-- A `json.RawMessage`: bytes that either parse as one JSON text or do not. -/
abbrev RawMessage := Option Json

/-- The dynamic value of a Go `interface{}`, by dynamic type.  The first six are
the types `json.Unmarshal` stores into an `interface{}`; elements of containers
are kept as JSON because nothing reads them.  `sliceMapStringString` is a value
of dynamic type `[]map[string]string`, the type `checkRefOnController` asserts
on the `labels` field. -/
inductive GoValue where
  | nil
  | bool (b : Bool)
  | float64 (literal : String)
  | string (s : String)
  | sliceInterface (elems : List Json)
  | mapStringInterface (fields : List (String × Json))
  | sliceMapStringString (maps : List (List (String × String)))

/-- What `json.Unmarshal` stores into an `interface{}` for a JSON text. -/
def decodeInterface : Json → GoValue
  | .null => .nil
  | .bool b => .bool b
  | .num l => .float64 l
  | .str s => .string s
  | .arr es => .sliceInterface es
  | .obj fs => .mapStringInterface fs

/-- The type assertion `v.(string)`: the string and `ok`. -/
def GoValue.assertString : GoValue → Option String
  | .string s => some s
  | _ => none

/-- The type assertion `v.([]map[string]string)`: the slice and `ok`. -/
def GoValue.assertSliceMapStringString : GoValue → Option (List (List (String × String)))
  | .sliceMapStringString ms => some ms
  | _ => none

/-- The comparison `v != nil` on an `interface{}`. -/
def GoValue.isNil : GoValue → Bool
  | .nil => true
  | _ => false

/-- A Go `map[string]interface{}` filled by the JSON decoder, as the list of
decoded fields in document order. -/
abbrev ItemMap := List (String × GoValue)

/-- The index expression `item[k]`: the value stored last under `k` (the decoder
overwrites on a repeated key), and the nil interface when `k` is absent. -/
def ItemMap.index (item : ItemMap) (k : String) : GoValue :=
  match item.reverse.lookup k with
  | some v => v
  | none => GoValue.nil

/-- `json.Unmarshal(raw, &items)` for `items []json.RawMessage`: `none` is a
decoding error; JSON `null` leaves a nil slice, an array its elements. -/
def unmarshalRawMessages : RawMessage → Option (List Json)
  | none => none
  | some .null => some []
  | some (.arr es) => some es
  | some _ => none

mutual
/-- Whether every number of a JSON text, at any depth, converts to a `float64`;
`fits literal` is whether `strconv.ParseFloat(literal, 64)` returns no error. -/
def Json.numbersFit (fits : String → Bool) : Json → Bool
  | .num literal => fits literal
  | .arr es => Json.numbersFitElems fits es
  | .obj fs => Json.numbersFitFields fits fs
  | _ => true
/-- The same for the elements of an array. -/
def Json.numbersFitElems (fits : String → Bool) : List Json → Bool
  | [] => true
  | e :: es => e.numbersFit fits && Json.numbersFitElems fits es
/-- The same for the values of an object. -/
def Json.numbersFitFields (fits : String → Bool) : List (String × Json) → Bool
  | [] => true
  | f :: fs => f.2.numbersFit fits && Json.numbersFitFields fits fs
end

/-- `json.Unmarshal(raw, &item)` for `item map[string]interface{}`: `none` is a
decoding error; JSON `null` leaves a nil map, which reads as an empty one.  An
object decodes unless one of its numbers, at any depth, does not convert to a
`float64`: the decoder then returns an `UnmarshalTypeError`. -/
def unmarshalItem (fits : String → Bool) : Json → Option ItemMap
  | .null => some []
  | .obj fs =>
    if Json.numbersFitFields fits fs then some (fs.map fun f => (f.1, decodeInterface f.2))
    else none
  | _ => none

/-- The struct returned by `lib.AviGetCollectionRaw`. -/
structure AviCollectionResult where
  Count : Int
  Results : RawMessage

/-! ## Go maps of references -/

/-- The map `refData` of type `map[string]string`, as the list of its entries
with pairwise different keys. -/
abbrev RefMap := List (String × String)

/-- The assignment `m[k] = v`: overwrite the entry of `k`, or add one. -/
def RefMap.set : RefMap → String → String → RefMap
  | [], k, v => [(k, v)]
  | (k', v') :: m, k, v => if k' == k then (k, v) :: m else (k', v') :: RefMap.set m k v

/-- The loop `for _, x := range xs { m[x] = v }`. -/
def RefMap.setAll (m : RefMap) (xs : List String) (v : String) : RefMap :=
  xs.foldl (fun acc x => acc.set x v) m

/-! ## Environment, events and results -/

/-- Everything `crdcontroller.go` reads from outside the file during validation. -/
structure Env where
  /-- Matcher `regexp.MustCompile(lib.IPRegex).MatchString`. -/
  IPRegexMatch : String → Bool
  /-- Matcher `regexp.MustCompile(lib.IPCIDRRegex).MatchString`. -/
  IPCIDRRegexMatch : String → Bool
  /-- Matcher `regexp.MustCompile(lib.IPV6CIDRRegex).MatchString`. -/
  IPV6CIDRRegexMatch : String → Bool
  /-- Constant `lib.HttpRulePkiAndDestCASetErr`. -/
  HttpRulePkiAndDestCASetErr : String
  /-- Constant `lib.AllowedApplicationProfile`. -/
  AllowedApplicationProfile : String
  /-- Value of `lib.GetAKOUser()`. -/
  GetAKOUser : String
  /-- Value of `lib.IsPublicCloud()`. -/
  IsPublicCloud : Bool
  /-- Value of `lib.UsesNetworkRef()`. -/
  UsesNetworkRef : Bool
  /-- Value of `lib.GetCloudUUID()`. -/
  GetCloudUUID : String
  /-- Value of `lib.GetDisableStaticRoute()`. -/
  GetDisableStaticRoute : Bool
  /-- The test `reflect.DeepEqual(seGroupLabels, lib.GetLabels())`. -/
  DeepEqualGetLabels : List (List (String × String)) → Bool
  /-- Rendering `utils.Stringify(seGroupLabels)`. -/
  StringifyLabels : List (List (String × String)) → String
  /-- Lookup `objects.SharedCRDLister().GetFQDNToHostruleMapping(fqdn)`. -/
  GetFQDNToHostruleMapping : String → Bool × String
  /-- Entries of `objects.SharedCRDLister().GetAllFQDNToAliasesMapping()`, in the
  order the `range` loop visits them. -/
  GetAllFQDNToAliasesMapping : List (String × List String)
  /-- Error of `SecretInformer.Lister().Secrets(namespace).Get(name)`, if any. -/
  SecretsGet : String → String → Option String
  /-- Outcome of `lib.AviGet(client, uri, &rest_response)`: the error, or the
  decoded response. -/
  AviGet : String → Except String GoValue
  /-- Outcome of `lib.AviGetCollectionRaw(client, uri)`. -/
  AviGetCollectionRaw : String → Except String AviCollectionResult
  /-- Outcome of `avicache.GetAviSeGroup(client, segName)`: whether it succeeds. -/
  GetAviSeGroup : String → Bool
  /-- The greatest length `n` for which `make([]json.RawMessage, n)` returns:
  beyond it the runtime panics with `makeslice: len out of range` or dies for
  lack of memory. -/
  MaxSliceLen : Nat
  /-- Whether `strconv.ParseFloat(literal, 64)` returns no error for the literal
  of a JSON number, that is whether the number is in the range of `float64`. -/
  ParseFloatFits : String → Bool
  /-- Order in which `range` visits the entries of a `map[string]string`. -/
  rangeOrder : RefMap → List (String × String)
  /-- A `range` loop visits every entry of the map exactly once. -/
  rangeOrder_perm : ∀ m : RefMap, List.Perm (rangeOrder m) m

/-- A call that leaves `crdcontroller.go`. -/
inductive Event where
  | UpdateHostRuleStatus (key : String) (options : UpdateCRDStatusOptions)
  | UpdateHTTPRuleStatus (key : String) (options : UpdateCRDStatusOptions)
  | UpdateAviInfraSettingStatus (key : String) (options : UpdateCRDStatusOptions)
  | SecretsGet (ns name : String)
  | AviGet (uri : String)
  | AviGetCollectionRaw (uri : String)
  | GetAviSeGroup (segName : String)
  | ConfigureSeGroupLabels (segName : String)
  | UpdateMultiClusterIngressStatus (key : String) (accepted : Bool) (reason : String)
  | AddRateLimited (bkt : Nat) (key : String)
  | ResourceVerDelete (key : String)
  deriving DecidableEq, Repr

/-- How a function of result type `error` ends: it returns nil, it returns an
error with a message, or it panics. -/
inductive Ret where
  | nil
  | error (msg : String)
  | panic (msg : String)
  deriving DecidableEq, Repr

/-- A finished call: the outside calls it made, in order, and how it ended. -/
structure Run where
  trace : List Event
  ret : Ret
  deriving DecidableEq, Repr

/-! ## Reference resolution -/

/-- The table `refModelMap`, in source order. -/
def refModelTable : List (String × String) :=
  [("SslKeyCert", "sslkeyandcertificate"),
   ("WafPolicy", "wafpolicy"),
   ("HttpPolicySet", "httppolicyset"),
   ("SslProfile", "sslprofile"),
   ("AppProfile", "applicationprofile"),
   ("AnalyticsProfile", "analyticsprofile"),
   ("ErrorPageProfile", "errorpageprofile"),
   ("VsDatascript", "vsdatascriptset"),
   ("HealthMonitor", "healthmonitor"),
   ("ApplicationPersistence", "applicationpersistenceprofile"),
   ("PKIProfile", "pkiprofile"),
   ("ServiceEngineGroup", "serviceenginegroup"),
   ("Network", "network")]

/-- The index expression `refModelMap[refKey]`: the empty string for a key that
is not in the table. -/
def refModelMap (refKey : String) : String :=
  (refModelTable.lookup refKey).getD ""

/-- Message `"%s \"%s\" not found on controller"`. -/
def msgNotFound (refKey refValue : String) : String :=
  refModelMap refKey ++ " \"" ++ refValue ++ "\" not found on controller"

/-- Message `"%s \"%s\" found on controller is invalid"`. -/
def msgInvalid (refKey refValue : String) : String :=
  refModelMap refKey ++ " \"" ++ refValue ++ "\" found on controller is invalid"

/-- Message `"%s \"%s\" found on controller is invalid, must be of type: %s"`. -/
def msgInvalidType (refKey refValue allowed : String) : String :=
  refModelMap refKey ++ " \"" ++ refValue ++ "\" found on controller is invalid, must be of type: "
    ++ allowed

/-- Message `"%s \"%s\" found on controller is invalid, mismatched labels: %s"`. -/
def msgMismatchedLabels (refKey refValue labels : String) : String :=
  refModelMap refKey ++ " \"" ++ refValue ++ "\" found on controller is invalid, mismatched labels: "
    ++ labels

/-- Message of the ownership check. -/
def msgCreatedBySelf (refKey refValue : String) : String :=
  refModelMap refKey ++ " \"" ++ refValue
    ++ "\" Invalid operation, object referred is created by current AKO instance"

/-- The `switch refKey` of `checkRefOnController` on the decoded first result:
`some r` when the switch ends the call with `r`, `none` when control falls
through to the ownership check. -/
def checkRefSwitch (env : Env) (refKey refValue : String) (item : ItemMap) : Option Ret :=
  if refKey == "AppProfile" then
    match (item.index "type").assertString with
    | some appProfType =>
      if appProfType != env.AllowedApplicationProfile then
        some (Ret.error (msgInvalidType refKey refValue env.AllowedApplicationProfile))
      else none
    | none => none
  else if refKey == "ServiceEngineGroup" then
    match (item.index "labels").assertSliceMapStringString with
    | some seGroupLabels =>
      if seGroupLabels.length == 0 then
        -- the log line evaluates `item["name"].(string)`
        match (item.index "name").assertString with
        | some _ => none
        | none => some (Ret.panic "interface conversion: interface is not string")
      else if !env.DeepEqualGetLabels seGroupLabels then
        some (Ret.error (msgMismatchedLabels refKey refValue (env.StringifyLabels seGroupLabels)))
      else none
    | none => none
  else none

/-- The part of `checkRefOnController` after the first result is decoded: the
`switch refKey`, then the ownership check. -/
def checkRefItem (env : Env) (refKey refValue : String) (item : ItemMap) : Ret :=
  match checkRefSwitch env refKey refValue item with
  | some r => r
  | none =>
    match (item.index "created_by").assertString with
    | some itemCreatedBy =>
      if itemCreatedBy == env.GetAKOUser then Ret.error (msgCreatedBySelf refKey refValue)
      else Ret.nil
    | none => Ret.nil

/-- The collection query URI built at the top of `checkRefOnController`. -/
def collectionURI (refKey refValue : String) : String :=
  "/api/" ++ refModelMap refKey ++ "?name=" ++ refValue ++ "&fields=name,type,labels,created_by"

/-- The URI of the lookup by UUID on a public cloud. -/
def networkURI (env : Env) (refKey refValue : String) : String :=
  "/api/" ++ refModelMap refKey ++ "/" ++ refValue ++ "?cloud_uuid=" ++ env.GetCloudUUID

/-- Embedding of `checkRefOnController(key, refKey, refValue)`.  The client
`clients.AviClient[aviClientLen]` is the same in every call and is left out. -/
def checkRefOnController (env : Env) (key refKey refValue : String) : Run :=
  let uri := collectionURI refKey refValue
  if env.IsPublicCloud && refModelMap refKey == "network" && env.UsesNetworkRef then
    let uri := networkURI env refKey refValue
    match env.AviGet uri with
    | .error _ => ⟨[Event.AviGet uri], Ret.error (msgNotFound refKey refValue)⟩
    | .ok rest_response =>
      if !rest_response.isNil then ⟨[Event.AviGet uri], Ret.nil⟩
      else ⟨[Event.AviGet uri], Ret.error (msgNotFound refKey refValue)⟩
  else
    match env.AviGetCollectionRaw uri with
    | .error _ => ⟨[Event.AviGetCollectionRaw uri], Ret.error (msgNotFound refKey refValue)⟩
    | .ok result =>
      if result.Count == 0 then
        ⟨[Event.AviGetCollectionRaw uri], Ret.error (msgNotFound refKey refValue)⟩
      else if result.Count < 0 || result.Count > env.MaxSliceLen then
        -- `make([]json.RawMessage, result.Count)` with a negative length or with a
        -- length beyond what the runtime allocates
        ⟨[Event.AviGetCollectionRaw uri], Ret.panic "makeslice: len out of range"⟩
      else
        match unmarshalRawMessages result.Results with
        | none => ⟨[Event.AviGetCollectionRaw uri], Ret.error (msgNotFound refKey refValue)⟩
        | some [] =>
          -- `items[0]` on a slice the decoder left empty
          ⟨[Event.AviGetCollectionRaw uri], Ret.panic "index out of range [0] with length 0"⟩
        | some (first :: _) =>
          match unmarshalItem env.ParseFloatFits first with
          | none => ⟨[Event.AviGetCollectionRaw uri], Ret.error (msgInvalid refKey refValue)⟩
          | some item => ⟨[Event.AviGetCollectionRaw uri], checkRefItem env refKey refValue item⟩

/-- The loop of `checkRefsOnController` over the entries in visiting order: blank
names are skipped, the first call that does not return nil ends the loop. -/
def checkRefsLoop (env : Env) (key : String) : List (String × String) → Run
  | [] => ⟨[], Ret.nil⟩
  | (k, value) :: rest =>
    if k == "" then checkRefsLoop env key rest
    else
      let r := checkRefOnController env key value k
      match r.ret with
      | Ret.nil =>
        let r' := checkRefsLoop env key rest
        ⟨r.trace ++ r'.trace, r'.ret⟩
      | _ => r

/-- Embedding of `checkRefsOnController(key, refMap)`. -/
def checkRefsOnController (env : Env) (key : String) (refMap : RefMap) : Run :=
  checkRefsLoop env key (env.rangeOrder refMap)

/-! ## HostRule validation -/

/-- Modelled from the spec: `utils.HasElem(s, elem)` (package `utils` is not part
of the sources at hand): whether the slice contains the element. -/
def HasElem (s : List String) (elem : String) : Bool :=
  s.contains elem

/-- Modelled from the spec: `utils.ContainsDuplicate(s)` (package `utils` is not
part of the sources at hand): whether some string occurs twice in the slice. -/
def ContainsDuplicate : List String → Bool
  | [] => false
  | x :: xs => xs.contains x || ContainsDuplicate xs

/-- The status write followed by `return err` that ends every rejection of a
HostRule; `pre` are the outside calls made before. -/
def rejectHostRule (key : String) (pre : List Event) (msg : String) : Run :=
  ⟨pre ++ [Event.UpdateHostRuleStatus key ⟨StatusRejected, msg⟩], Ret.error msg⟩

/-- First check of `validateHostRuleObj`: the FQDN is recorded for another owner. -/
def checkDuplicateFqdn (env : Env) (hostrule : HostRule) : Option String :=
  let fqdn := hostrule.Spec.VirtualHost.Fqdn
  let found := env.GetFQDNToHostruleMapping fqdn
  let foundHost := found.1
  let foundHR := found.2
  if foundHost && foundHR != hostrule.Namespace ++ "/" ++ hostrule.Name then
    some ("duplicate fqdn " ++ fqdn ++ " found in " ++ foundHR)
  else none

/-- Second check: a configured load balancer IP matches `lib.IPRegex`. -/
def checkLoadBalancerIP (env : Env) (hostrule : HostRule) : Option String :=
  match hostrule.Spec.VirtualHost.TCPSettings with
  | some tcpSettings =>
    if tcpSettings.LoadBalancerIP != "" then
      if !env.IPRegexMatch tcpSettings.LoadBalancerIP then
        some ("loadBalancerIP " ++ tcpSettings.LoadBalancerIP ++ " is not a valid IP")
      else none
    else none
  | none => none

/-- Third check: the GSLB FQDN differs from the FQDN. -/
def checkGslbFqdn (hostrule : HostRule) : Option String :=
  if hostrule.Spec.VirtualHost.Gslb.Fqdn != "" then
    if hostrule.Spec.VirtualHost.Fqdn == hostrule.Spec.VirtualHost.Gslb.Fqdn then
      some "GSLB FQDN and local FQDN are same"
    else none
  else none

/-- Fourth check: among configured listeners one has SSL enabled. -/
def checkListenersSSL (hostrule : HostRule) : Option String :=
  match hostrule.Spec.VirtualHost.TCPSettings with
  | some tcpSettings =>
    if tcpSettings.Listeners.length > 0 then
      let sslEnabled := tcpSettings.Listeners.any fun listener => listener.EnableSSL
      if !sslEnabled then some "Hosting parent virtualservice must have SSL enabled"
      else none
    else none
  | none => none

/-- The nested loops over the FQDN-to-aliases index: the first pair of a cached
FQDN other than `fqdn` and one of `aliases` found in its cached aliases. -/
def findAliasInUse (fqdn : String) (aliases : List String) :
    List (String × List String) → Option (String × String)
  | [] => none
  | (cachedFQDN, cachedAliases) :: rest =>
    if cachedFQDN == fqdn then findAliasInUse fqdn aliases rest
    else
      match aliases.find? fun alias_ => HasElem cachedAliases alias_ with
      | some alias_ => some (alias_, cachedFQDN)
      | none => findAliasInUse fqdn aliases rest

/-- Fifth check, the block under `Aliases != nil`. -/
def checkAliases (env : Env) (hostrule : HostRule) : Option String :=
  let fqdn := hostrule.Spec.VirtualHost.Fqdn
  match hostrule.Spec.VirtualHost.Aliases with
  | none => none
  | some aliases =>
    if hostrule.Spec.VirtualHost.FqdnType != Exact then
      some "Aliases is supported only when FQDN type is set as Exact"
    else if HasElem aliases fqdn then
      some "Duplicate entry found. Aliases field has same entry as the FQDN field"
    else if ContainsDuplicate aliases then
      some "Aliases must be unique"
    else if hostrule.Spec.VirtualHost.Gslb.Fqdn != "" &&
        HasElem aliases hostrule.Spec.VirtualHost.Gslb.Fqdn then
      some "Aliases must not contain GSLB FQDN"
    else
      match findAliasInUse fqdn aliases env.GetAllFQDNToAliasesMapping with
      | some (alias_, cachedFQDN) => some (alias_ ++ " is already in use by hostrule " ++ cachedFQDN)
      | none => none

/-- The checks of `validateHostRuleObj` that come before `refData` is built, in
source order: the message of the first one that fails. -/
def hostRuleLocalError (env : Env) (hostrule : HostRule) : Option String :=
  match checkDuplicateFqdn env hostrule with
  | some msg => some msg
  | none =>
    match checkLoadBalancerIP env hostrule with
    | some msg => some msg
    | none =>
      match checkGslbFqdn hostrule with
      | some msg => some msg
      | none =>
        match checkListenersSSL hostrule with
        | some msg => some msg
        | none => checkAliases env hostrule

/-- The map `refData` of `validateHostRuleObj` as it stands at the call of
`checkRefsOnController`: the five entries of the literal, then the certificate
names, the policy sets and the datascripts. -/
def hostRuleRefData (hostrule : HostRule) : RefMap :=
  let vh := hostrule.Spec.VirtualHost
  let refData : RefMap := []
  let refData := refData.set vh.WAFPolicy "WafPolicy"
  let refData := refData.set vh.ApplicationProfile "AppProfile"
  let refData := refData.set vh.TLS.SSLProfile "SslProfile"
  let refData := refData.set vh.AnalyticsProfile "AnalyticsProfile"
  let refData := refData.set vh.ErrorPageProfile "ErrorPageProfile"
  let refData :=
    if vh.TLS.SSLKeyCertificate.Type_ == HostRuleSecretTypeAviReference then
      refData.set vh.TLS.SSLKeyCertificate.Name "SslKeyCert"
    else refData
  let refData :=
    if vh.TLS.SSLKeyCertificate.AlternateCertificate.Type_ == HostRuleSecretTypeAviReference then
      refData.set vh.TLS.SSLKeyCertificate.AlternateCertificate.Name "SslKeyCert"
    else refData
  let refData := refData.setAll vh.HTTPPolicy.PolicySets "HttpPolicySet"
  let refData := refData.setAll vh.Datascripts "VsDatascript"
  refData

/-- A secret lookup made when a certificate is of type secret reference: the
call it makes and the error it gets, if any. -/
def secretCheck (env : Env) (ns certType certName : String) : List Event × Option String :=
  if certType == HostRuleSecretTypeSecretReference then
    ([Event.SecretsGet ns certName], env.SecretsGet ns certName)
  else ([], none)

/-- Embedding of `validateHostRuleObj(key, hostrule)`. -/
def validateHostRuleObj (env : Env) (key : String) (hostrule : HostRule) : Run :=
  match hostRuleLocalError env hostrule with
  | some msg => rejectHostRule key [] msg
  | none =>
    let cert := hostrule.Spec.VirtualHost.TLS.SSLKeyCertificate
    let s1 := secretCheck env hostrule.Namespace cert.Type_ cert.Name
    match s1.2 with
    | some msg => rejectHostRule key s1.1 msg
    | none =>
      let s2 := secretCheck env hostrule.Namespace cert.AlternateCertificate.Type_
        cert.AlternateCertificate.Name
      match s2.2 with
      | some msg => rejectHostRule key (s1.1 ++ s2.1) msg
      | none =>
        let r := checkRefsOnController env key (hostRuleRefData hostrule)
        match r.ret with
        | Ret.error msg => rejectHostRule key (s1.1 ++ s2.1 ++ r.trace) msg
        | Ret.panic msg => ⟨s1.1 ++ s2.1 ++ r.trace, Ret.panic msg⟩
        | Ret.nil =>
          if hostrule.Status.Status == StatusAccepted then
            ⟨s1.1 ++ s2.1 ++ r.trace, Ret.nil⟩
          else
            ⟨s1.1 ++ s2.1 ++ r.trace ++ [Event.UpdateHostRuleStatus key ⟨StatusAccepted, ""⟩],
              Ret.nil⟩

/-! ## HTTPRule validation -/

/-- The loop of `validateHTTPRuleObj` over `Spec.Paths`: `none` when it meets a
path with both a PKI profile and a destination CA, else the filled `refData`. -/
def httpRuleRefData : RefMap → List HTTPRulePaths → Option RefMap
  | refData, [] => some refData
  | refData, path :: rest =>
    if path.TLS.PKIProfile != "" && path.TLS.DestinationCA != "" then none
    else
      let refData := refData.set path.TLS.SSLProfile "SslProfile"
      let refData := refData.set path.ApplicationPersistence "ApplicationPersistence"
      let refData :=
        if path.TLS.PKIProfile != "" then refData.set path.TLS.PKIProfile "PKIProfile"
        else refData
      let refData := refData.setAll path.HealthMonitors "HealthMonitor"
      httpRuleRefData refData rest

/-- Embedding of `validateHTTPRuleObj(key, httprule)`. -/
def validateHTTPRuleObj (env : Env) (key : String) (httprule : HTTPRule) : Run :=
  match httpRuleRefData [] httprule.Spec.Paths with
  | none =>
    ⟨[Event.UpdateHTTPRuleStatus key ⟨StatusRejected, env.HttpRulePkiAndDestCASetErr⟩],
      Ret.error ("key: " ++ key ++ ", msg: " ++ env.HttpRulePkiAndDestCASetErr)⟩
  | some refData =>
    let r := checkRefsOnController env key refData
    match r.ret with
    | Ret.error msg =>
      ⟨r.trace ++ [Event.UpdateHTTPRuleStatus key ⟨StatusRejected, msg⟩], Ret.error msg⟩
    | Ret.panic msg => ⟨r.trace, Ret.panic msg⟩
    | Ret.nil =>
      if httprule.Status.Status == StatusAccepted then ⟨r.trace, Ret.nil⟩
      else ⟨r.trace ++ [Event.UpdateHTTPRuleStatus key ⟨StatusAccepted, ""⟩], Ret.nil⟩

/-! ## AviInfraSetting validation -/

/-- The loop of `validateAviInfraSetting` over `Spec.Network.VipNetworks`: the
message of the first CIDR that does not match, else the filled `refData`. -/
def aviInfraRefData (env : Env) : RefMap → List AviInfraSettingVipNetwork → Except String RefMap
  | refData, [] => .ok refData
  | refData, vipNetwork :: rest =>
    if vipNetwork.Cidr != "" && !env.IPCIDRRegexMatch vipNetwork.Cidr then
      .error ("invalid CIDR configuration " ++ vipNetwork.Cidr ++ " detected for networkName "
        ++ vipNetwork.NetworkName ++ " in vipNetworkList")
    else if vipNetwork.V6Cidr != "" && !env.IPV6CIDRRegexMatch vipNetwork.V6Cidr then
      .error ("invalid IPv6 CIDR configuration " ++ vipNetwork.V6Cidr
        ++ " detected for networkName " ++ vipNetwork.NetworkName ++ " in vipNetworkList")
    else
      aviInfraRefData env (refData.set vipNetwork.NetworkName "Network") rest

/-- Embedding of `addSeGroupLabel(key, segName)`: the controller calls it makes. -/
def addSeGroupLabel (env : Env) (segName : String) : List Event :=
  if env.GetDisableStaticRoute then []
  else if env.GetAviSeGroup segName then
    [Event.GetAviSeGroup segName, Event.ConfigureSeGroupLabels segName]
  else [Event.GetAviSeGroup segName]

/-- The status write followed by `return err` that ends every rejection of an
AviInfraSetting; `pre` are the outside calls made before. -/
def rejectAviInfraSetting (key : String) (pre : List Event) (msg : String) : Run :=
  ⟨pre ++ [Event.UpdateAviInfraSettingStatus key ⟨StatusRejected, msg⟩], Ret.error msg⟩

/-- Embedding of `validateAviInfraSetting(key, infraSetting)`. -/
def validateAviInfraSetting (env : Env) (key : String) (infraSetting : AviInfraSetting) : Run :=
  let network := infraSetting.Spec.Network
  if ((network.EnableRhi != none && network.EnableRhi == some false) || network.EnableRhi == none)
      && network.BgpPeerLabels.length > 0 then
    rejectAviInfraSetting key [] "BGPPeerLabels cannot be set if EnableRhi is false."
  else
    match aviInfraRefData env [] network.VipNetworks with
    | .error msg => rejectAviInfraSetting key [] msg
    | .ok refData =>
      let refData :=
        if infraSetting.Spec.SeGroup.Name != "" then
          refData.set infraSetting.Spec.SeGroup.Name "ServiceEngineGroup"
        else refData
      let r := checkRefsOnController env key refData
      match r.ret with
      | Ret.error msg => rejectAviInfraSetting key r.trace msg
      | Ret.panic msg => ⟨r.trace, Ret.panic msg⟩
      | Ret.nil =>
        let labelCalls :=
          if infraSetting.Spec.SeGroup.Name != "" then
            addSeGroupLabel env infraSetting.Spec.SeGroup.Name
          else []
        if infraSetting.Status.Status == StatusAccepted then
          ⟨r.trace ++ labelCalls, Ret.nil⟩
        else
          ⟨r.trace ++ labelCalls ++ [Event.UpdateAviInfraSettingStatus key ⟨StatusAccepted, ""⟩],
            Ret.nil⟩

/-! ## Objects of the Istio kinds and ServiceImport -/

/-- Spec of an Istio VirtualService, a type declared outside the sources; the
Update handler hands it whole to `reflect.DeepEqual` and nothing else reads it. -/
structure VirtualServiceSpec where
  /-- A text that tells the spec as a Go value apart from every other one: all
  its fields, and whether a slice or map in it is nil or empty. -/
  Value : String
  deriving DecidableEq, Repr

/-- An Istio VirtualService object; the handlers never read `Status`. -/
structure VirtualService where
  Namespace : String
  Name : String
  ResourceVersion : String
  Spec : VirtualServiceSpec
  Status : String
  deriving DecidableEq, Repr

/-- Spec of an Istio DestinationRule, a type declared outside the sources; the
Update handler hands it whole to `reflect.DeepEqual` and nothing else reads it. -/
structure DestinationRuleSpec where
  /-- A text that tells the spec as a Go value apart from every other one: all
  its fields, and whether a slice or map in it is nil or empty. -/
  Value : String
  deriving DecidableEq, Repr

/-- An Istio DestinationRule object; the handlers never read `Status`. -/
structure DestinationRule where
  Namespace : String
  Name : String
  ResourceVersion : String
  Spec : DestinationRuleSpec
  Status : String
  deriving DecidableEq, Repr

/-- Spec of an Istio Gateway, a type declared outside the sources; the Update
handler hands it whole to `reflect.DeepEqual` and nothing else reads it. -/
structure GatewaySpec where
  /-- A text that tells the spec as a Go value apart from every other one: all
  its fields, and whether a slice or map in it is nil or empty. -/
  Value : String
  deriving DecidableEq, Repr

/-- An Istio Gateway object; the handlers never read `Status`. -/
structure Gateway where
  Namespace : String
  Name : String
  ResourceVersion : String
  Spec : GatewaySpec
  Status : String
  deriving DecidableEq, Repr

/-- Spec of a ServiceImport, a type declared outside the sources; the Update
handler hands it whole to `reflect.DeepEqual` and nothing else reads it. -/
structure ServiceImportSpec where
  /-- A text that tells the spec as a Go value apart from every other one: all
  its fields, and whether a slice in it is nil or empty. -/
  Value : String
  deriving DecidableEq, Repr

/-- A ServiceImport object. -/
structure ServiceImport where
  Namespace : String
  Name : String
  ResourceVersion : String
  Spec : ServiceImportSpec
  deriving DecidableEq, Repr

/-! ## MultiClusterIngress validation -/

/-- One entry of `Spec.Config` of a MultiClusterIngress, a type declared outside
the sources; the controller reads only how many entries there are. -/
structure BackendConfig where
  /-- A text that tells the entry apart from every other one. -/
  Value : String
  deriving DecidableEq, Repr

/-- Spec of a MultiClusterIngress, a type declared outside the sources.  The
validator reads `len(Spec.Config)`; the Update handler hands the spec whole to
`reflect.DeepEqual`. -/
structure MultiClusterIngressSpec where
  /-- A text that tells the spec as a Go value apart from every other one: all
  its fields, and whether a slice in it is nil or empty. -/
  Value : String
  /-- The entries of the slice `Spec.Config`; a nil slice has none. -/
  Config : List BackendConfig
  deriving DecidableEq, Repr

/-- A MultiClusterIngress object. -/
structure MultiClusterIngress where
  Namespace : String
  Name : String
  ResourceVersion : String
  Spec : MultiClusterIngressSpec
  deriving DecidableEq, Repr

/-- What the event handlers and `validateMultiClusterIngressObj` read from the
packages `lib`, `utils`, `cache`, `objects` and `reflect`. -/
structure Lib where
  /-- Constant `lib.HostRule`. -/
  HostRule : String
  /-- Constant `lib.HTTPRule`. -/
  HTTPRule : String
  /-- Constant `lib.AviInfraSetting`. -/
  AviInfraSetting : String
  /-- Constant `lib.MultiClusterIngress`. -/
  MultiClusterIngress : String
  /-- Constant `lib.ServiceImport`. -/
  ServiceImport : String
  /-- Constant `lib.IstioVirtualService`. -/
  IstioVirtualService : String
  /-- Constant `lib.IstioDestinationRule`. -/
  IstioDestinationRule : String
  /-- Constant `lib.IstioGateway`. -/
  IstioGateway : String
  /-- Result of `utils.ObjKey(obj)` for an object with this namespace and name. -/
  ObjKey : String → String → String
  /-- First result, the namespace, of `cache.SplitMetaNamespaceKey(objKey)`. -/
  SplitMetaNamespaceKey : String → String
  /-- Shard `utils.Bkt(namespace, numWorkers)`. -/
  Bkt : String → Nat → Nat
  /-- Value of `lib.IsNamespaceBlocked(namespace)`. -/
  IsNamespaceBlocked : String → Bool
  /-- Value of `utils.CheckIfNamespaceAccepted(namespace)`. -/
  CheckIfNamespaceAccepted : String → Bool
  /-- Value of `lib.IsNodePortMode()`. -/
  IsNodePortMode : Bool
  /-- Value of `lib.IsEvhEnabled()`. -/
  IsEvhEnabled : Bool
  /-- Result of `objects.SharedResourceVerInstanceLister().Get(key)`: whether the
  key has an entry, and the version stored, which the handlers take to be a
  string. -/
  ResourceVerGet : String → Bool × String
  /-- Result of `reflect.DeepEqual(oldObj.Spec, mci.Spec)` on two
  MultiClusterIngress specs. -/
  DeepEqualMultiClusterIngressSpec : MultiClusterIngressSpec → MultiClusterIngressSpec → Bool
  /-- Result of `reflect.DeepEqual(oldObj.Spec, si.Spec)` on two ServiceImport
  specs. -/
  DeepEqualServiceImportSpec : ServiceImportSpec → ServiceImportSpec → Bool
  /-- Result of `reflect.DeepEqual(oldObj.Spec, vs.Spec)` on two VirtualService
  specs. -/
  DeepEqualVirtualServiceSpec : VirtualServiceSpec → VirtualServiceSpec → Bool
  /-- Result of `reflect.DeepEqual(oldObj.Spec, dr.Spec)` on two DestinationRule
  specs. -/
  DeepEqualDestinationRuleSpec : DestinationRuleSpec → DestinationRuleSpec → Bool
  /-- Result of `reflect.DeepEqual(oldObj.Spec, vs.Spec)` on two Gateway specs. -/
  DeepEqualGatewaySpec : GatewaySpec → GatewaySpec → Bool

/-- The body of `validateMultiClusterIngressObj` without the deferred status
update: the error it returns, if any. -/
def multiClusterIngressError (lib : Lib) (multiClusterIngress : MultiClusterIngress) :
    Option String :=
  if !lib.IsNodePortMode then some "ServiceType must be of type NodePort"
  else if !lib.IsEvhEnabled then some "AKO must be in EVH mode"
  else if multiClusterIngress.Spec.Config.length == 0 then some "config must not be empty"
  else none

/-- Embedding of `validateMultiClusterIngressObj(key, multiClusterIngress)`: the
deferred function makes the one status update, after the result is known. -/
def validateMultiClusterIngressObj (lib : Lib) (key : String)
    (multiClusterIngress : MultiClusterIngress) : Run :=
  match multiClusterIngressError lib multiClusterIngress with
  | none => ⟨[Event.UpdateMultiClusterIngressStatus key true ""], Ret.nil⟩
  | some msg => ⟨[Event.UpdateMultiClusterIngressStatus key false msg], Ret.error msg⟩

/-! ## Event handlers -/

/-- The field of `AviController` the handlers read; calls on `c.workqueue` are
recorded as events. -/
structure AviController where
  DisableSync : Bool

/-- The end of an Add or Update handler of HostRule, HTTPRule and
AviInfraSetting once the validator has run: its error is only logged, then the
key is added to the shard of the namespace.  A panic of the validator ends the
handler. -/
def enqueueAfterValidation (lib : Lib) (numWorkers : Nat) (ns key : String) (r : Run) : Run :=
  match r.ret with
  | Ret.panic msg => ⟨r.trace, Ret.panic msg⟩
  | _ => ⟨r.trace ++ [Event.AddRateLimited (lib.Bkt ns numWorkers) key], Ret.nil⟩

/-- Embedding of `AddFunc` of the HostRule handler. -/
def hostRuleAddFunc (c : AviController) (lib : Lib) (env : Env) (numWorkers : Nat)
    (hostrule : HostRule) : Run :=
  if c.DisableSync then ⟨[], Ret.nil⟩
  else
    let ns := lib.SplitMetaNamespaceKey (lib.ObjKey hostrule.Namespace hostrule.Name)
    let key := lib.HostRule ++ "/" ++ lib.ObjKey hostrule.Namespace hostrule.Name
    enqueueAfterValidation lib numWorkers ns key (validateHostRuleObj env key hostrule)

/-- Embedding of `UpdateFunc` of the HostRule handler. -/
def hostRuleUpdateFunc (c : AviController) (lib : Lib) (u : Utils) (env : Env) (numWorkers : Nat)
    (oldObj hostrule : HostRule) : Run :=
  if c.DisableSync then ⟨[], Ret.nil⟩
  else if isHostRuleUpdated u oldObj hostrule then
    let ns := lib.SplitMetaNamespaceKey (lib.ObjKey hostrule.Namespace hostrule.Name)
    let key := lib.HostRule ++ "/" ++ lib.ObjKey hostrule.Namespace hostrule.Name
    enqueueAfterValidation lib numWorkers ns key (validateHostRuleObj env key hostrule)
  else ⟨[], Ret.nil⟩

/-- Embedding of `AddFunc` of the HTTPRule handler. -/
def httpRuleAddFunc (c : AviController) (lib : Lib) (env : Env) (numWorkers : Nat)
    (httprule : HTTPRule) : Run :=
  if c.DisableSync then ⟨[], Ret.nil⟩
  else
    let ns := lib.SplitMetaNamespaceKey (lib.ObjKey httprule.Namespace httprule.Name)
    let key := lib.HTTPRule ++ "/" ++ lib.ObjKey httprule.Namespace httprule.Name
    enqueueAfterValidation lib numWorkers ns key (validateHTTPRuleObj env key httprule)

/-- Embedding of `UpdateFunc` of the HTTPRule handler. -/
def httpRuleUpdateFunc (c : AviController) (lib : Lib) (u : Utils) (env : Env) (numWorkers : Nat)
    (oldObj httprule : HTTPRule) : Run :=
  if c.DisableSync then ⟨[], Ret.nil⟩
  else if isHTTPRuleUpdated u oldObj httprule then
    let ns := lib.SplitMetaNamespaceKey (lib.ObjKey httprule.Namespace httprule.Name)
    let key := lib.HTTPRule ++ "/" ++ lib.ObjKey httprule.Namespace httprule.Name
    enqueueAfterValidation lib numWorkers ns key (validateHTTPRuleObj env key httprule)
  else ⟨[], Ret.nil⟩

/-- Embedding of `AddFunc` of the AviInfraSetting handler. -/
def aviInfraAddFunc (c : AviController) (lib : Lib) (env : Env) (numWorkers : Nat)
    (aviinfra : AviInfraSetting) : Run :=
  if c.DisableSync then ⟨[], Ret.nil⟩
  else
    let ns := lib.SplitMetaNamespaceKey (lib.ObjKey aviinfra.Namespace aviinfra.Name)
    let key := lib.AviInfraSetting ++ "/" ++ lib.ObjKey aviinfra.Namespace aviinfra.Name
    enqueueAfterValidation lib numWorkers ns key (validateAviInfraSetting env key aviinfra)

/-- Embedding of `UpdateFunc` of the AviInfraSetting handler. -/
def aviInfraUpdateFunc (c : AviController) (lib : Lib) (u : Utils) (env : Env) (numWorkers : Nat)
    (oldObj aviInfra : AviInfraSetting) : Run :=
  if c.DisableSync then ⟨[], Ret.nil⟩
  else if isAviInfraUpdated u oldObj aviInfra then
    let ns := lib.SplitMetaNamespaceKey (lib.ObjKey aviInfra.Namespace aviInfra.Name)
    let key := lib.AviInfraSetting ++ "/" ++ lib.ObjKey aviInfra.Namespace aviInfra.Name
    enqueueAfterValidation lib numWorkers ns key (validateAviInfraSetting env key aviInfra)
  else ⟨[], Ret.nil⟩

/-- The part shared by `AddFunc` and `UpdateFunc` of the MultiClusterIngress
handler, from the computation of the key on: the namespace filter, the
validation, whose error ends the handler, and the enqueue. -/
def multiClusterIngressAdmit (lib : Lib) (numWorkers : Nat) (mci : MultiClusterIngress) : Run :=
  let ns := lib.SplitMetaNamespaceKey (lib.ObjKey mci.Namespace mci.Name)
  let key := lib.MultiClusterIngress ++ "/" ++ lib.ObjKey mci.Namespace mci.Name
  if lib.IsNamespaceBlocked ns || !lib.CheckIfNamespaceAccepted ns then ⟨[], Ret.nil⟩
  else
    let r := validateMultiClusterIngressObj lib key mci
    match r.ret with
    | Ret.nil => ⟨r.trace ++ [Event.AddRateLimited (lib.Bkt ns numWorkers) key], Ret.nil⟩
    | Ret.error _ => ⟨r.trace, Ret.nil⟩
    | Ret.panic msg => ⟨r.trace, Ret.panic msg⟩

/-- Embedding of `AddFunc` of the MultiClusterIngress handler. -/
def multiClusterIngressAddFunc (c : AviController) (lib : Lib) (numWorkers : Nat)
    (mci : MultiClusterIngress) : Run :=
  if c.DisableSync then ⟨[], Ret.nil⟩
  else multiClusterIngressAdmit lib numWorkers mci

/-- Embedding of `UpdateFunc` of the MultiClusterIngress handler. -/
def multiClusterIngressUpdateFunc (c : AviController) (lib : Lib) (numWorkers : Nat)
    (oldObj mci : MultiClusterIngress) : Run :=
  if c.DisableSync then ⟨[], Ret.nil⟩
  else if !lib.DeepEqualMultiClusterIngressSpec oldObj.Spec mci.Spec then
    multiClusterIngressAdmit lib numWorkers mci
  else ⟨[], Ret.nil⟩

/-! ## Payloads of the handlers -/

/-- The dynamic value of the `obj interface{}` an informer hands to a handler:
a pointer to an object of one of the kinds, a `cache.DeletedFinalStateUnknown`
tombstone around another value, or a value of any other type. -/
inductive Object where
  | hostRule (o : HostRule)
  | httpRule (o : HTTPRule)
  | aviInfraSetting (o : AviInfraSetting)
  | virtualService (o : VirtualService)
  | destinationRule (o : DestinationRule)
  | gateway (o : Gateway)
  | multiClusterIngress (o : MultiClusterIngress)
  | serviceImport (o : ServiceImport)
  | DeletedFinalStateUnknown (Key : String) (Obj : Object)
  | other (typeName : String)

/-- The type assertion `obj.(*akov1alpha1.HostRule)`. -/
def Object.assertHostRule : Object → Option HostRule
  | .hostRule o => some o
  | _ => none

/-- The type assertion `obj.(*akov1alpha1.HTTPRule)`. -/
def Object.assertHTTPRule : Object → Option HTTPRule
  | .httpRule o => some o
  | _ => none

/-- The type assertion `obj.(*akov1alpha1.AviInfraSetting)`. -/
def Object.assertAviInfraSetting : Object → Option AviInfraSetting
  | .aviInfraSetting o => some o
  | _ => none

/-- The type assertion `obj.(*istiov1alpha3.VirtualService)`. -/
def Object.assertVirtualService : Object → Option VirtualService
  | .virtualService o => some o
  | _ => none

/-- The type assertion `obj.(*istiov1alpha3.DestinationRule)`. -/
def Object.assertDestinationRule : Object → Option DestinationRule
  | .destinationRule o => some o
  | _ => none

/-- The type assertion `obj.(*istiov1alpha3.Gateway)`. -/
def Object.assertGateway : Object → Option Gateway
  | .gateway o => some o
  | _ => none

/-- The type assertion `obj.(*akov1alpha1.MultiClusterIngress)`. -/
def Object.assertMultiClusterIngress : Object → Option MultiClusterIngress
  | .multiClusterIngress o => some o
  | _ => none

/-- The type assertion `obj.(*akov1alpha1.ServiceImport)`. -/
def Object.assertServiceImport : Object → Option ServiceImport
  | .serviceImport o => some o
  | _ => none

/-- The type assertion `obj.(cache.DeletedFinalStateUnknown)`: the value the
tombstone wraps. -/
def Object.assertTombstone : Object → Option Object
  | .DeletedFinalStateUnknown _ inner => some inner
  | _ => none

/-- The opening of every `DeleteFunc`: the payload asserted to the kind of the
handler, and failing that, asserted to a tombstone whose `Obj` is asserted to
the kind; `none` where the handler logs and returns. -/
def unwrapDeleted {α : Type} (assertKind : Object → Option α) (obj : Object) : Option α :=
  match assertKind obj with
  | some o => some o
  | none =>
    match obj.assertTombstone with
    | none => none
    | some inner => assertKind inner

/-! ## Delete handlers -/

/-- The end of every `DeleteFunc` for an object of a kind with this namespace and
name: the key leaves the resource-version cache, then it is added to the shard
of the namespace. -/
def deleteAndEnqueue (lib : Lib) (numWorkers : Nat) (kind ns name : String) : Run :=
  let namespace_ := lib.SplitMetaNamespaceKey (lib.ObjKey ns name)
  let key := kind ++ "/" ++ lib.ObjKey ns name
  ⟨[Event.ResourceVerDelete key, Event.AddRateLimited (lib.Bkt namespace_ numWorkers) key],
    Ret.nil⟩

/-- The end of `DeleteFunc` of MultiClusterIngress and ServiceImport: as
`deleteAndEnqueue`, behind the namespace filter. -/
def deleteAndEnqueueFiltered (lib : Lib) (numWorkers : Nat) (kind ns name : String) : Run :=
  let namespace_ := lib.SplitMetaNamespaceKey (lib.ObjKey ns name)
  if lib.IsNamespaceBlocked namespace_ || !lib.CheckIfNamespaceAccepted namespace_ then
    ⟨[], Ret.nil⟩
  else deleteAndEnqueue lib numWorkers kind ns name

/-- Embedding of `DeleteFunc` of the HostRule handler. -/
def hostRuleDeleteFunc (c : AviController) (lib : Lib) (numWorkers : Nat) (obj : Object) : Run :=
  if c.DisableSync then ⟨[], Ret.nil⟩
  else
    match unwrapDeleted Object.assertHostRule obj with
    | none => ⟨[], Ret.nil⟩
    | some hostrule => deleteAndEnqueue lib numWorkers lib.HostRule hostrule.Namespace hostrule.Name

/-- Embedding of `DeleteFunc` of the HTTPRule handler. -/
def httpRuleDeleteFunc (c : AviController) (lib : Lib) (numWorkers : Nat) (obj : Object) : Run :=
  if c.DisableSync then ⟨[], Ret.nil⟩
  else
    match unwrapDeleted Object.assertHTTPRule obj with
    | none => ⟨[], Ret.nil⟩
    | some httprule => deleteAndEnqueue lib numWorkers lib.HTTPRule httprule.Namespace httprule.Name

/-- Embedding of `DeleteFunc` of the AviInfraSetting handler. -/
def aviInfraDeleteFunc (c : AviController) (lib : Lib) (numWorkers : Nat) (obj : Object) : Run :=
  if c.DisableSync then ⟨[], Ret.nil⟩
  else
    match unwrapDeleted Object.assertAviInfraSetting obj with
    | none => ⟨[], Ret.nil⟩
    | some aviinfra =>
      deleteAndEnqueue lib numWorkers lib.AviInfraSetting aviinfra.Namespace aviinfra.Name

/-- Embedding of `DeleteFunc` of the VirtualService handler. -/
def virtualServiceDeleteFunc (c : AviController) (lib : Lib) (numWorkers : Nat) (obj : Object) :
    Run :=
  if c.DisableSync then ⟨[], Ret.nil⟩
  else
    match unwrapDeleted Object.assertVirtualService obj with
    | none => ⟨[], Ret.nil⟩
    | some vs => deleteAndEnqueue lib numWorkers lib.IstioVirtualService vs.Namespace vs.Name

/-- Embedding of `DeleteFunc` of the DestinationRule handler. -/
def destinationRuleDeleteFunc (c : AviController) (lib : Lib) (numWorkers : Nat) (obj : Object) :
    Run :=
  if c.DisableSync then ⟨[], Ret.nil⟩
  else
    match unwrapDeleted Object.assertDestinationRule obj with
    | none => ⟨[], Ret.nil⟩
    | some dr => deleteAndEnqueue lib numWorkers lib.IstioDestinationRule dr.Namespace dr.Name

/-- Embedding of `DeleteFunc` of the Gateway handler. -/
def gatewayDeleteFunc (c : AviController) (lib : Lib) (numWorkers : Nat) (obj : Object) : Run :=
  if c.DisableSync then ⟨[], Ret.nil⟩
  else
    match unwrapDeleted Object.assertGateway obj with
    | none => ⟨[], Ret.nil⟩
    | some vs => deleteAndEnqueue lib numWorkers lib.IstioGateway vs.Namespace vs.Name

/-- Embedding of `DeleteFunc` of the MultiClusterIngress handler. -/
def multiClusterIngressDeleteFunc (c : AviController) (lib : Lib) (numWorkers : Nat)
    (obj : Object) : Run :=
  if c.DisableSync then ⟨[], Ret.nil⟩
  else
    match unwrapDeleted Object.assertMultiClusterIngress obj with
    | none => ⟨[], Ret.nil⟩
    | some mci =>
      deleteAndEnqueueFiltered lib numWorkers lib.MultiClusterIngress mci.Namespace mci.Name

/-- Embedding of `DeleteFunc` of the ServiceImport handler. -/
def serviceImportDeleteFunc (c : AviController) (lib : Lib) (numWorkers : Nat) (obj : Object) :
    Run :=
  if c.DisableSync then ⟨[], Ret.nil⟩
  else
    match unwrapDeleted Object.assertServiceImport obj with
    | none => ⟨[], Ret.nil⟩
    | some si => deleteAndEnqueueFiltered lib numWorkers lib.ServiceImport si.Namespace si.Name

/-! ## Handlers of the Istio kinds and of ServiceImport -/

/-- The body of `AddFunc` of the three Istio handlers for an object of a kind with
this namespace, name and resource version: nothing when the resource-version
cache holds this version under the key, else one enqueue. -/
def istioAdd (lib : Lib) (numWorkers : Nat) (kind ns name resourceVersion : String) : Run :=
  let namespace_ := lib.SplitMetaNamespaceKey (lib.ObjKey ns name)
  let key := kind ++ "/" ++ lib.ObjKey ns name
  let found := lib.ResourceVerGet key
  let ok := found.1
  let resVer := found.2
  if ok && resVer == resourceVersion then ⟨[], Ret.nil⟩
  else ⟨[Event.AddRateLimited (lib.Bkt namespace_ numWorkers) key], Ret.nil⟩

/-- The enqueue inside `UpdateFunc` of the three Istio handlers. -/
def istioEnqueue (lib : Lib) (numWorkers : Nat) (kind ns name : String) : Run :=
  let namespace_ := lib.SplitMetaNamespaceKey (lib.ObjKey ns name)
  let key := kind ++ "/" ++ lib.ObjKey ns name
  ⟨[Event.AddRateLimited (lib.Bkt namespace_ numWorkers) key], Ret.nil⟩

/-- Embedding of `AddFunc` of the VirtualService handler. -/
def virtualServiceAddFunc (c : AviController) (lib : Lib) (numWorkers : Nat)
    (vs : VirtualService) : Run :=
  if c.DisableSync then ⟨[], Ret.nil⟩
  else istioAdd lib numWorkers lib.IstioVirtualService vs.Namespace vs.Name vs.ResourceVersion

/-- Embedding of `UpdateFunc` of the VirtualService handler. -/
def virtualServiceUpdateFunc (c : AviController) (lib : Lib) (numWorkers : Nat)
    (oldObj vs : VirtualService) : Run :=
  if c.DisableSync then ⟨[], Ret.nil⟩
  else if !lib.DeepEqualVirtualServiceSpec oldObj.Spec vs.Spec then
    istioEnqueue lib numWorkers lib.IstioVirtualService vs.Namespace vs.Name
  else ⟨[], Ret.nil⟩

/-- Embedding of `AddFunc` of the DestinationRule handler. -/
def destinationRuleAddFunc (c : AviController) (lib : Lib) (numWorkers : Nat)
    (dr : DestinationRule) : Run :=
  if c.DisableSync then ⟨[], Ret.nil⟩
  else istioAdd lib numWorkers lib.IstioDestinationRule dr.Namespace dr.Name dr.ResourceVersion

/-- Embedding of `UpdateFunc` of the DestinationRule handler. -/
def destinationRuleUpdateFunc (c : AviController) (lib : Lib) (numWorkers : Nat)
    (oldObj dr : DestinationRule) : Run :=
  if c.DisableSync then ⟨[], Ret.nil⟩
  else if !lib.DeepEqualDestinationRuleSpec oldObj.Spec dr.Spec then
    istioEnqueue lib numWorkers lib.IstioDestinationRule dr.Namespace dr.Name
  else ⟨[], Ret.nil⟩

/-- Embedding of `AddFunc` of the Gateway handler. -/
def gatewayAddFunc (c : AviController) (lib : Lib) (numWorkers : Nat) (vs : Gateway) : Run :=
  if c.DisableSync then ⟨[], Ret.nil⟩
  else istioAdd lib numWorkers lib.IstioGateway vs.Namespace vs.Name vs.ResourceVersion

/-- Embedding of `UpdateFunc` of the Gateway handler. -/
def gatewayUpdateFunc (c : AviController) (lib : Lib) (numWorkers : Nat)
    (oldObj vs : Gateway) : Run :=
  if c.DisableSync then ⟨[], Ret.nil⟩
  else if !lib.DeepEqualGatewaySpec oldObj.Spec vs.Spec then
    istioEnqueue lib numWorkers lib.IstioGateway vs.Namespace vs.Name
  else ⟨[], Ret.nil⟩

/-- Embedding of `validateServiceImportObj(key, serviceImport)`, which returns nil. -/
def validateServiceImportObj (key : String) (serviceImport : ServiceImport) : Run :=
  ⟨[], Ret.nil⟩

/-- The part shared by `AddFunc` and `UpdateFunc` of the ServiceImport handler,
from the computation of the key on: the namespace filter, the validation, whose
error would end the handler, and the enqueue. -/
def serviceImportAdmit (lib : Lib) (numWorkers : Nat) (si : ServiceImport) : Run :=
  let ns := lib.SplitMetaNamespaceKey (lib.ObjKey si.Namespace si.Name)
  let key := lib.ServiceImport ++ "/" ++ lib.ObjKey si.Namespace si.Name
  if lib.IsNamespaceBlocked ns || !lib.CheckIfNamespaceAccepted ns then ⟨[], Ret.nil⟩
  else
    let r := validateServiceImportObj key si
    match r.ret with
    | Ret.nil => ⟨r.trace ++ [Event.AddRateLimited (lib.Bkt ns numWorkers) key], Ret.nil⟩
    | Ret.error _ => ⟨r.trace, Ret.nil⟩
    | Ret.panic msg => ⟨r.trace, Ret.panic msg⟩

/-- Embedding of `AddFunc` of the ServiceImport handler. -/
def serviceImportAddFunc (c : AviController) (lib : Lib) (numWorkers : Nat)
    (si : ServiceImport) : Run :=
  if c.DisableSync then ⟨[], Ret.nil⟩
  else serviceImportAdmit lib numWorkers si

/-- Embedding of `UpdateFunc` of the ServiceImport handler. -/
def serviceImportUpdateFunc (c : AviController) (lib : Lib) (numWorkers : Nat)
    (oldObj si : ServiceImport) : Run :=
  if c.DisableSync then ⟨[], Ret.nil⟩
  else if !lib.DeepEqualServiceImportSpec oldObj.Spec si.Spec then
    serviceImportAdmit lib numWorkers si
  else ⟨[], Ret.nil⟩

/-! ## Observations on a trace -/

/-- The options of a status update of a HostRule, HTTPRule or AviInfraSetting. -/
def Event.statusOptions : Event → Option UpdateCRDStatusOptions
  | .UpdateHostRuleStatus _ o => some o
  | .UpdateHTTPRuleStatus _ o => some o
  | .UpdateAviInfraSettingStatus _ o => some o
  | _ => none

/-- Whether the event is a status update, of any kind. -/
def Event.isStatusWrite : Event → Bool
  | .UpdateHostRuleStatus _ _ => true
  | .UpdateHTTPRuleStatus _ _ => true
  | .UpdateAviInfraSettingStatus _ _ => true
  | .UpdateMultiClusterIngressStatus _ _ _ => true
  | _ => false

/-- Whether the event is a query to the controller made by reference resolution. -/
def Event.isControllerQuery : Event → Bool
  | .AviGet _ => true
  | .AviGetCollectionRaw _ => true
  | _ => false

/-- Whether the event is one of the controller calls of `addSeGroupLabel`. -/
def Event.isLabelCall : Event → Bool
  | .GetAviSeGroup _ => true
  | .ConfigureSeGroupLabels _ => true
  | _ => false

/-- Whether the event is a call of the controller, of either sort. -/
def Event.isControllerCall (e : Event) : Bool :=
  e.isControllerQuery || e.isLabelCall

/-- Whether the event is an `AddRateLimited` on a work queue. -/
def Event.isEnqueue : Event → Bool
  | .AddRateLimited _ _ => true
  | _ => false

/-- The status updates of a HostRule, HTTPRule or AviInfraSetting in a trace, in
order, by their options. -/
def statusWrites (trace : List Event) : List UpdateCRDStatusOptions :=
  trace.filterMap Event.statusOptions

/-! ## Sample inputs -/

/-- An environment with empty indices, no secrets, an empty controller inventory
and operator identity `ako-user`; `range` visits entries in stored order, `make`
returns slices of up to `2^48 / 24` raw messages, and every number literal but
`1e999` is in the range of `float64`. -/
def sampleEnv : Env where
  IPRegexMatch := fun _ => true
  IPCIDRRegexMatch := fun _ => true
  IPV6CIDRRegexMatch := fun _ => true
  HttpRulePkiAndDestCASetErr := "pkiProfile and destinationCA cannot both be set"
  AllowedApplicationProfile := "APPLICATION_PROFILE_TYPE_HTTP"
  GetAKOUser := "ako-user"
  IsPublicCloud := false
  UsesNetworkRef := false
  GetCloudUUID := "cloud-uuid"
  GetDisableStaticRoute := false
  DeepEqualGetLabels := fun _ => false
  StringifyLabels := fun _ => "labels"
  GetFQDNToHostruleMapping := fun _ => (false, "")
  GetAllFQDNToAliasesMapping := []
  SecretsGet := fun _ _ => some "secret not found"
  AviGet := fun _ => .error "unreachable"
  AviGetCollectionRaw := fun _ => .ok ⟨0, some (Json.arr [])⟩
  GetAviSeGroup := fun _ => true
  MaxSliceLen := 11728124029610
  ParseFloatFits := fun literal => !(literal == "1e999")
  rangeOrder := fun m => m
  rangeOrder_perm := fun m => List.Perm.refl m

/-- A HostRule `namespace/name` for `fqdn` with every other field blank. -/
def sampleHostRule (ns name fqdn : String) : HostRule where
  Namespace := ns
  Name := name
  ResourceVersion := "1"
  Spec := ⟨{
    Fqdn := fqdn
    FqdnType := Exact
    TCPSettings := none
    Gslb := ⟨""⟩
    Aliases := none
    WAFPolicy := ""
    ApplicationProfile := ""
    TLS := ⟨⟨"", "", ⟨"", ""⟩⟩, ""⟩
    AnalyticsProfile := ""
    ErrorPageProfile := ""
    HTTPPolicy := ⟨[]⟩
    Datascripts := [] }⟩
  Status := ⟨"", ""⟩

/-- The indices once HostRule `default/a` with FQDN `a.example.com` and no
aliases is recorded: it owns its FQDN, and its alias list is empty. -/
def envWithA : Env :=
  { sampleEnv with
    GetFQDNToHostruleMapping := fun fqdn =>
      if fqdn == "a.example.com" then (true, "default/a") else (false, "")
    GetAllFQDNToAliasesMapping := [("a.example.com", [])] }

/-- HostRule `default/b` with FQDN `b.example.com`, exact match and the single
alias `a.example.com`. -/
def hostRuleB : HostRule :=
  { sampleHostRule "default" "b" "b.example.com" with
    Spec := ⟨{ (sampleHostRule "default" "b" "b.example.com").Spec.VirtualHost with
      Aliases := some ["a.example.com"] }⟩ }

/-- The indices once a HostRule with FQDN `c.example.com` and the alias
`a.example.com` is recorded. -/
def envWithAliasOfC : Env :=
  { sampleEnv with
    GetFQDNToHostruleMapping := fun fqdn =>
      if fqdn == "c.example.com" then (true, "default/c") else (false, "")
    GetAllFQDNToAliasesMapping := [("c.example.com", ["a.example.com"])] }

/-- HostRule `default/t` with one TCP listener, SSL disabled. -/
def hostRuleNoSSL : HostRule :=
  { sampleHostRule "default" "t" "t.example.com" with
    Spec := ⟨{ (sampleHostRule "default" "t" "t.example.com").Spec.VirtualHost with
      TCPSettings := some ⟨[⟨false⟩], ""⟩ }⟩ }

/-- A public cloud that looks networks up by UUID; the controller answers every
such lookup with an object created by `ako-user`, the operator identity. -/
def envPublicCloud : Env :=
  { sampleEnv with
    IsPublicCloud := true
    UsesNetworkRef := true
    AviGet := fun _ =>
      .ok (GoValue.mapStringInterface
        [("name", Json.str "subnet-1"), ("created_by", Json.str "ako-user")]) }

/-- A controller whose collections all hold one object, created by `ako-user`,
the operator identity. -/
def envOwnObjects : Env :=
  { sampleEnv with
    AviGetCollectionRaw := fun _ =>
      .ok ⟨1, some (Json.arr [Json.obj
        [("name", Json.str "waf-1"), ("created_by", Json.str "ako-user")]])⟩ }

/-- A controller that holds the application profile `shared-name`, of the allowed
type, and nothing else: every other collection query has no result.  `range`
visits the entries of a map in stored order, or in the opposite order when
`reversed` is set. -/
def envOnlyAppProfile (reversed : Bool) : Env :=
  { sampleEnv with
    AviGetCollectionRaw := fun uri =>
      if uri == "/api/applicationprofile?name=shared-name&fields=name,type,labels,created_by" then
        .ok ⟨1, some (Json.arr [Json.obj
          [("name", Json.str "shared-name"), ("type", Json.str "APPLICATION_PROFILE_TYPE_HTTP")]])⟩
      else .ok ⟨0, some (Json.arr [])⟩
    rangeOrder := fun m => if reversed then m.reverse else m
    rangeOrder_perm := fun m => by
      cases reversed
      · exact List.Perm.refl m
      · exact List.reverse_perm m }

/-- HostRule `default/s` that names `shared-name` both as its WAF policy and as
its application profile. -/
def hostRuleSharedName : HostRule :=
  { sampleHostRule "default" "s" "s.example.com" with
    Spec := ⟨{ (sampleHostRule "default" "s" "s.example.com").Spec.VirtualHost with
      WAFPolicy := "shared-name"
      ApplicationProfile := "shared-name" }⟩ }

/-- A controller on which the SE group `seg-1` carries the label
`clustername = other-cluster`, which is not the expected label set. -/
def envSeGroupLabelled : Env :=
  { sampleEnv with
    DeepEqualGetLabels := fun _ => false
    AviGetCollectionRaw := fun uri =>
      if uri == "/api/serviceenginegroup?name=seg-1&fields=name,type,labels,created_by" then
        .ok ⟨1, some (Json.arr [Json.obj
          [("name", Json.str "seg-1"),
           ("labels", Json.arr [Json.obj
              [("key", Json.str "clustername"), ("value", Json.str "other-cluster")]])]])⟩
      else .ok ⟨0, some (Json.arr [])⟩ }

/-- AviInfraSetting `infra-1` that names the SE group `seg-1` and nothing else. -/
def infraSettingSeg : AviInfraSetting where
  Namespace := ""
  Name := "infra-1"
  ResourceVersion := "1"
  Spec := ⟨⟨[], none, []⟩, ⟨"seg-1"⟩⟩
  Status := ⟨"", ""⟩

/-- AviInfraSetting `infra-2` with a BGP peer label and `EnableRhi` unset. -/
def infraSettingBgp : AviInfraSetting where
  Namespace := ""
  Name := "infra-2"
  ResourceVersion := "1"
  Spec := ⟨⟨[⟨"net-1", "10.0.0.0/33", ""⟩], none, ["peer-1"]⟩, ⟨"seg-1"⟩⟩
  Status := ⟨"", ""⟩

/-- HTTPRule `default/r` with one path that sets both the PKI profile `p1` and
the destination CA `ca-data`. -/
def httpRulePkiAndCA : HTTPRule where
  Namespace := "default"
  Name := "r"
  ResourceVersion := "1"
  Spec := ⟨[⟨⟨"ssl-1", "p1", "ca-data"⟩, "", ["hm-1"]⟩]⟩
  Status := ⟨"", ""⟩

/-- The pieces of a character list between occurrences of `sep`. -/
def splitOnChar (sep : Char) : List Char → List (List Char)
  | [] => [[]]
  | c :: cs =>
    if c == sep then [] :: splitOnChar sep cs
    else
      match splitOnChar sep cs with
      | [] => [[c]]
      | piece :: pieces => (c :: piece) :: pieces

/-- Whether the characters are a decimal numeral without a leading zero whose
value is at most `bound`. -/
def decimalAtMost (bound : Nat) (cs : List Char) : Bool :=
  !cs.isEmpty && cs.all Char.isDigit && (cs.length == 1 || cs.head? != some '0') &&
    decide (cs.foldl (fun n c => 10 * n + (c.toNat - 48)) 0 ≤ bound)

/-- Modelled from the spec: strict IPv4 CIDR syntax, four octets of at most 255
and a prefix length of at most 32; stands in sample environments for the
matcher of `lib.IPCIDRRegex`, a constant that is not part of the sources at
hand. -/
def strictIPv4CIDR (s : String) : Bool :=
  match splitOnChar '/' s.data with
  | [addr, pfx] =>
    decimalAtMost 32 pfx &&
      (match splitOnChar '.' addr with
       | [a, b, c, d] =>
         decimalAtMost 255 a && decimalAtMost 255 b && decimalAtMost 255 c && decimalAtMost 255 d
       | _ => false)
  | _ => false

/-- The sample environment with the strict IPv4 CIDR matcher. -/
def envStrictCIDR : Env :=
  { sampleEnv with IPCIDRRegexMatch := strictIPv4CIDR }

/-- AviInfraSetting `infra-3` with two VIP networks and an SE group; the second
network has the CIDR `10.0.0.0/33`. -/
def infraSettingBadCidr : AviInfraSetting where
  Namespace := ""
  Name := "infra-3"
  ResourceVersion := "1"
  Spec := ⟨⟨[⟨"net-1", "10.0.0.0/24", ""⟩, ⟨"net-2", "10.0.0.0/33", ""⟩], none, []⟩, ⟨"seg-1"⟩⟩
  Status := ⟨"", ""⟩

/-- Sample reads of the handlers: object keys are `namespace/name` (the bare
name without a namespace), the shard is the length of the namespace modulo the
number of workers, every namespace is admitted, the cluster runs in NodePort and
EVH mode, the resource-version cache is empty, and two specs are deeply equal
when their texts are the same. -/
def sampleLib : Lib where
  HostRule := "HostRule"
  HTTPRule := "HTTPRule"
  AviInfraSetting := "AviInfraSetting"
  MultiClusterIngress := "MultiClusterIngress"
  ServiceImport := "ServiceImport"
  IstioVirtualService := "IstioVirtualService"
  IstioDestinationRule := "IstioDestinationRule"
  IstioGateway := "IstioGateway"
  ObjKey := fun ns name => if ns == "" then name else ns ++ "/" ++ name
  SplitMetaNamespaceKey := fun objKey =>
    match splitOnChar '/' objKey.data with
    | [ns, _] => String.mk ns
    | _ => ""
  Bkt := fun ns numWorkers => ns.length % numWorkers
  IsNamespaceBlocked := fun _ => false
  CheckIfNamespaceAccepted := fun _ => true
  IsNodePortMode := true
  IsEvhEnabled := true
  ResourceVerGet := fun _ => (false, "")
  DeepEqualMultiClusterIngressSpec := fun a b => a.Value == b.Value
  DeepEqualServiceImportSpec := fun a b => a.Value == b.Value
  DeepEqualVirtualServiceSpec := fun a b => a.Value == b.Value
  DeepEqualDestinationRuleSpec := fun a b => a.Value == b.Value
  DeepEqualGatewaySpec := fun a b => a.Value == b.Value

/-- HostRule `default/a` for `a.example.com`, already Accepted. -/
def hostRuleAccepted : HostRule :=
  { sampleHostRule "default" "a" "a.example.com" with Status := ⟨StatusAccepted, ""⟩ }

/-- HTTPRule `default/r` with one path without references, already Accepted. -/
def httpRuleAccepted : HTTPRule where
  Namespace := "default"
  Name := "r"
  ResourceVersion := "1"
  Spec := ⟨[⟨⟨"", "", ""⟩, "", []⟩]⟩
  Status := ⟨StatusAccepted, ""⟩

/-- AviInfraSetting `infra-4` without networks and SE group, already Accepted. -/
def infraSettingAccepted : AviInfraSetting where
  Namespace := ""
  Name := "infra-4"
  ResourceVersion := "1"
  Spec := ⟨⟨[], none, []⟩, ⟨""⟩⟩
  Status := ⟨StatusAccepted, ""⟩

/-- MultiClusterIngress `default/m` with one backend. -/
def sampleMCI : MultiClusterIngress where
  Namespace := "default"
  Name := "m"
  ResourceVersion := "1"
  Spec := ⟨"hostName: m.example.com, config: [/ on cluster-1]", [⟨"/ on cluster-1"⟩]⟩

/-- MultiClusterIngress `default/e` whose `Spec.Config` is a nil slice. -/
def emptyMCI : MultiClusterIngress where
  Namespace := "default"
  Name := "e"
  ResourceVersion := "1"
  Spec := ⟨"hostName: e.example.com, config: nil", []⟩

/-- Sample helpers of the change filters: a spec is rendered by its FQDN, by the
number of its paths, or by its SE group, and a string is hashed to its length. -/
def sampleUtils : Utils where
  StringifyHostRuleSpec := fun spec => spec.VirtualHost.Fqdn
  StringifyHTTPRuleSpec := fun spec => String.mk (List.replicate spec.Paths.length 'p')
  StringifyAviInfraSettingSpec := fun spec => spec.SeGroup.Name
  Hash := fun s => s.length

/-- A controller whose collections all hold one result that is not an object,
the number `42`. -/
def envNonObjectResult : Env :=
  { sampleEnv with
    AviGetCollectionRaw := fun _ => .ok ⟨1, some (Json.arr [Json.num "42"])⟩ }

/-- A controller that cannot be reached: every collection query fails. -/
def envUnreachable : Env :=
  { sampleEnv with AviGetCollectionRaw := fun _ => .error "connection refused" }

/-- A controller whose collections all hold one object without a `type` field. -/
def envNoType : Env :=
  { sampleEnv with
    AviGetCollectionRaw := fun _ =>
      .ok ⟨1, some (Json.arr [Json.obj [("name", Json.str "ap-1")]])⟩ }

/-- A controller whose collections all hold one object of type
`APPLICATION_PROFILE_TYPE_L4`. -/
def envL4Type : Env :=
  { sampleEnv with
    AviGetCollectionRaw := fun _ =>
      .ok ⟨1, some (Json.arr [Json.obj
        [("name", Json.str "ap-1"), ("type", Json.str "APPLICATION_PROFILE_TYPE_L4")]])⟩ }

/-- HostRule `default/w` with FQDN type `Wildcard` and a non-nil, empty alias
list. -/
def hostRuleWildcardAliases : HostRule :=
  { sampleHostRule "default" "w" "w.example.com" with
    Spec := ⟨{ (sampleHostRule "default" "w" "w.example.com").Spec.VirtualHost with
      FqdnType := "Wildcard"
      Aliases := some [] }⟩ }

/-- The sample environment with static route sync disabled. -/
def envNoStaticRoute : Env :=
  { sampleEnv with GetDisableStaticRoute := true }

/-- A controller whose collections all hold the one object `seg-1`, without
labels. -/
def envSeGroup : Env :=
  { sampleEnv with
    AviGetCollectionRaw := fun _ =>
      .ok ⟨1, some (Json.arr [Json.obj [("name", Json.str "seg-1")]])⟩ }

/-- ServiceImport `default/si` of the service `svc` in `cluster-1`. -/
def sampleServiceImport : ServiceImport where
  Namespace := "default"
  Name := "si"
  ResourceVersion := "1"
  Spec := ⟨"cluster: cluster-1, service: svc"⟩

/-- VirtualService `default/vs` at resource version `7`, whose `Hosts` is an
empty slice that is not nil. -/
def sampleVirtualService : VirtualService where
  Namespace := "default"
  Name := "vs"
  ResourceVersion := "7"
  Spec := ⟨"hosts: [], gateways: [gw]"⟩
  Status := ""

/-- DestinationRule `default/dr` at resource version `7`, whose `ExportTo` is a
nil slice. -/
def sampleDestinationRule : DestinationRule where
  Namespace := "default"
  Name := "dr"
  ResourceVersion := "7"
  Spec := ⟨"host: svc.default.svc.cluster.local, exportTo: nil"⟩
  Status := ""

/-- Gateway `default/gw` at resource version `7`, whose `Selector` is an empty
map that is not nil. -/
def sampleGateway : Gateway where
  Namespace := "default"
  Name := "gw"
  ResourceVersion := "7"
  Spec := ⟨"servers: [https-443], selector: map[]"⟩
  Status := ""

/-- The sample reads with a resource-version cache that holds version `7` under
every key. -/
def libCachedSeven : Lib :=
  { sampleLib with ResourceVerGet := fun _ => (true, "7") }

/-- The sample reads with the namespace `default` blocked. -/
def libDefaultBlocked : Lib :=
  { sampleLib with IsNamespaceBlocked := fun ns => ns == "default" }

/-- HostRule `default/a` that names the WAF policy `waf-1` and nothing else. -/
def hostRuleWaf : HostRule :=
  { sampleHostRule "default" "a" "a.example.com" with
    Spec := ⟨{ (sampleHostRule "default" "a" "a.example.com").Spec.VirtualHost with
      WAFPolicy := "waf-1" }⟩ }

/-- A controller whose collections all hold one object with a number that is
outside the range of `float64`. -/
def envNumberOutOfRange : Env :=
  { sampleEnv with
    AviGetCollectionRaw := fun _ =>
      .ok ⟨1, some (Json.arr [Json.obj
        [("name", Json.str "waf-1"), ("weight", Json.num "1e999")]])⟩ }

/-- A controller whose collections all report one result and return an empty
results array. -/
def envEmptyResults : Env :=
  { sampleEnv with AviGetCollectionRaw := fun _ => .ok ⟨1, some (Json.arr [])⟩ }

end AKO

/-! # Theorems -/

namespace AKO

/-! ## Change filter -/

/-- C1: each of the three change filters returns true exactly when the resource
versions differ and the hashes of `Stringify(Spec) + Status.Status` differ; with
the new object carrying the old resource version it returns false. -/
theorem C1_change_filter_iff (u : Utils) :
    (∀ o n : HostRule,
      (isHostRuleUpdated u o n = true ↔
        (o.ResourceVersion ≠ n.ResourceVersion ∧
          u.Hash (u.StringifyHostRuleSpec o.Spec ++ o.Status.Status) ≠
            u.Hash (u.StringifyHostRuleSpec n.Spec ++ n.Status.Status))) ∧
      isHostRuleUpdated u o { n with ResourceVersion := o.ResourceVersion } = false) ∧
    (∀ o n : HTTPRule,
      (isHTTPRuleUpdated u o n = true ↔
        (o.ResourceVersion ≠ n.ResourceVersion ∧
          u.Hash (u.StringifyHTTPRuleSpec o.Spec ++ o.Status.Status) ≠
            u.Hash (u.StringifyHTTPRuleSpec n.Spec ++ n.Status.Status))) ∧
      isHTTPRuleUpdated u o { n with ResourceVersion := o.ResourceVersion } = false) ∧
    (∀ o n : AviInfraSetting,
      (isAviInfraUpdated u o n = true ↔
        (o.ResourceVersion ≠ n.ResourceVersion ∧
          u.Hash (u.StringifyAviInfraSettingSpec o.Spec ++ o.Status.Status) ≠
            u.Hash (u.StringifyAviInfraSettingSpec n.Spec ++ n.Status.Status))) ∧
      isAviInfraUpdated u o { n with ResourceVersion := o.ResourceVersion } = false) := by
  refine ⟨fun o n => ⟨?_, ?_⟩, fun o n => ⟨?_, ?_⟩, fun o n => ⟨?_, ?_⟩⟩
  · unfold isHostRuleUpdated
    by_cases h : o.ResourceVersion = n.ResourceVersion <;> simp [h]
  · simp [isHostRuleUpdated]
  · unfold isHTTPRuleUpdated
    by_cases h : o.ResourceVersion = n.ResourceVersion <;> simp [h]
  · simp [isHTTPRuleUpdated]
  · unfold isAviInfraUpdated
    by_cases h : o.ResourceVersion = n.ResourceVersion <;> simp [h]
  · simp [isAviInfraUpdated]

/-! ## Frame lemmas -/

/-- The reference loop gives the same run in two environments whose single
reference checks agree. -/
theorem checkRefsLoop_congr (env env' : Env) (key : String)
    (h : ∀ v k, checkRefOnController env key v k = checkRefOnController env' key v k)
    (l : List (String × String)) :
    checkRefsLoop env key l = checkRefsLoop env' key l := by
  induction l with
  | nil => rfl
  | cons e rest ih =>
    obtain ⟨k, v⟩ := e
    simp only [checkRefsLoop, h, ih]

/-! ## HostRule validation -/

/-- C2: when the FQDN-to-owner index records the FQDN for an owner other than
`Namespace/Name`, validation makes one outside call, the Rejected status write
with reason `duplicate fqdn <fqdn> found in <owner>`, and returns that error;
when the index records the HostRule itself or nothing, the first check passes
and the run is the one obtained with an empty index. -/
theorem C2_duplicate_fqdn (env : Env) (key : String) (h : HostRule) :
    (∀ owner : String,
      env.GetFQDNToHostruleMapping h.Spec.VirtualHost.Fqdn = (true, owner) →
      owner ≠ h.Namespace ++ "/" ++ h.Name →
      validateHostRuleObj env key h =
        ⟨[Event.UpdateHostRuleStatus key
            ⟨StatusRejected, "duplicate fqdn " ++ h.Spec.VirtualHost.Fqdn ++ " found in " ++ owner⟩],
          Ret.error ("duplicate fqdn " ++ h.Spec.VirtualHost.Fqdn ++ " found in " ++ owner)⟩) ∧
    ((env.GetFQDNToHostruleMapping h.Spec.VirtualHost.Fqdn).1 = false ∨
        (env.GetFQDNToHostruleMapping h.Spec.VirtualHost.Fqdn).2 = h.Namespace ++ "/" ++ h.Name →
      checkDuplicateFqdn env h = none ∧
      validateHostRuleObj env key h =
        validateHostRuleObj { env with GetFQDNToHostruleMapping := fun _ => (false, "") } key h) := by
  constructor
  · intro owner hidx hne
    simp [validateHostRuleObj, hostRuleLocalError, checkDuplicateFqdn, hidx, hne, rejectHostRule]
  · intro hno
    have hdup : checkDuplicateFqdn env h = none := by
      unfold checkDuplicateFqdn
      rcases hno with hno | hno <;> simp [hno]
    have hdup' : checkDuplicateFqdn
        { env with GetFQDNToHostruleMapping := fun _ => (false, "") } h = none := by
      simp [checkDuplicateFqdn]
    refine ⟨hdup, ?_⟩
    have hrefs : ∀ m : RefMap,
        checkRefsOnController { env with GetFQDNToHostruleMapping := fun _ => (false, "") } key m
          = checkRefsOnController env key m := by
      intro m
      unfold checkRefsOnController
      exact checkRefsLoop_congr { env with GetFQDNToHostruleMapping := fun _ => (false, "") } env
        key (fun _ _ => rfl) (env.rangeOrder m)
    unfold validateHostRuleObj hostRuleLocalError
    rw [hdup, hdup']
    simp only [hrefs]
    rfl

/-- Witness for C2: `default/b` asks for an FQDN recorded for `default/a` and is
rejected; `default/a` asks for it and passes the first check. -/
theorem C2_duplicate_fqdn_witness :
    validateHostRuleObj
        { sampleEnv with GetFQDNToHostruleMapping := fun _ => (true, "default/a") } "HostRule/default/b"
        (sampleHostRule "default" "b" "a.example.com") =
      ⟨[Event.UpdateHostRuleStatus "HostRule/default/b"
          ⟨StatusRejected, "duplicate fqdn " ++ "a.example.com" ++ " found in " ++ "default/a"⟩],
        Ret.error ("duplicate fqdn " ++ "a.example.com" ++ " found in " ++ "default/a")⟩ ∧
    checkDuplicateFqdn
        { sampleEnv with GetFQDNToHostruleMapping := fun _ => (true, "default/a") }
        (sampleHostRule "default" "a" "a.example.com") = none :=
  ⟨(C2_duplicate_fqdn _ "HostRule/default/b" (sampleHostRule "default" "b" "a.example.com")).1
      "default/a" rfl (by decide),
   ((C2_duplicate_fqdn { sampleEnv with GetFQDNToHostruleMapping := fun _ => (true, "default/a") }
      "HostRule/default/a" (sampleHostRule "default" "a" "a.example.com")).2
      (Or.inr (by decide))).1⟩

/-- The reference check of a whole map gives the same run in two environments
that visit maps in the same order and whose single reference checks agree. -/
theorem checkRefsOnController_congr (env env' : Env) (key : String)
    (horder : env.rangeOrder = env'.rangeOrder)
    (h : ∀ v k, checkRefOnController env key v k = checkRefOnController env' key v k)
    (m : RefMap) :
    checkRefsOnController env key m = checkRefsOnController env' key m := by
  unfold checkRefsOnController
  rw [horder]
  exact checkRefsLoop_congr env env' key h _
/-! ## The alias index -/

/-- The alias search finds nothing exactly when no alias list recorded under
another FQDN contains one of the aliases. -/
theorem findAliasInUse_eq_none_iff (fqdn : String) (aliases : List String)
    (idx : List (String × List String)) :
    findAliasInUse fqdn aliases idx = none ↔
      ∀ e ∈ idx, e.1 ≠ fqdn → ∀ a ∈ aliases, a ∉ e.2 := by
  induction idx with
  | nil => simp [findAliasInUse]
  | cons e rest ih =>
    obtain ⟨f, cached⟩ := e
    by_cases hf : f = fqdn
    · simp [findAliasInUse, hf, ih]
    · cases hfind : aliases.find? (fun alias_ => HasElem cached alias_) with
      | none =>
        have hnone := List.find?_eq_none.mp hfind
        simp only [findAliasInUse, beq_iff_eq, hf, if_false, hfind, ih, List.mem_cons,
          forall_eq_or_imp, ne_eq, not_false_eq_true, true_implies]
        constructor
        · intro h
          refine ⟨fun a ha hmem => ?_, h⟩
          exact hnone a ha (by simpa [HasElem] using hmem)
        · intro h
          exact h.2
      | some a =>
        have hmem := List.mem_of_find?_eq_some hfind
        have hin := List.find?_some hfind
        simp only [findAliasInUse, beq_iff_eq, hf, if_false, hfind, List.mem_cons,
          forall_eq_or_imp, ne_eq, not_false_eq_true, true_implies]
        constructor
        · intro h
          cases h
        · intro h
          exact absurd (by simpa [HasElem] using hin) (h.1 a hmem)

/-- What the alias search returns is an alias of the HostRule recorded in the
alias list of another FQDN. -/
theorem findAliasInUse_eq_some (fqdn : String) (aliases : List String)
    (idx : List (String × List String)) (a f : String)
    (h : findAliasInUse fqdn aliases idx = some (a, f)) :
    a ∈ aliases ∧ f ≠ fqdn ∧ ∃ cached, (f, cached) ∈ idx ∧ a ∈ cached := by
  induction idx with
  | nil => simp [findAliasInUse] at h
  | cons e rest ih =>
    obtain ⟨f', cached⟩ := e
    by_cases hf : f' = fqdn
    · simp only [findAliasInUse, hf, beq_self_eq_true, if_true] at h
      obtain ⟨h1, h2, c, hc, hac⟩ := ih h
      exact ⟨h1, h2, c, List.mem_cons_of_mem _ hc, hac⟩
    · cases hfind : aliases.find? (fun alias_ => HasElem cached alias_) with
      | none =>
        simp only [findAliasInUse, beq_iff_eq, hf, if_false, hfind] at h
        obtain ⟨h1, h2, c, hc, hac⟩ := ih h
        exact ⟨h1, h2, c, List.mem_cons_of_mem _ hc, hac⟩
      | some a' =>
        simp only [findAliasInUse, beq_iff_eq, hf, if_false, hfind, Option.some.injEq,
          Prod.mk.injEq] at h
        obtain ⟨rfl, rfl⟩ := h
        have hmem := List.mem_of_find?_eq_some hfind
        have hin := List.find?_some hfind
        exact ⟨hmem, hf, cached, List.mem_cons_self _ _, by simpa [HasElem] using hin⟩

/-! ## Local checks of a HostRule -/

/-- A failing local check ends validation with the Rejected status write as its
only outside call. -/
theorem validateHostRuleObj_of_localError (env : Env) (key : String) (h : HostRule)
    (msg : String) (hl : hostRuleLocalError env h = some msg) :
    validateHostRuleObj env key h = rejectHostRule key [] msg := by
  simp [validateHostRuleObj, hl]

/-- A failing listener check makes the local checks fail. -/
theorem hostRuleLocalError_of_listeners (env : Env) (h : HostRule) (m : String)
    (hc : checkListenersSSL h = some m) : ∃ msg, hostRuleLocalError env h = some msg := by
  unfold hostRuleLocalError
  cases checkDuplicateFqdn env h <;> cases checkLoadBalancerIP env h <;>
    cases checkGslbFqdn h <;> simp [hc]

/-- A failing alias check makes the local checks fail. -/
theorem hostRuleLocalError_of_aliases (env : Env) (h : HostRule) (m : String)
    (hc : checkAliases env h = some m) : ∃ msg, hostRuleLocalError env h = some msg := by
  unfold hostRuleLocalError
  cases checkDuplicateFqdn env h <;> cases checkLoadBalancerIP env h <;>
    cases checkGslbFqdn h <;> cases checkListenersSSL h <;> simp [hc]

/-- Validation of a HostRule depends on the environment only through the local
checks, the secret lister and the reference checks. -/
theorem validateHostRuleObj_congr (env env' : Env) (key : String) (h : HostRule)
    (hlocal : hostRuleLocalError env h = hostRuleLocalError env' h)
    (hsecret : env.SecretsGet = env'.SecretsGet)
    (hrefs : ∀ m : RefMap, checkRefsOnController env key m = checkRefsOnController env' key m) :
    validateHostRuleObj env key h = validateHostRuleObj env' key h := by
  unfold validateHostRuleObj secretCheck
  rw [hlocal, hsecret]
  simp only [hrefs]

/-- C3 (amended): a HostRule one of whose aliases is recorded, in the
FQDN-to-aliases index, among the aliases of a different FQDN is rejected: one
outside call, the Rejected status write, and an error.  When no alias is so
recorded, the run is the one obtained with an empty alias index and with no
FQDN but its own in the FQDN-to-owner index: a record of another HostRule whose
primary FQDN equals an alias changes nothing. -/
theorem C3_alias_of_other_hostrule (env : Env) (key : String) (h : HostRule)
    (aliases : List String) (hal : h.Spec.VirtualHost.Aliases = some aliases) :
    ((∃ e ∈ env.GetAllFQDNToAliasesMapping,
          e.1 ≠ h.Spec.VirtualHost.Fqdn ∧ ∃ a ∈ aliases, a ∈ e.2) →
      ∃ msg, validateHostRuleObj env key h =
        ⟨[Event.UpdateHostRuleStatus key ⟨StatusRejected, msg⟩], Ret.error msg⟩) ∧
    ((∀ e ∈ env.GetAllFQDNToAliasesMapping,
          e.1 ≠ h.Spec.VirtualHost.Fqdn → ∀ a ∈ aliases, a ∉ e.2) →
      validateHostRuleObj env key h =
        validateHostRuleObj
          { env with
            GetAllFQDNToAliasesMapping := []
            GetFQDNToHostruleMapping := fun fqdn =>
              if fqdn == h.Spec.VirtualHost.Fqdn then env.GetFQDNToHostruleMapping fqdn
              else (false, "") }
          key h) := by
  constructor
  · rintro ⟨e, he, hne, a, ha, hae⟩
    have hfind : findAliasInUse h.Spec.VirtualHost.Fqdn aliases env.GetAllFQDNToAliasesMapping
        ≠ none := by
      intro hnone
      exact (findAliasInUse_eq_none_iff _ _ _).mp hnone e he hne a ha hae
    have hsome : ∃ m, checkAliases env h = some m := by
      unfold checkAliases
      simp only [hal]
      split_ifs
      · exact ⟨_, rfl⟩
      · exact ⟨_, rfl⟩
      · exact ⟨_, rfl⟩
      · exact ⟨_, rfl⟩
      · cases hres : findAliasInUse h.Spec.VirtualHost.Fqdn aliases env.GetAllFQDNToAliasesMapping with
        | none => exact absurd hres hfind
        | some p => exact ⟨_, rfl⟩
    obtain ⟨m, hm⟩ := hsome
    obtain ⟨msg, hmsg⟩ := hostRuleLocalError_of_aliases env h m hm
    exact ⟨msg, by rw [validateHostRuleObj_of_localError env key h msg hmsg]; rfl⟩
  · intro hfree
    have hfind : findAliasInUse h.Spec.VirtualHost.Fqdn aliases env.GetAllFQDNToAliasesMapping
        = none := (findAliasInUse_eq_none_iff _ _ _).mpr hfree
    apply validateHostRuleObj_congr
    · unfold hostRuleLocalError
      have h1 : checkDuplicateFqdn env h = checkDuplicateFqdn
          { env with
            GetAllFQDNToAliasesMapping := []
            GetFQDNToHostruleMapping := fun fqdn =>
              if fqdn == h.Spec.VirtualHost.Fqdn then env.GetFQDNToHostruleMapping fqdn
              else (false, "") } h := by
        simp [checkDuplicateFqdn]
      have h2 : checkAliases env h = checkAliases
          { env with
            GetAllFQDNToAliasesMapping := []
            GetFQDNToHostruleMapping := fun fqdn =>
              if fqdn == h.Spec.VirtualHost.Fqdn then env.GetFQDNToHostruleMapping fqdn
              else (false, "") } h := by
        simp [checkAliases, hal, hfind, findAliasInUse]
      rw [h1, h2]
      rfl
    · rfl
    · exact checkRefsOnController_congr _ _ key rfl (fun _ _ => rfl)

/-- C4: a HostRule that passes the checks before the alias search and has an
alias recorded among the aliases of a different FQDN is rejected with the reason
`<alias> is already in use by hostrule <FQDN>` for such a pair, the status write
being its only outside call; and whatever the earlier checks say, such a
HostRule is never accepted. -/
theorem C4_alias_in_use (env : Env) (key : String) (h : HostRule) (aliases : List String)
    (hal : h.Spec.VirtualHost.Aliases = some aliases)
    (hconf : ∃ e ∈ env.GetAllFQDNToAliasesMapping,
      e.1 ≠ h.Spec.VirtualHost.Fqdn ∧ ∃ a ∈ aliases, a ∈ e.2) :
    (checkDuplicateFqdn env h = none → checkLoadBalancerIP env h = none →
      checkGslbFqdn h = none → checkListenersSSL h = none →
      h.Spec.VirtualHost.FqdnType = Exact → HasElem aliases h.Spec.VirtualHost.Fqdn = false →
      ContainsDuplicate aliases = false →
      (h.Spec.VirtualHost.Gslb.Fqdn = "" ∨ HasElem aliases h.Spec.VirtualHost.Gslb.Fqdn = false) →
      ∃ a f cached, a ∈ aliases ∧ f ≠ h.Spec.VirtualHost.Fqdn ∧
        (f, cached) ∈ env.GetAllFQDNToAliasesMapping ∧ a ∈ cached ∧
        validateHostRuleObj env key h =
          ⟨[Event.UpdateHostRuleStatus key
              ⟨StatusRejected, a ++ " is already in use by hostrule " ++ f⟩],
            Ret.error (a ++ " is already in use by hostrule " ++ f)⟩) ∧
    (validateHostRuleObj env key h).ret ≠ Ret.nil ∧
    (∀ o, Event.UpdateHostRuleStatus key o ∈ (validateHostRuleObj env key h).trace →
      o.Status = StatusRejected) := by
  obtain ⟨e, he, hne, a, ha, hae⟩ := hconf
  have hfind : findAliasInUse h.Spec.VirtualHost.Fqdn aliases env.GetAllFQDNToAliasesMapping
      ≠ none := by
    intro hnone
    exact (findAliasInUse_eq_none_iff _ _ _).mp hnone e he hne a ha hae
  refine ⟨?_, ?_⟩
  · intro h1 h2 h3 h4 hexact hself hdup hgslb
    cases hres : findAliasInUse h.Spec.VirtualHost.Fqdn aliases env.GetAllFQDNToAliasesMapping with
    | none => exact absurd hres hfind
    | some p =>
      obtain ⟨a', f'⟩ := p
      obtain ⟨m1, m2, cached, m3, m4⟩ := findAliasInUse_eq_some _ _ _ _ _ hres
      refine ⟨a', f', cached, m1, m2, m3, m4, ?_⟩
      have hca : checkAliases env h = some (a' ++ " is already in use by hostrule " ++ f') := by
        unfold checkAliases
        rcases hgslb with hg | hg <;> simp [hal, hexact, hself, hdup, hg, hres]
      have hl : hostRuleLocalError env h
          = some (a' ++ " is already in use by hostrule " ++ f') := by
        simp [hostRuleLocalError, h1, h2, h3, h4, hca]
      rw [validateHostRuleObj_of_localError env key h _ hl]
      rfl
  · have hsome : ∃ m, checkAliases env h = some m := by
      unfold checkAliases
      simp only [hal]
      split_ifs
      · exact ⟨_, rfl⟩
      · exact ⟨_, rfl⟩
      · exact ⟨_, rfl⟩
      · exact ⟨_, rfl⟩
      · cases hres : findAliasInUse h.Spec.VirtualHost.Fqdn aliases env.GetAllFQDNToAliasesMapping with
        | none => exact absurd hres hfind
        | some p => exact ⟨_, rfl⟩
    obtain ⟨m, hm⟩ := hsome
    obtain ⟨msg, hmsg⟩ := hostRuleLocalError_of_aliases env h m hm
    rw [validateHostRuleObj_of_localError env key h msg hmsg]
    simp [rejectHostRule]

/-- C5: a HostRule with TCP settings whose listener list is non-empty and has no
listener with SSL enabled is rejected in every environment: validation makes one
outside call, a Rejected status write, and returns the error written. -/
theorem C5_listeners_without_ssl (env : Env) (key : String) (h : HostRule)
    (tcpSettings : HostRuleTCPSettings)
    (htcp : h.Spec.VirtualHost.TCPSettings = some tcpSettings)
    (hne : tcpSettings.Listeners ≠ [])
    (hssl : ∀ listener ∈ tcpSettings.Listeners, listener.EnableSSL = false) :
    ∃ msg, validateHostRuleObj env key h =
        ⟨[Event.UpdateHostRuleStatus key ⟨StatusRejected, msg⟩], Ret.error msg⟩ ∧
      StatusRejected ≠ StatusAccepted := by
  have hlen : 0 < tcpSettings.Listeners.length := List.length_pos.mpr hne
  have hany : (tcpSettings.Listeners.any fun listener => listener.EnableSSL) = false := by
    rw [List.any_eq_false]
    intro l hl
    simp [hssl l hl]
  have hc : checkListenersSSL h = some "Hosting parent virtualservice must have SSL enabled" := by
    simp [checkListenersSSL, htcp, hlen, hany]
  obtain ⟨msg, hmsg⟩ := hostRuleLocalError_of_listeners env h _ hc
  exact ⟨msg, by rw [validateHostRuleObj_of_localError env key h msg hmsg]; rfl, by decide⟩

/-- Counterexample to C3 as stated: with `default/a` recorded as owner of
`a.example.com` (and no aliases), HostRule `default/b` with FQDN `b.example.com`,
exact match and alias `a.example.com` is accepted, not rejected. -/
theorem C3_counterexample :
    validateHostRuleObj sampleEnv "HostRule/default/a"
        (sampleHostRule "default" "a" "a.example.com") =
      ⟨[Event.UpdateHostRuleStatus "HostRule/default/a" ⟨StatusAccepted, ""⟩], Ret.nil⟩ ∧
    envWithA.GetFQDNToHostruleMapping "a.example.com" = (true, "default/a") ∧
    envWithA.GetAllFQDNToAliasesMapping = [("a.example.com", [])] ∧
    hostRuleB.Spec.VirtualHost.FqdnType = Exact ∧
    hostRuleB.Spec.VirtualHost.Aliases = some ["a.example.com"] ∧
    validateHostRuleObj envWithA "HostRule/default/b" hostRuleB =
      ⟨[Event.UpdateHostRuleStatus "HostRule/default/b" ⟨StatusAccepted, ""⟩], Ret.nil⟩ := by
  decide

/-- Witness for C3 (amended): `default/b` is rejected when `a.example.com` is an
alias recorded under `c.example.com`, and is validated as if alone when it is
only the primary FQDN of `default/a`. -/
theorem C3_alias_of_other_hostrule_witness :
    (∃ msg, validateHostRuleObj envWithAliasOfC "HostRule/default/b" hostRuleB =
        ⟨[Event.UpdateHostRuleStatus "HostRule/default/b" ⟨StatusRejected, msg⟩],
          Ret.error msg⟩) ∧
    validateHostRuleObj envWithA "HostRule/default/b" hostRuleB =
      validateHostRuleObj
        { envWithA with
          GetAllFQDNToAliasesMapping := []
          GetFQDNToHostruleMapping := fun fqdn =>
            if fqdn == hostRuleB.Spec.VirtualHost.Fqdn then envWithA.GetFQDNToHostruleMapping fqdn
            else (false, "") }
        "HostRule/default/b" hostRuleB :=
  ⟨(C3_alias_of_other_hostrule envWithAliasOfC "HostRule/default/b" hostRuleB
      ["a.example.com"] rfl).1
      ⟨("c.example.com", ["a.example.com"]), by decide, by decide, "a.example.com",
        by decide, by decide⟩,
   (C3_alias_of_other_hostrule envWithA "HostRule/default/b" hostRuleB
      ["a.example.com"] rfl).2 (by decide)⟩

/-- Witness for C4: `default/b` has the alias `a.example.com`, which is recorded
under `c.example.com`. -/
theorem C4_alias_in_use_witness :
    (∃ a f cached, a ∈ ["a.example.com"] ∧ f ≠ hostRuleB.Spec.VirtualHost.Fqdn ∧
        (f, cached) ∈ envWithAliasOfC.GetAllFQDNToAliasesMapping ∧ a ∈ cached ∧
        validateHostRuleObj envWithAliasOfC "HostRule/default/b" hostRuleB =
          ⟨[Event.UpdateHostRuleStatus "HostRule/default/b"
              ⟨StatusRejected, a ++ " is already in use by hostrule " ++ f⟩],
            Ret.error (a ++ " is already in use by hostrule " ++ f)⟩) ∧
    (validateHostRuleObj envWithAliasOfC "HostRule/default/b" hostRuleB).ret ≠ Ret.nil ∧
    (∀ o, Event.UpdateHostRuleStatus "HostRule/default/b" o ∈
        (validateHostRuleObj envWithAliasOfC "HostRule/default/b" hostRuleB).trace →
      o.Status = StatusRejected) :=
  have w := C4_alias_in_use envWithAliasOfC "HostRule/default/b" hostRuleB ["a.example.com"] rfl
    ⟨("c.example.com", ["a.example.com"]), by decide, by decide, "a.example.com",
      by decide, by decide⟩
  ⟨w.1 (by decide) (by decide) (by decide) (by decide) (by decide) (by decide) (by decide)
    (Or.inl (by decide)), w.2⟩

/-- Witness for C5: one listener, SSL disabled. -/
theorem C5_listeners_without_ssl_witness :
    ∃ msg, validateHostRuleObj sampleEnv "HostRule/default/t" hostRuleNoSSL =
        ⟨[Event.UpdateHostRuleStatus "HostRule/default/t" ⟨StatusRejected, msg⟩],
          Ret.error msg⟩ ∧
      StatusRejected ≠ StatusAccepted :=
  C5_listeners_without_ssl sampleEnv "HostRule/default/t" hostRuleNoSSL ⟨[⟨false⟩], ""⟩ rfl
    (by decide) (by decide)

/-! ## Reference resolution -/

/-- A value found by `List.lookup` is paired with the key in the list. -/
theorem mem_of_lookup_eq_some (l : List (String × GoValue)) (k : String) (v : GoValue)
    (h : l.lookup k = some v) : (k, v) ∈ l := by
  induction l with
  | nil => simp at h
  | cons e rest ih =>
    obtain ⟨k', v'⟩ := e
    by_cases hk : k = k'
    · subst hk
      simp at h
      simp [h]
    · have hb : (k == k') = false := by simp [hk]
      simp only [List.lookup, hb] at h
      exact List.mem_cons_of_mem _ (ih h)

/-- The JSON decoder never stores a `[]map[string]string` into an `interface{}`. -/
theorem decodeInterface_assertSliceMapStringString (j : Json) :
    (decodeInterface j).assertSliceMapStringString = none := by
  cases j <;> rfl

/-- On the fields the JSON decoder stores for an object, the assertion
`item[k].([]map[string]string)` fails for every key. -/
theorem decodedFields_assertSliceMapStringString (fs : List (String × Json)) (k : String) :
    (ItemMap.index (fs.map fun f => (f.1, decodeInterface f.2)) k).assertSliceMapStringString
      = none := by
  unfold ItemMap.index
  cases hl : (fs.map fun f => (f.1, decodeInterface f.2)).reverse.lookup k with
  | none => rfl
  | some v =>
    have hmem : (k, v) ∈ fs.map fun f => (f.1, decodeInterface f.2) := by
      have := mem_of_lookup_eq_some _ _ _ hl
      simpa using this
    obtain ⟨f, _, hf⟩ := List.mem_map.mp hmem
    have hv : v = decodeInterface f.2 := by
      have := congrArg Prod.snd hf
      simpa using this.symm
    simp only [hv]
    exact decodeInterface_assertSliceMapStringString f.2

/-- On a decoded result, the assertion `item[k].([]map[string]string)` fails
for every key. -/
theorem unmarshalItem_assertSliceMapStringString (fits : String → Bool) (j : Json)
    (item : ItemMap) (h : unmarshalItem fits j = some item) (k : String) :
    (item.index k).assertSliceMapStringString = none := by
  cases j with
  | null => simp [unmarshalItem] at h; subst h; rfl
  | obj fs =>
    simp only [unmarshalItem] at h
    split at h
    · simp only [Option.some.injEq] at h
      subst h
      exact decodedFields_assertSliceMapStringString fs k
    · simp at h
  | bool b => simp [unmarshalItem] at h
  | num l => simp [unmarshalItem] at h
  | str s => simp [unmarshalItem] at h
  | arr es => simp [unmarshalItem] at h

/-- When the assertion on `item["labels"]` fails, the `switch refKey` ends the
call only with an error, and never for a ServiceEngineGroup reference. -/
theorem checkRefSwitch_of_labels (env : Env) (refKey refValue : String) (item : ItemMap)
    (hl : (item.index "labels").assertSliceMapStringString = none) :
    (checkRefSwitch env refKey refValue item = none ∨
      ∃ msg, checkRefSwitch env refKey refValue item = some (Ret.error msg)) ∧
    (refKey = "ServiceEngineGroup" → checkRefSwitch env refKey refValue item = none) := by
  unfold checkRefSwitch
  constructor
  · by_cases h1 : refKey = "AppProfile"
    · simp only [h1, beq_self_eq_true, if_true]
      cases (item.index "type").assertString with
      | none => exact Or.inl rfl
      | some t =>
        by_cases h2 : t = env.AllowedApplicationProfile
        · simp [h2]
        · simp [h2]
    · simp [h1, hl]
  · intro hseg
    simp [hseg, hl]

/-- On a decoded result the `switch refKey` ends the call only with an error,
and never for a ServiceEngineGroup reference. -/
theorem checkRefSwitch_decoded (env : Env) (refKey refValue : String)
    (fits : String → Bool) (j : Json) (item : ItemMap) (h : unmarshalItem fits j = some item) :
    (checkRefSwitch env refKey refValue item = none ∨
      ∃ msg, checkRefSwitch env refKey refValue item = some (Ret.error msg)) ∧
    (refKey = "ServiceEngineGroup" → checkRefSwitch env refKey refValue item = none) :=
  checkRefSwitch_of_labels env refKey refValue item
    (unmarshalItem_assertSliceMapStringString fits j item h "labels")

/-- C7 at its failing input: the HostRule names `shared-name` as WAF policy and as
application profile; `refData` keeps one entry for that name (and one for the
blank names, which the loop skips), so in either visiting order the only lookup
is the one of the application profile, and the HostRule is accepted although
the lookup of the WAF policy `shared-name` finds nothing. -/
theorem C7_same_name_one_lookup :
    hostRuleRefData hostRuleSharedName =
      [("shared-name", "AppProfile"), ("", "ErrorPageProfile")] ∧
    ∀ reversed : Bool,
      validateHostRuleObj (envOnlyAppProfile reversed) "HostRule/default/s" hostRuleSharedName =
        ⟨[Event.AviGetCollectionRaw (collectionURI "AppProfile" "shared-name"),
          Event.UpdateHostRuleStatus "HostRule/default/s" ⟨StatusAccepted, ""⟩], Ret.nil⟩ ∧
      checkRefOnController (envOnlyAppProfile reversed) "HostRule/default/s" "WafPolicy"
          "shared-name" =
        ⟨[Event.AviGetCollectionRaw (collectionURI "WafPolicy" "shared-name")],
          Ret.error (msgNotFound "WafPolicy" "shared-name")⟩ := by
  refine ⟨by decide, fun reversed => ?_⟩
  cases reversed <;> decide

/-- C8 at its failing input: the first result for the SE group `seg-1` carries a
non-empty labels list that differs from the expected set, yet
`checkRefOnController` returns nil and `validateAviInfraSetting` goes on to the
label step and accepts.  The cause holds for every decoded object: on the fields
the JSON decoder stores, the `switch` never ends a ServiceEngineGroup check. -/
theorem C8_mismatched_labels_pass :
    envSeGroupLabelled.DeepEqualGetLabels [[("key", "clustername"), ("value", "other-cluster")]]
      = false ∧
    checkRefOnController envSeGroupLabelled "AviInfraSetting/infra-1" "ServiceEngineGroup" "seg-1" =
      ⟨[Event.AviGetCollectionRaw (collectionURI "ServiceEngineGroup" "seg-1")], Ret.nil⟩ ∧
    validateAviInfraSetting envSeGroupLabelled "AviInfraSetting/infra-1" infraSettingSeg =
      ⟨[Event.AviGetCollectionRaw (collectionURI "ServiceEngineGroup" "seg-1"),
        Event.GetAviSeGroup "seg-1", Event.ConfigureSeGroupLabels "seg-1",
        Event.UpdateAviInfraSettingStatus "AviInfraSetting/infra-1" ⟨StatusAccepted, ""⟩],
        Ret.nil⟩ ∧
    ∀ (env : Env) (refValue : String) (fields : List (String × Json)),
      checkRefSwitch env "ServiceEngineGroup" refValue
        (fields.map fun f => (f.1, decodeInterface f.2)) = none := by
  refine ⟨by decide, by decide, by decide, fun env refValue fields => ?_⟩
  exact (checkRefSwitch_of_labels env "ServiceEngineGroup" refValue _
    (decodedFields_assertSliceMapStringString fields "labels")).2 rfl

/-! ## AviInfraSetting and HTTPRule validation -/

/-- C9: an AviInfraSetting with BGP peer labels whose `EnableRhi` is nil or
points to false is rejected in every environment: the run is the Rejected
status write alone, followed by the error, whatever the VIP networks, the SE
group, the CIDR matchers and the controller are. -/
theorem C9_bgp_peer_labels_need_rhi (env : Env) (key : String) (infraSetting : AviInfraSetting)
    (hlabels : infraSetting.Spec.Network.BgpPeerLabels ≠ [])
    (hrhi : infraSetting.Spec.Network.EnableRhi = none ∨
      infraSetting.Spec.Network.EnableRhi = some false) :
    validateAviInfraSetting env key infraSetting =
      ⟨[Event.UpdateAviInfraSettingStatus key
          ⟨StatusRejected, "BGPPeerLabels cannot be set if EnableRhi is false."⟩],
        Ret.error "BGPPeerLabels cannot be set if EnableRhi is false."⟩ := by
  have hlen : 0 < infraSetting.Spec.Network.BgpPeerLabels.length := List.length_pos.mpr hlabels
  unfold validateAviInfraSetting
  rcases hrhi with h | h <;> simp [h, hlen, rejectAviInfraSetting]

/-- Witness for C9: a BGP peer label with `EnableRhi` unset, next to a VIP network
with a CIDR and an SE group. -/
theorem C9_bgp_peer_labels_need_rhi_witness :
    validateAviInfraSetting sampleEnv "AviInfraSetting/infra-2" infraSettingBgp =
      ⟨[Event.UpdateAviInfraSettingStatus "AviInfraSetting/infra-2"
          ⟨StatusRejected, "BGPPeerLabels cannot be set if EnableRhi is false."⟩],
        Ret.error "BGPPeerLabels cannot be set if EnableRhi is false."⟩ :=
  C9_bgp_peer_labels_need_rhi sampleEnv "AviInfraSetting/infra-2" infraSettingBgp
    (by decide) (Or.inl rfl)

/-- The path loop of an HTTPRule stops exactly when some path sets both a PKI
profile and a destination CA. -/
theorem httpRuleRefData_eq_none_iff (paths : List HTTPRulePaths) (refData : RefMap) :
    httpRuleRefData refData paths = none ↔
      ∃ path ∈ paths, path.TLS.PKIProfile ≠ "" ∧ path.TLS.DestinationCA ≠ "" := by
  induction paths generalizing refData with
  | nil => simp [httpRuleRefData]
  | cons p rest ih =>
    by_cases hp : p.TLS.PKIProfile ≠ "" ∧ p.TLS.DestinationCA ≠ ""
    · have hc : (p.TLS.PKIProfile != "" && p.TLS.DestinationCA != "") = true := by
        simp [hp.1, hp.2]
      simp only [httpRuleRefData, hc, if_true, List.mem_cons, true_iff]
      exact ⟨p, Or.inl rfl, hp⟩
    · have hc : (p.TLS.PKIProfile != "" && p.TLS.DestinationCA != "") = false := by
        by_cases h1 : p.TLS.PKIProfile = "" <;> by_cases h2 : p.TLS.DestinationCA = "" <;>
          simp_all
      simp only [httpRuleRefData, hc, ih, List.mem_cons, Bool.false_eq_true, if_false]
      constructor
      · rintro ⟨q, hq, hboth⟩
        exact ⟨q, Or.inr hq, hboth⟩
      · rintro ⟨q, hq | hq, hboth⟩
        · exact absurd (hq ▸ hboth) hp
        · exact ⟨q, hq, hboth⟩

/-- C10: an HTTPRule in which some path, at any position, sets both a PKI profile
and a destination CA is rejected with the reason `lib.HttpRulePkiAndDestCASetErr`:
the run is that Rejected status write alone, with no controller query, followed
by an error. -/
theorem C10_pki_and_destination_ca (env : Env) (key : String) (httprule : HTTPRule)
    (hpath : ∃ path ∈ httprule.Spec.Paths,
      path.TLS.PKIProfile ≠ "" ∧ path.TLS.DestinationCA ≠ "") :
    validateHTTPRuleObj env key httprule =
      ⟨[Event.UpdateHTTPRuleStatus key ⟨StatusRejected, env.HttpRulePkiAndDestCASetErr⟩],
        Ret.error ("key: " ++ key ++ ", msg: " ++ env.HttpRulePkiAndDestCASetErr)⟩ := by
  have hnone := (httpRuleRefData_eq_none_iff httprule.Spec.Paths []).mpr hpath
  simp [validateHTTPRuleObj, hnone]

/-- Witness for C10: one path with PKI profile `p1` and destination CA `ca-data`. -/
theorem C10_pki_and_destination_ca_witness :
    validateHTTPRuleObj sampleEnv "HTTPRule/default/r" httpRulePkiAndCA =
      ⟨[Event.UpdateHTTPRuleStatus "HTTPRule/default/r"
          ⟨StatusRejected, sampleEnv.HttpRulePkiAndDestCASetErr⟩],
        Ret.error ("key: " ++ "HTTPRule/default/r" ++ ", msg: "
          ++ sampleEnv.HttpRulePkiAndDestCASetErr)⟩ :=
  C10_pki_and_destination_ca sampleEnv "HTTPRule/default/r" httpRulePkiAndCA
    ⟨⟨⟨"ssl-1", "p1", "ca-data"⟩, "", ["hm-1"]⟩, by decide, by decide, by decide⟩

/-- The network loop of an AviInfraSetting ends with an error as soon as some
network has a non-empty CIDR that does not match. -/
theorem aviInfraRefData_error_of_bad_cidr (env : Env) (networks : List AviInfraSettingVipNetwork)
    (refData : RefMap)
    (hbad : ∃ n ∈ networks, (n.Cidr ≠ "" ∧ env.IPCIDRRegexMatch n.Cidr = false) ∨
      (n.V6Cidr ≠ "" ∧ env.IPV6CIDRRegexMatch n.V6Cidr = false)) :
    ∃ msg, aviInfraRefData env refData networks = .error msg := by
  induction networks generalizing refData with
  | nil => simp at hbad
  | cons v rest ih =>
    unfold aviInfraRefData
    by_cases h4 : (v.Cidr != "" && !env.IPCIDRRegexMatch v.Cidr) = true
    · exact ⟨_, by rw [if_pos h4]⟩
    · by_cases h6 : (v.V6Cidr != "" && !env.IPV6CIDRRegexMatch v.V6Cidr) = true
      · exact ⟨_, by rw [if_neg h4, if_pos h6]⟩
      · rw [if_neg h4, if_neg h6]
        apply ih
        obtain ⟨n, hn, hb⟩ := hbad
        rcases List.mem_cons.mp hn with rfl | hn
        · exfalso
          rcases hb with ⟨h1, h2⟩ | ⟨h1, h2⟩
          · exact h4 (by simp [h1, h2])
          · exact h6 (by simp [h1, h2])
        · exact ⟨n, hn, hb⟩

/-- C11: an AviInfraSetting in which some VIP network, at any position, has a
non-empty `Cidr` that does not match the IPv4 CIDR pattern or a non-empty
`V6Cidr` that does not match the IPv6 CIDR pattern is rejected: the run is one
Rejected status write, with no controller call before or after it, and the
error written. -/
theorem C11_invalid_cidr (env : Env) (key : String) (infraSetting : AviInfraSetting)
    (hbad : ∃ n ∈ infraSetting.Spec.Network.VipNetworks,
      (n.Cidr ≠ "" ∧ env.IPCIDRRegexMatch n.Cidr = false) ∨
      (n.V6Cidr ≠ "" ∧ env.IPV6CIDRRegexMatch n.V6Cidr = false)) :
    ∃ msg, validateAviInfraSetting env key infraSetting =
        ⟨[Event.UpdateAviInfraSettingStatus key ⟨StatusRejected, msg⟩], Ret.error msg⟩ := by
  obtain ⟨msg, hmsg⟩ := aviInfraRefData_error_of_bad_cidr env _ [] hbad
  unfold validateAviInfraSetting
  simp only [hmsg]
  split
  · exact ⟨_, rfl⟩
  · exact ⟨msg, rfl⟩

/-- Witness for C11: the second VIP network has the CIDR `10.0.0.0/33`. -/
theorem C11_invalid_cidr_witness :
    ∃ msg, validateAviInfraSetting envStrictCIDR "AviInfraSetting/infra-3" infraSettingBadCidr =
        ⟨[Event.UpdateAviInfraSettingStatus "AviInfraSetting/infra-3" ⟨StatusRejected, msg⟩],
          Ret.error msg⟩ :=
  C11_invalid_cidr envStrictCIDR "AviInfraSetting/infra-3" infraSettingBadCidr
    ⟨⟨"net-2", "10.0.0.0/33", ""⟩, by decide, Or.inl ⟨by decide, by decide⟩⟩

/-! ## What a run calls -/

/-- A single reference check makes exactly one call, a query to the controller:
the lookup by UUID or the collection query. -/
theorem checkRefOnController_trace_eq (env : Env) (key refKey refValue : String) :
    (checkRefOnController env key refKey refValue).trace =
        [Event.AviGet (networkURI env refKey refValue)] ∨
      (checkRefOnController env key refKey refValue).trace =
        [Event.AviGetCollectionRaw (collectionURI refKey refValue)] := by
  unfold checkRefOnController
  dsimp only
  repeat' split
  all_goals simp

/-- A single reference check calls nothing but the controller's query API. -/
theorem checkRefOnController_trace (env : Env) (key refKey refValue : String) :
    ∀ e ∈ (checkRefOnController env key refKey refValue).trace, e.isControllerQuery = true := by
  intro e he
  rcases checkRefOnController_trace_eq env key refKey refValue with h | h <;>
    (rw [h] at he; simp at he; subst he; rfl)

/-- The reference loop calls nothing but the controller's query API. -/
theorem checkRefsLoop_trace (env : Env) (key : String) (l : List (String × String)) :
    ∀ e ∈ (checkRefsLoop env key l).trace, e.isControllerQuery = true := by
  induction l with
  | nil => simp [checkRefsLoop]
  | cons p rest ih =>
    obtain ⟨k, v⟩ := p
    unfold checkRefsLoop
    split
    · exact ih
    · intro e he
      simp only at he
      split at he
      · rcases List.mem_append.mp he with h | h
        · exact checkRefOnController_trace env key v k e h
        · exact ih e h
      · exact checkRefOnController_trace env key v k e he

/-- The reference check of a map calls nothing but the controller's query API. -/
theorem checkRefsOnController_trace (env : Env) (key : String) (m : RefMap) :
    ∀ e ∈ (checkRefsOnController env key m).trace, e.isControllerQuery = true :=
  checkRefsLoop_trace env key _

/-- A trace of controller queries holds no status update. -/
theorem statusWrites_of_queries (t : List Event) (h : ∀ e ∈ t, e.isControllerQuery = true) :
    statusWrites t = [] := by
  unfold statusWrites
  rw [List.filterMap_eq_nil_iff]
  intro e he
  have := h e he
  cases e <;> simp_all [Event.isControllerQuery, Event.statusOptions]

/-- The status updates of a concatenation. -/
theorem statusWrites_append (a b : List Event) :
    statusWrites (a ++ b) = statusWrites a ++ statusWrites b := by
  simp [statusWrites, List.filterMap_append]

/-- The secret lookup of a certificate makes no status update. -/
theorem statusWrites_secretCheck (env : Env) (ns certType certName : String) :
    statusWrites (secretCheck env ns certType certName).1 = [] := by
  unfold secretCheck
  split <;> rfl

/-- The calls of `addSeGroupLabel` make no status update. -/
theorem statusWrites_addSeGroupLabel (env : Env) (segName : String) :
    statusWrites (addSeGroupLabel env segName) = [] := by
  unfold addSeGroupLabel
  split
  · rfl
  · split <;> rfl

/-- A controller query is neither a status update nor an enqueue nor a label
call. -/
theorem Event.isControllerQuery_elim (e : Event) (h : e.isControllerQuery = true) :
    e.isStatusWrite = false ∧ e.isEnqueue = false ∧ e.isLabelCall = false := by
  cases e <;> simp_all [Event.isControllerQuery, Event.isStatusWrite, Event.isEnqueue,
    Event.isLabelCall]

/-- The secret lookup of a certificate is neither a status update nor an enqueue
nor a controller call. -/
theorem secretCheck_trace (env : Env) (ns certType certName : String) :
    ∀ e ∈ (secretCheck env ns certType certName).1,
      e.isStatusWrite = false ∧ e.isEnqueue = false ∧ e.isControllerCall = false := by
  unfold secretCheck
  split <;> simp [Event.isStatusWrite, Event.isEnqueue, Event.isControllerCall,
    Event.isControllerQuery, Event.isLabelCall]

/-- The calls of `addSeGroupLabel` are label calls: neither status updates nor
enqueues. -/
theorem addSeGroupLabel_trace (env : Env) (segName : String) :
    ∀ e ∈ addSeGroupLabel env segName,
      e.isLabelCall = true ∧ e.isStatusWrite = false ∧ e.isEnqueue = false := by
  unfold addSeGroupLabel
  split
  · simp
  · split <;> simp [Event.isStatusWrite, Event.isEnqueue, Event.isLabelCall]

/-- The run of `validateHostRuleObj` when every check and lookup succeeds: the
secret lookups, the controller queries and, unless the status is already
Accepted, the Accepted status write. -/
theorem validateHostRuleObj_of_success (env : Env) (key : String) (h : HostRule)
    (hlocal : hostRuleLocalError env h = none)
    (hs1 : (secretCheck env h.Namespace h.Spec.VirtualHost.TLS.SSLKeyCertificate.Type_
      h.Spec.VirtualHost.TLS.SSLKeyCertificate.Name).2 = none)
    (hs2 : (secretCheck env h.Namespace
      h.Spec.VirtualHost.TLS.SSLKeyCertificate.AlternateCertificate.Type_
      h.Spec.VirtualHost.TLS.SSLKeyCertificate.AlternateCertificate.Name).2 = none)
    (hrefs : (checkRefsOnController env key (hostRuleRefData h)).ret = Ret.nil) :
    validateHostRuleObj env key h =
      ⟨(secretCheck env h.Namespace h.Spec.VirtualHost.TLS.SSLKeyCertificate.Type_
          h.Spec.VirtualHost.TLS.SSLKeyCertificate.Name).1 ++
        (secretCheck env h.Namespace
          h.Spec.VirtualHost.TLS.SSLKeyCertificate.AlternateCertificate.Type_
          h.Spec.VirtualHost.TLS.SSLKeyCertificate.AlternateCertificate.Name).1 ++
        (checkRefsOnController env key (hostRuleRefData h)).trace ++
        (if h.Status.Status == StatusAccepted then []
          else [Event.UpdateHostRuleStatus key ⟨StatusAccepted, ""⟩]),
        Ret.nil⟩ := by
  unfold validateHostRuleObj
  simp only [hlocal, hs1, hs2, hrefs]
  split <;> simp

/-- The run of `validateHTTPRuleObj` when no path sets both a PKI profile and a
destination CA and every lookup succeeds. -/
theorem validateHTTPRuleObj_of_success (env : Env) (key : String) (httprule : HTTPRule)
    (refData : RefMap) (hdata : httpRuleRefData [] httprule.Spec.Paths = some refData)
    (hrefs : (checkRefsOnController env key refData).ret = Ret.nil) :
    validateHTTPRuleObj env key httprule =
      ⟨(checkRefsOnController env key refData).trace ++
        (if httprule.Status.Status == StatusAccepted then []
          else [Event.UpdateHTTPRuleStatus key ⟨StatusAccepted, ""⟩]),
        Ret.nil⟩ := by
  unfold validateHTTPRuleObj
  simp only [hdata, hrefs]
  split <;> simp

/-- The run of `validateAviInfraSetting` when every check and lookup succeeds:
the controller queries, the label calls for a named SE group and, unless the
status is already Accepted, the Accepted status write. -/
theorem validateAviInfraSetting_of_success (env : Env) (key : String)
    (infraSetting : AviInfraSetting) (refData : RefMap)
    (hbgp : infraSetting.Spec.Network.BgpPeerLabels = [] ∨
      infraSetting.Spec.Network.EnableRhi = some true)
    (hdata : aviInfraRefData env [] infraSetting.Spec.Network.VipNetworks = .ok refData)
    (hrefs : (checkRefsOnController env key (if infraSetting.Spec.SeGroup.Name != "" then
      refData.set infraSetting.Spec.SeGroup.Name "ServiceEngineGroup" else refData)).ret
      = Ret.nil) :
    validateAviInfraSetting env key infraSetting =
      ⟨(checkRefsOnController env key (if infraSetting.Spec.SeGroup.Name != "" then
      refData.set infraSetting.Spec.SeGroup.Name "ServiceEngineGroup" else refData)).trace ++
        (if infraSetting.Spec.SeGroup.Name != "" then
          addSeGroupLabel env infraSetting.Spec.SeGroup.Name else []) ++
        (if infraSetting.Status.Status == StatusAccepted then []
          else [Event.UpdateAviInfraSettingStatus key ⟨StatusAccepted, ""⟩]),
        Ret.nil⟩ := by
  have hcond : (((infraSetting.Spec.Network.EnableRhi != none &&
      infraSetting.Spec.Network.EnableRhi == some false) ||
      infraSetting.Spec.Network.EnableRhi == none) &&
      decide (infraSetting.Spec.Network.BgpPeerLabels.length > 0)) = false := by
    rcases hbgp with hb | hb <;> simp [hb]
  unfold validateAviInfraSetting
  simp only [hcond, hdata, hrefs, Bool.false_eq_true, if_false]
  split <;> simp

/-- C12: a HostRule, HTTPRule or AviInfraSetting whose status is already Accepted
and for which every local check and every lookup succeeds is validated with
result nil and without any status update; and the Add handler of such a
HostRule, with sync enabled, makes no status update and exactly one
`AddRateLimited`, of its key on the shard of its namespace. -/
theorem C12_accepted_is_not_rewritten (env : Env) (key : String) :
    (∀ h : HostRule, h.Status.Status = StatusAccepted →
      hostRuleLocalError env h = none →
      (secretCheck env h.Namespace h.Spec.VirtualHost.TLS.SSLKeyCertificate.Type_
        h.Spec.VirtualHost.TLS.SSLKeyCertificate.Name).2 = none →
      (secretCheck env h.Namespace
        h.Spec.VirtualHost.TLS.SSLKeyCertificate.AlternateCertificate.Type_
        h.Spec.VirtualHost.TLS.SSLKeyCertificate.AlternateCertificate.Name).2 = none →
      (checkRefsOnController env key (hostRuleRefData h)).ret = Ret.nil →
      (validateHostRuleObj env key h).ret = Ret.nil ∧
        (validateHostRuleObj env key h).trace.filter Event.isStatusWrite = []) ∧
    (∀ (r : HTTPRule) (refData : RefMap), r.Status.Status = StatusAccepted →
      httpRuleRefData [] r.Spec.Paths = some refData →
      (checkRefsOnController env key refData).ret = Ret.nil →
      (validateHTTPRuleObj env key r).ret = Ret.nil ∧
        (validateHTTPRuleObj env key r).trace.filter Event.isStatusWrite = []) ∧
    (∀ (i : AviInfraSetting) (refData : RefMap), i.Status.Status = StatusAccepted →
      (i.Spec.Network.BgpPeerLabels = [] ∨ i.Spec.Network.EnableRhi = some true) →
      aviInfraRefData env [] i.Spec.Network.VipNetworks = .ok refData →
      (checkRefsOnController env key (if i.Spec.SeGroup.Name != "" then
        refData.set i.Spec.SeGroup.Name "ServiceEngineGroup" else refData)).ret = Ret.nil →
      (validateAviInfraSetting env key i).ret = Ret.nil ∧
        (validateAviInfraSetting env key i).trace.filter Event.isStatusWrite = []) ∧
    (∀ (c : AviController) (lib : Lib) (numWorkers : Nat) (h : HostRule),
      c.DisableSync = false →
      key = lib.HostRule ++ "/" ++ lib.ObjKey h.Namespace h.Name →
      h.Status.Status = StatusAccepted →
      hostRuleLocalError env h = none →
      (secretCheck env h.Namespace h.Spec.VirtualHost.TLS.SSLKeyCertificate.Type_
        h.Spec.VirtualHost.TLS.SSLKeyCertificate.Name).2 = none →
      (secretCheck env h.Namespace
        h.Spec.VirtualHost.TLS.SSLKeyCertificate.AlternateCertificate.Type_
        h.Spec.VirtualHost.TLS.SSLKeyCertificate.AlternateCertificate.Name).2 = none →
      (checkRefsOnController env key (hostRuleRefData h)).ret = Ret.nil →
      (hostRuleAddFunc c lib env numWorkers h).ret = Ret.nil ∧
        (hostRuleAddFunc c lib env numWorkers h).trace.filter Event.isStatusWrite = [] ∧
        (hostRuleAddFunc c lib env numWorkers h).trace.filter Event.isEnqueue =
          [Event.AddRateLimited
            (lib.Bkt (lib.SplitMetaNamespaceKey (lib.ObjKey h.Namespace h.Name)) numWorkers)
            key]) := by
  have hq : ∀ m : RefMap, ∀ e ∈ (checkRefsOnController env key m).trace,
      e.isStatusWrite = false ∧ e.isEnqueue = false := fun m e he =>
    ⟨(Event.isControllerQuery_elim e (checkRefsOnController_trace env key m e he)).1,
     (Event.isControllerQuery_elim e (checkRefsOnController_trace env key m e he)).2.1⟩
  have hhr : ∀ h : HostRule, h.Status.Status = StatusAccepted →
      hostRuleLocalError env h = none →
      (secretCheck env h.Namespace h.Spec.VirtualHost.TLS.SSLKeyCertificate.Type_
        h.Spec.VirtualHost.TLS.SSLKeyCertificate.Name).2 = none →
      (secretCheck env h.Namespace
        h.Spec.VirtualHost.TLS.SSLKeyCertificate.AlternateCertificate.Type_
        h.Spec.VirtualHost.TLS.SSLKeyCertificate.AlternateCertificate.Name).2 = none →
      (checkRefsOnController env key (hostRuleRefData h)).ret = Ret.nil →
      (validateHostRuleObj env key h).ret = Ret.nil ∧
        (validateHostRuleObj env key h).trace.filter Event.isStatusWrite = [] ∧
        (validateHostRuleObj env key h).trace.filter Event.isEnqueue = [] := by
    intro h hacc hlocal hs1 hs2 hrefs
    rw [validateHostRuleObj_of_success env key h hlocal hs1 hs2 hrefs]
    simp only [hacc, beq_self_eq_true, if_true, List.append_nil, List.filter_append,
      List.append_eq_nil, List.filter_eq_nil_iff, true_and]
    refine ⟨⟨⟨?_, ?_⟩, ?_⟩, ⟨?_, ?_⟩, ?_⟩
    · intro e he; simp [(secretCheck_trace env _ _ _ e he).1]
    · intro e he; simp [(secretCheck_trace env _ _ _ e he).1]
    · intro e he; simp [(hq _ e he).1]
    · intro e he; simp [(secretCheck_trace env _ _ _ e he).2.1]
    · intro e he; simp [(secretCheck_trace env _ _ _ e he).2.1]
    · intro e he; simp [(hq _ e he).2]
  refine ⟨fun h a b c d e => ⟨(hhr h a b c d e).1, (hhr h a b c d e).2.1⟩, ?_, ?_, ?_⟩
  · intro r refData hacc hdata hrefs
    rw [validateHTTPRuleObj_of_success env key r refData hdata hrefs]
    simp only [hacc, beq_self_eq_true, if_true, List.append_nil, List.filter_eq_nil_iff,
      true_and]
    intro e he; simp [(hq _ e he).1]
  · intro i refData hacc hbgp hdata hrefs
    rw [validateAviInfraSetting_of_success env key i refData hbgp hdata hrefs]
    simp only [hacc, beq_self_eq_true, if_true, List.append_nil, List.filter_append,
      List.append_eq_nil, List.filter_eq_nil_iff, true_and]
    refine ⟨?_, ?_⟩
    · intro e he; simp [(hq _ e he).1]
    · intro e he
      split at he
      · simp [(addSeGroupLabel_trace env _ e he).2.1]
      · simp at he
  · intro c lib numWorkers h hsync hkey hacc hlocal hs1 hs2 hrefs
    obtain ⟨h1, h2, h3⟩ := hhr h hacc hlocal hs1 hs2 hrefs
    unfold hostRuleAddFunc enqueueAfterValidation
    simp only [hsync, Bool.false_eq_true, if_false, ← hkey, h1, List.filter_append, h2, h3,
      List.nil_append]
    simp [Event.isStatusWrite, Event.isEnqueue]

/-- Witness for C12: an Accepted HostRule, HTTPRule and AviInfraSetting without
references in the sample environment, and the Add handler on that HostRule with
three workers. -/
theorem C12_accepted_is_not_rewritten_witness :
    ((validateHostRuleObj sampleEnv "HostRule/default/a" hostRuleAccepted).ret = Ret.nil ∧
      (validateHostRuleObj sampleEnv "HostRule/default/a" hostRuleAccepted).trace.filter
        Event.isStatusWrite = []) ∧
    ((validateHTTPRuleObj sampleEnv "HostRule/default/a" httpRuleAccepted).ret = Ret.nil ∧
      (validateHTTPRuleObj sampleEnv "HostRule/default/a" httpRuleAccepted).trace.filter
        Event.isStatusWrite = []) ∧
    ((validateAviInfraSetting sampleEnv "HostRule/default/a" infraSettingAccepted).ret = Ret.nil ∧
      (validateAviInfraSetting sampleEnv "HostRule/default/a" infraSettingAccepted).trace.filter
        Event.isStatusWrite = []) ∧
    ((hostRuleAddFunc ⟨false⟩ sampleLib sampleEnv 3 hostRuleAccepted).ret = Ret.nil ∧
      (hostRuleAddFunc ⟨false⟩ sampleLib sampleEnv 3 hostRuleAccepted).trace.filter
        Event.isStatusWrite = [] ∧
      (hostRuleAddFunc ⟨false⟩ sampleLib sampleEnv 3 hostRuleAccepted).trace.filter
        Event.isEnqueue =
        [Event.AddRateLimited
          (sampleLib.Bkt (sampleLib.SplitMetaNamespaceKey
            (sampleLib.ObjKey hostRuleAccepted.Namespace hostRuleAccepted.Name)) 3)
          "HostRule/default/a"]) :=
  have w := C12_accepted_is_not_rewritten sampleEnv "HostRule/default/a"
  ⟨w.1 hostRuleAccepted rfl (by decide) (by decide) (by decide) (by decide),
   w.2.1 httpRuleAccepted [("", "ApplicationPersistence")] rfl (by decide) (by decide),
   w.2.2.1 infraSettingAccepted [] rfl (Or.inl rfl) rfl (by decide),
   w.2.2.2 ⟨false⟩ sampleLib 3 hostRuleAccepted rfl (by decide) rfl (by decide) (by decide)
     (by decide) (by decide)⟩

/-! ## Status updates of a validation -/

/-- The reference check of a map makes no status update. -/
theorem statusWrites_checkRefsOnController (env : Env) (key : String) (m : RefMap) :
    statusWrites (checkRefsOnController env key m).trace = [] :=
  statusWrites_of_queries _ (checkRefsOnController_trace env key m)

/-- The status updates of a HostRule validation, by its result: the Rejected
write with the returned message on an error, the Accepted write on nil unless
the status is Accepted already, none on a panic. -/
theorem validateHostRuleObj_statusWrites (env : Env) (key : String) (h : HostRule) :
    statusWrites (validateHostRuleObj env key h).trace =
      match (validateHostRuleObj env key h).ret with
      | Ret.error msg => [⟨StatusRejected, msg⟩]
      | Ret.nil => if h.Status.Status == StatusAccepted then [] else [⟨StatusAccepted, ""⟩]
      | Ret.panic _ => [] := by
  unfold validateHostRuleObj
  cases hl : hostRuleLocalError env h with
  | some msg => simp [rejectHostRule, statusWrites, Event.statusOptions]
  | none =>
    simp only []
    cases hs1 : (secretCheck env h.Namespace h.Spec.VirtualHost.TLS.SSLKeyCertificate.Type_
        h.Spec.VirtualHost.TLS.SSLKeyCertificate.Name).2 with
    | some msg =>
      simp only [rejectHostRule, statusWrites_append, statusWrites_secretCheck]
      rfl
    | none =>
      simp only []
      cases hs2 : (secretCheck env h.Namespace
          h.Spec.VirtualHost.TLS.SSLKeyCertificate.AlternateCertificate.Type_
          h.Spec.VirtualHost.TLS.SSLKeyCertificate.AlternateCertificate.Name).2 with
      | some msg =>
        simp only [rejectHostRule, statusWrites_append, statusWrites_secretCheck]
        rfl
      | none =>
        simp only []
        cases hr : (checkRefsOnController env key (hostRuleRefData h)).ret with
        | error msg =>
          simp only [rejectHostRule, statusWrites_append, statusWrites_secretCheck,
            statusWrites_checkRefsOnController]
          rfl
        | panic msg =>
          simp only [statusWrites_append, statusWrites_secretCheck,
            statusWrites_checkRefsOnController]
          rfl
        | nil =>
          simp only []
          split
          · simp only [statusWrites_append, statusWrites_secretCheck,
              statusWrites_checkRefsOnController]
            rfl
          · simp only [statusWrites_append, statusWrites_secretCheck,
              statusWrites_checkRefsOnController]
            rfl

/-- The status updates of an HTTPRule validation: the Rejected write with
`lib.HttpRulePkiAndDestCASetErr` when a path sets both a PKI profile and a
destination CA, and else, by the result, the Rejected write with the returned
message, the Accepted write unless Accepted already, or none on a panic. -/
theorem validateHTTPRuleObj_statusWrites (env : Env) (key : String) (r : HTTPRule) :
    statusWrites (validateHTTPRuleObj env key r).trace =
      match httpRuleRefData [] r.Spec.Paths with
      | none => [⟨StatusRejected, env.HttpRulePkiAndDestCASetErr⟩]
      | some _ =>
        match (validateHTTPRuleObj env key r).ret with
        | Ret.error msg => [⟨StatusRejected, msg⟩]
        | Ret.nil => if r.Status.Status == StatusAccepted then [] else [⟨StatusAccepted, ""⟩]
        | Ret.panic _ => [] := by
  unfold validateHTTPRuleObj
  cases hd : httpRuleRefData [] r.Spec.Paths with
  | none => rfl
  | some refData =>
    simp only []
    cases hr : (checkRefsOnController env key refData).ret with
    | error msg =>
      simp only [statusWrites_append, statusWrites_checkRefsOnController]
      rfl
    | panic msg =>
      simp only [statusWrites_checkRefsOnController]
    | nil =>
      simp only []
      split
      · simp only [statusWrites_checkRefsOnController]
      · simp only [statusWrites_append, statusWrites_checkRefsOnController]
        rfl

/-- The status updates of an AviInfraSetting validation, by its result: the
Rejected write with the returned message on an error, the Accepted write on nil
unless the status is Accepted already, none on a panic. -/
theorem validateAviInfraSetting_statusWrites (env : Env) (key : String)
    (i : AviInfraSetting) :
    statusWrites (validateAviInfraSetting env key i).trace =
      match (validateAviInfraSetting env key i).ret with
      | Ret.error msg => [⟨StatusRejected, msg⟩]
      | Ret.nil => if i.Status.Status == StatusAccepted then [] else [⟨StatusAccepted, ""⟩]
      | Ret.panic _ => [] := by
  have hlabel : statusWrites (if i.Spec.SeGroup.Name != "" then
      addSeGroupLabel env i.Spec.SeGroup.Name else []) = [] := by
    split
    · exact statusWrites_addSeGroupLabel env _
    · rfl
  unfold validateAviInfraSetting
  simp only []
  split
  · rfl
  · cases hd : aviInfraRefData env [] i.Spec.Network.VipNetworks with
    | error msg => rfl
    | ok refData =>
      simp only []
      cases hr : (checkRefsOnController env key (if i.Spec.SeGroup.Name != "" then
          refData.set i.Spec.SeGroup.Name "ServiceEngineGroup" else refData)).ret with
      | error msg =>
        simp only [rejectAviInfraSetting, statusWrites_append,
          statusWrites_checkRefsOnController]
        rfl
      | panic msg =>
        simp only [statusWrites_checkRefsOnController]
      | nil =>
        simp only []
        split
        · simp only [statusWrites_append, statusWrites_checkRefsOnController, hlabel]
          rfl
        · simp only [statusWrites_append, statusWrites_checkRefsOnController, hlabel]
          rfl

/-- The loop of the resolver returns nil exactly when every call it can make,
one per entry with a name that is not blank, returns nil. -/
theorem checkRefsLoop_ret_nil_iff (env : Env) (key : String) (l : List (String × String)) :
    (checkRefsLoop env key l).ret = Ret.nil ↔
      ∀ p ∈ l, p.1 ≠ "" → (checkRefOnController env key p.2 p.1).ret = Ret.nil := by
  induction l with
  | nil => simp [checkRefsLoop]
  | cons p rest ih =>
    obtain ⟨k, v⟩ := p
    rw [checkRefsLoop]
    by_cases hk : k = ""
    · simp [hk, ih]
    · have hb : (k == "") = false := by simp [hk]
      simp only [hb, Bool.false_eq_true, if_false]
      cases hr : (checkRefOnController env key v k).ret with
      | nil => simp [hr, ih, hk]
      | error m => simp [hr, hk]
      | panic m => simp [hr, hk]

/-- Whether `checkRefsOnController` returns nil does not depend on the order in
which `range` visits the map. -/
theorem checkRefsOnController_ret_nil_iff (env : Env) (key : String) (m : RefMap) :
    (checkRefsOnController env key m).ret = Ret.nil ↔
      ∀ p ∈ m, p.1 ≠ "" → (checkRefOnController env key p.2 p.1).ret = Ret.nil := by
  unfold checkRefsOnController
  rw [checkRefsLoop_ret_nil_iff]
  constructor
  · intro h p hp
    exact h p ((env.rangeOrder_perm m).mem_iff.mpr hp)
  · intro h p hp
    exact h p ((env.rangeOrder_perm m).mem_iff.mp hp)

/-- When `checkRefsOnController` returns nil, it returns nil in whatever order
`range` visits the map. -/
theorem checkRefsOnController_ret_nil_of_order (env : Env) (key : String) (m : RefMap)
    (order : RefMap → List (String × String)) (horder : ∀ m, List.Perm (order m) m)
    (h : (checkRefsOnController env key m).ret = Ret.nil) :
    (checkRefsOnController { env with rangeOrder := order, rangeOrder_perm := horder }
      key m).ret = Ret.nil := by
  rw [checkRefsOnController_ret_nil_iff] at h ⊢
  exact h

/-- A validation of a HostRule that returns nil has passed the local checks and
the secret lookups, and every lookup on the controller has returned nil. -/
theorem validateHostRuleObj_nil_cases (env : Env) (key : String) (h : HostRule)
    (hret : (validateHostRuleObj env key h).ret = Ret.nil) :
    hostRuleLocalError env h = none ∧
    (secretCheck env h.Namespace h.Spec.VirtualHost.TLS.SSLKeyCertificate.Type_
      h.Spec.VirtualHost.TLS.SSLKeyCertificate.Name).2 = none ∧
    (secretCheck env h.Namespace
      h.Spec.VirtualHost.TLS.SSLKeyCertificate.AlternateCertificate.Type_
      h.Spec.VirtualHost.TLS.SSLKeyCertificate.AlternateCertificate.Name).2 = none ∧
    (checkRefsOnController env key (hostRuleRefData h)).ret = Ret.nil := by
  unfold validateHostRuleObj at hret
  cases hl : hostRuleLocalError env h with
  | some msg => simp [hl, rejectHostRule] at hret
  | none =>
    simp only [hl] at hret
    cases hs1 : (secretCheck env h.Namespace h.Spec.VirtualHost.TLS.SSLKeyCertificate.Type_
      h.Spec.VirtualHost.TLS.SSLKeyCertificate.Name).2 with
    | some msg => simp [hs1, rejectHostRule] at hret
    | none =>
      simp only [hs1] at hret
      cases hs2 : (secretCheck env h.Namespace
        h.Spec.VirtualHost.TLS.SSLKeyCertificate.AlternateCertificate.Type_
        h.Spec.VirtualHost.TLS.SSLKeyCertificate.AlternateCertificate.Name).2 with
      | some msg => simp [hs2, rejectHostRule] at hret
      | none =>
        simp only [hs2] at hret
        cases hr : (checkRefsOnController env key (hostRuleRefData h)).ret with
        | nil => exact ⟨rfl, rfl, rfl, rfl⟩
        | error msg => simp [hr, rejectHostRule] at hret
        | panic msg => simp [hr] at hret

/-- A validation of a HostRule that returns nil returns nil in whatever order
`range` visits the references. -/
theorem validateHostRuleObj_ret_nil_of_order (env : Env) (key : String) (h : HostRule)
    (order : RefMap → List (String × String)) (horder : ∀ m, List.Perm (order m) m)
    (hret : (validateHostRuleObj env key h).ret = Ret.nil) :
    (validateHostRuleObj { env with rangeOrder := order, rangeOrder_perm := horder }
      key h).ret = Ret.nil := by
  obtain ⟨hl, hs1, hs2, hr⟩ := validateHostRuleObj_nil_cases env key h hret
  rw [validateHostRuleObj_of_success { env with rangeOrder := order, rangeOrder_perm := horder }
    key h hl hs1 hs2 (checkRefsOnController_ret_nil_of_order env key _ order horder hr)]

/-- A validation of an HTTPRule that returns nil has filled `refData`, and every
lookup on the controller has returned nil. -/
theorem validateHTTPRuleObj_nil_cases (env : Env) (key : String) (r : HTTPRule)
    (hret : (validateHTTPRuleObj env key r).ret = Ret.nil) :
    ∃ refData, httpRuleRefData [] r.Spec.Paths = some refData ∧
      (checkRefsOnController env key refData).ret = Ret.nil := by
  unfold validateHTTPRuleObj at hret
  cases hd : httpRuleRefData [] r.Spec.Paths with
  | none => simp [hd] at hret
  | some refData =>
    simp only [hd] at hret
    cases hr : (checkRefsOnController env key refData).ret with
    | nil => exact ⟨refData, rfl, hr⟩
    | error msg => simp [hr] at hret
    | panic msg => simp [hr] at hret

/-- A validation of an HTTPRule that returns nil returns nil in whatever order
`range` visits the references. -/
theorem validateHTTPRuleObj_ret_nil_of_order (env : Env) (key : String) (r : HTTPRule)
    (order : RefMap → List (String × String)) (horder : ∀ m, List.Perm (order m) m)
    (hret : (validateHTTPRuleObj env key r).ret = Ret.nil) :
    (validateHTTPRuleObj { env with rangeOrder := order, rangeOrder_perm := horder }
      key r).ret = Ret.nil := by
  obtain ⟨refData, hd, hr⟩ := validateHTTPRuleObj_nil_cases env key r hret
  rw [validateHTTPRuleObj_of_success { env with rangeOrder := order, rangeOrder_perm := horder }
    key r refData hd (checkRefsOnController_ret_nil_of_order env key _ order horder hr)]

/-- A validation of an AviInfraSetting that returns nil returns nil in whatever
order `range` visits the references. -/
theorem validateAviInfraSetting_ret_nil_of_order (env : Env) (key : String)
    (i : AviInfraSetting)
    (order : RefMap → List (String × String)) (horder : ∀ m, List.Perm (order m) m)
    (hret : (validateAviInfraSetting env key i).ret = Ret.nil) :
    (validateAviInfraSetting { env with rangeOrder := order, rangeOrder_perm := horder }
      key i).ret = Ret.nil := by
  unfold validateAviInfraSetting at hret ⊢
  simp only [] at hret ⊢
  split at hret
  · simp [rejectAviInfraSetting] at hret
  · rename_i hcond
    have hdata : aviInfraRefData { env with rangeOrder := order, rangeOrder_perm := horder } []
        i.Spec.Network.VipNetworks = aviInfraRefData env [] i.Spec.Network.VipNetworks := by
      generalize ([] : RefMap) = refData
      induction i.Spec.Network.VipNetworks generalizing refData with
      | nil => rfl
      | cons n rest ih => simp only [aviInfraRefData, ih]
    rw [if_neg hcond, hdata]
    cases hd : aviInfraRefData env [] i.Spec.Network.VipNetworks with
    | error msg => simp [hd, rejectAviInfraSetting] at hret
    | ok refData =>
      simp only [hd] at hret ⊢
      cases hr : (checkRefsOnController env key (if i.Spec.SeGroup.Name != "" then
          refData.set i.Spec.SeGroup.Name "ServiceEngineGroup" else refData)).ret with
      | nil =>
        rw [checkRefsOnController_ret_nil_of_order env key _ order horder hr]
        simp only []
        split <;> rfl
      | error msg =>
        rw [hr] at hret
        simp [rejectAviInfraSetting] at hret
      | panic msg =>
        rw [hr] at hret
        simp at hret

/-! ## Objects created by the operator itself -/

/-- A validation of an AviInfraSetting that returns nil has filled `refData`, and
every lookup on the controller has returned nil. -/
theorem validateAviInfraSetting_nil_cases (env : Env) (key : String) (i : AviInfraSetting)
    (hret : (validateAviInfraSetting env key i).ret = Ret.nil) :
    ∃ refData, aviInfraRefData env [] i.Spec.Network.VipNetworks = .ok refData ∧
      (checkRefsOnController env key (if i.Spec.SeGroup.Name != "" then
        refData.set i.Spec.SeGroup.Name "ServiceEngineGroup" else refData)).ret = Ret.nil := by
  unfold validateAviInfraSetting at hret
  simp only [] at hret
  split at hret
  · simp [rejectAviInfraSetting] at hret
  · cases hd : aviInfraRefData env [] i.Spec.Network.VipNetworks with
    | error msg => simp [hd, rejectAviInfraSetting] at hret
    | ok refData =>
      simp only [hd] at hret
      cases hr : (checkRefsOnController env key (if i.Spec.SeGroup.Name != "" then
          refData.set i.Spec.SeGroup.Name "ServiceEngineGroup" else refData)).ret with
      | nil => exact ⟨refData, rfl, hr⟩
      | error msg =>
        rw [hr] at hret
        simp [rejectAviInfraSetting] at hret
      | panic msg =>
        rw [hr] at hret
        simp at hret

/-- When the lookup of one entry of the map returns an error,
`checkRefsOnController` does not return nil. -/
theorem checkRefsOnController_ne_nil (env : Env) (key refKey refValue : String) (m : RefMap)
    (hmem : (refValue, refKey) ∈ m) (hname : refValue ≠ "")
    (herr : ∃ msg, (checkRefOnController env key refKey refValue).ret = Ret.error msg) :
    (checkRefsOnController env key m).ret ≠ Ret.nil := by
  intro hnil
  obtain ⟨msg, hmsg⟩ := herr
  have := (checkRefsOnController_ret_nil_iff env key m).mp hnil (refValue, refKey) hmem hname
  rw [hmsg] at this
  cases this

/-- A validation whose status updates are characterised by its result and which
ends neither with nil nor in a panic returns an error and makes one status
update, Rejected with the message of the error. -/
theorem rejected_of_ne_nil (sw : List UpdateCRDStatusOptions) (ret : Ret) (acc : Bool)
    (h : sw = match ret with
      | Ret.error msg => [⟨StatusRejected, msg⟩]
      | Ret.nil => if acc then [] else [⟨StatusAccepted, ""⟩]
      | Ret.panic _ => [])
    (hnil : ret ≠ Ret.nil) (hpanic : ∀ msg, ret ≠ Ret.panic msg) :
    ∃ msg, ret = Ret.error msg ∧ sw = [⟨StatusRejected, msg⟩] := by
  subst h
  cases ret with
  | nil => exact absurd rfl hnil
  | error m => exact ⟨m, rfl, rfl⟩
  | panic m => exact absurd rfl (hpanic m)

/-- Counterexample to C6 as stated: on a public cloud that uses network
references, the network `subnet-1` is looked up by UUID, the object returned
records `created_by` equal to the operator identity, and `checkRefOnController`
returns nil. -/
theorem C6_counterexample :
    envPublicCloud.AviGet (networkURI envPublicCloud "Network" "subnet-1") =
      .ok (GoValue.mapStringInterface
        [("name", Json.str "subnet-1"), ("created_by", Json.str envPublicCloud.GetAKOUser)]) ∧
    checkRefOnController envPublicCloud "AviInfraSetting/infra-1" "Network" "subnet-1" =
      ⟨[Event.AviGet "/api/network/subnet-1?cloud_uuid=cloud-uuid"], Ret.nil⟩ :=
  ⟨rfl, by decide⟩

/-- C6 (amended): for every reference resolved through the name-filtered
collection query, if the query returns a count that is not negative and not
beyond the longest slice the runtime makes, and the first result decodes to an
object whose `created_by` is the operator identity, `checkRefOnController`
returns an error after that one query.  A network reference on a public cloud
that uses network references is looked up by UUID instead, and there any
non-nil response makes it return nil.  Whenever `checkRefOnController` returns
an error for a name that is not blank and that `refData` of a HostRule, HTTPRule
or AviInfraSetting holds with that kind, the validator, if it returns, returns
an error and makes one status update, Rejected with the message of the error. -/
theorem C6_created_by_self (env : Env) (key refKey refValue : String) :
    (∀ (result : AviCollectionResult) (first : Json) (rest : List Json) (item : ItemMap),
      ¬(env.IsPublicCloud = true ∧ refModelMap refKey = "network" ∧ env.UsesNetworkRef = true) →
      env.AviGetCollectionRaw (collectionURI refKey refValue) = .ok result →
      0 ≤ result.Count → result.Count ≤ env.MaxSliceLen →
      unmarshalRawMessages result.Results = some (first :: rest) →
      unmarshalItem env.ParseFloatFits first = some item →
      item.index "created_by" = GoValue.string env.GetAKOUser →
      ∃ msg, checkRefOnController env key refKey refValue =
        ⟨[Event.AviGetCollectionRaw (collectionURI refKey refValue)], Ret.error msg⟩) ∧
    (∀ rest_response : GoValue,
      env.IsPublicCloud = true → refModelMap refKey = "network" → env.UsesNetworkRef = true →
      env.AviGet (networkURI env refKey refValue) = .ok rest_response →
      rest_response.isNil = false →
      checkRefOnController env key refKey refValue =
        ⟨[Event.AviGet (networkURI env refKey refValue)], Ret.nil⟩) ∧
    (refValue ≠ "" →
      (∃ msg, (checkRefOnController env key refKey refValue).ret = Ret.error msg) →
      (∀ h : HostRule, (refValue, refKey) ∈ hostRuleRefData h →
        (∀ msg, (validateHostRuleObj env key h).ret ≠ Ret.panic msg) →
        ∃ msg, (validateHostRuleObj env key h).ret = Ret.error msg ∧
          statusWrites (validateHostRuleObj env key h).trace = [⟨StatusRejected, msg⟩]) ∧
      (∀ (r : HTTPRule) (refData : RefMap), httpRuleRefData [] r.Spec.Paths = some refData →
        (refValue, refKey) ∈ refData →
        (∀ msg, (validateHTTPRuleObj env key r).ret ≠ Ret.panic msg) →
        ∃ msg, (validateHTTPRuleObj env key r).ret = Ret.error msg ∧
          statusWrites (validateHTTPRuleObj env key r).trace = [⟨StatusRejected, msg⟩]) ∧
      (∀ (i : AviInfraSetting) (refData : RefMap),
        aviInfraRefData env [] i.Spec.Network.VipNetworks = .ok refData →
        (refValue, refKey) ∈ (if i.Spec.SeGroup.Name != "" then
          refData.set i.Spec.SeGroup.Name "ServiceEngineGroup" else refData) →
        (∀ msg, (validateAviInfraSetting env key i).ret ≠ Ret.panic msg) →
        ∃ msg, (validateAviInfraSetting env key i).ret = Ret.error msg ∧
          statusWrites (validateAviInfraSetting env key i).trace =
            [⟨StatusRejected, msg⟩])) := by
  refine ⟨?_, ?_, fun hname herr => ?_⟩
  · intro result first rest item hpath hget hcount hmax hres hitem hcb
    have hcond : (env.IsPublicCloud && refModelMap refKey == "network" && env.UsesNetworkRef)
        = false := by
      cases h1 : env.IsPublicCloud <;> cases h3 : env.UsesNetworkRef <;>
        by_cases h2 : refModelMap refKey = "network" <;> simp_all
    have hneg : (decide (result.Count < 0) || decide (result.Count > env.MaxSliceLen)) = false := by
      simp [not_lt.mpr hcount, not_lt.mpr hmax]
    unfold checkRefOnController
    simp only [hcond, hget, hres, hitem, hneg, if_false, Bool.false_eq_true]
    by_cases hzero : result.Count = 0
    · exact ⟨msgNotFound refKey refValue, by simp [hzero]⟩
    · have hitemret : ∃ msg, checkRefItem env refKey refValue item = Ret.error msg := by
        unfold checkRefItem
        rcases (checkRefSwitch_decoded env refKey refValue _ first item hitem).1 with
          hs | ⟨m, hs⟩
        · exact ⟨msgCreatedBySelf refKey refValue, by simp [hs, hcb, GoValue.assertString]⟩
        · exact ⟨m, by simp [hs]⟩
      obtain ⟨msg, hmsg⟩ := hitemret
      exact ⟨msg, by simp [hzero, hmsg]⟩
  · intro rest_response h1 h2 h3 hget hnil
    unfold checkRefOnController
    simp [h1, h2, h3, hget, hnil]
  · refine ⟨fun h hmem hpanic => ?_, fun r refData hd hmem hpanic => ?_,
      fun i refData hd hmem hpanic => ?_⟩
    · refine rejected_of_ne_nil _ _ _ (validateHostRuleObj_statusWrites env key h) ?_ hpanic
      intro hnil
      exact checkRefsOnController_ne_nil env key refKey refValue _ hmem hname herr
        (validateHostRuleObj_nil_cases env key h hnil).2.2.2
    · have hsw := validateHTTPRuleObj_statusWrites env key r
      rw [hd] at hsw
      refine rejected_of_ne_nil _ _ _ hsw ?_ hpanic
      intro hnil
      obtain ⟨refData', hd', hr⟩ := validateHTTPRuleObj_nil_cases env key r hnil
      rw [hd] at hd'
      cases hd'
      exact checkRefsOnController_ne_nil env key refKey refValue _ hmem hname herr hr
    · refine rejected_of_ne_nil _ _ _ (validateAviInfraSetting_statusWrites env key i) ?_ hpanic
      intro hnil
      obtain ⟨refData', hd', hr⟩ := validateAviInfraSetting_nil_cases env key i hnil
      rw [hd] at hd'
      cases hd'
      exact checkRefsOnController_ne_nil env key refKey refValue _ hmem hname herr hr

/-- Witness for C6 (amended): a WAF policy whose only result was created by the
operator identity, the network looked up by UUID on a public cloud, and the
HostRule that names the WAF policy. -/
theorem C6_created_by_self_witness :
    (∃ msg, checkRefOnController envOwnObjects "HostRule/default/a" "WafPolicy" "waf-1" =
        ⟨[Event.AviGetCollectionRaw (collectionURI "WafPolicy" "waf-1")], Ret.error msg⟩) ∧
    checkRefOnController envPublicCloud "AviInfraSetting/infra-1" "Network" "subnet-1" =
      ⟨[Event.AviGet (networkURI envPublicCloud "Network" "subnet-1")], Ret.nil⟩ ∧
    (∃ msg, (validateHostRuleObj envOwnObjects "HostRule/default/a" hostRuleWaf).ret =
        Ret.error msg ∧
      statusWrites (validateHostRuleObj envOwnObjects "HostRule/default/a" hostRuleWaf).trace =
        [⟨StatusRejected, msg⟩]) :=
  ⟨(C6_created_by_self envOwnObjects "HostRule/default/a" "WafPolicy" "waf-1").1
      ⟨1, some (Json.arr [Json.obj
        [("name", Json.str "waf-1"), ("created_by", Json.str "ako-user")]])⟩
      (Json.obj [("name", Json.str "waf-1"), ("created_by", Json.str "ako-user")]) []
      [("name", GoValue.string "waf-1"), ("created_by", GoValue.string "ako-user")]
      (by decide) rfl (by decide) (by decide) rfl rfl rfl,
   (C6_created_by_self envPublicCloud "AviInfraSetting/infra-1" "Network" "subnet-1").2.1
      (GoValue.mapStringInterface
        [("name", Json.str "subnet-1"), ("created_by", Json.str "ako-user")])
      rfl rfl rfl rfl rfl,
   ((C6_created_by_self envOwnObjects "HostRule/default/a" "WafPolicy" "waf-1").2.2
      (by decide) ⟨msgCreatedBySelf "WafPolicy" "waf-1", by decide⟩).1 hostRuleWaf (by decide)
      (fun msg h => Ret.noConfusion ((by decide :
        (validateHostRuleObj envOwnObjects "HostRule/default/a" hostRuleWaf).ret =
          Ret.error (msgCreatedBySelf "WafPolicy" "waf-1")).symm.trans h))⟩

/-! ## Status updates of two calls -/

/-- Counterexample to C13 as stated: a HostRule with empty status that passes
every check gets the Accepted write on each of two calls on the same object in
the same environment, and a MultiClusterIngress gets its status update on each
of two calls. -/
theorem C13_counterexample :
    statusWrites
        ((validateHostRuleObj sampleEnv "HostRule/default/a"
            (sampleHostRule "default" "a" "a.example.com")).trace ++
          (validateHostRuleObj sampleEnv "HostRule/default/a"
            (sampleHostRule "default" "a" "a.example.com")).trace) =
      [⟨StatusAccepted, ""⟩, ⟨StatusAccepted, ""⟩] ∧
    ((validateMultiClusterIngressObj sampleLib "MultiClusterIngress/default/m" sampleMCI).trace ++
        (validateMultiClusterIngressObj sampleLib "MultiClusterIngress/default/m" sampleMCI).trace
      ).filter Event.isStatusWrite =
      [Event.UpdateMultiClusterIngressStatus "MultiClusterIngress/default/m" true "",
       Event.UpdateMultiClusterIngressStatus "MultiClusterIngress/default/m" true ""] := by
  decide

/-- The status updates of a validation, as characterised by its result, are at
most one. -/
theorem statusWrites_length_le_one (sw : List UpdateCRDStatusOptions) (ret : Ret) (acc : Bool)
    (h : sw = match ret with
      | Ret.error msg => [⟨StatusRejected, msg⟩]
      | Ret.nil => if acc then [] else [⟨StatusAccepted, ""⟩]
      | Ret.panic _ => []) :
    sw.length ≤ 1 ∧ (acc = true → ret = Ret.nil → sw = []) := by
  subst h
  cases ret with
  | nil => cases acc <;> simp
  | error msg => simp
  | panic msg => simp

/-- C13 (amended): one call of the validator of a HostRule, HTTPRule or
AviInfraSetting makes at most one status update, and two calls on the same
object against the same index and controller state, the second visiting the
references in any order `range` may take, make none when the status is already
Accepted and the first call returns nil; one call of the validator of a
MultiClusterIngress makes exactly one status update. -/
theorem C13_status_writes_per_call (env : Env) (lib : Lib) (key : String)
    (order : RefMap → List (String × String)) (horder : ∀ m, List.Perm (order m) m) :
    (∀ h : HostRule,
      (statusWrites (validateHostRuleObj env key h).trace).length ≤ 1 ∧
      (h.Status.Status = StatusAccepted → (validateHostRuleObj env key h).ret = Ret.nil →
        statusWrites ((validateHostRuleObj env key h).trace ++
          (validateHostRuleObj { env with rangeOrder := order, rangeOrder_perm := horder }
            key h).trace) = [])) ∧
    (∀ r : HTTPRule,
      (statusWrites (validateHTTPRuleObj env key r).trace).length ≤ 1 ∧
      (r.Status.Status = StatusAccepted → (validateHTTPRuleObj env key r).ret = Ret.nil →
        statusWrites ((validateHTTPRuleObj env key r).trace ++
          (validateHTTPRuleObj { env with rangeOrder := order, rangeOrder_perm := horder }
            key r).trace) = [])) ∧
    (∀ i : AviInfraSetting,
      (statusWrites (validateAviInfraSetting env key i).trace).length ≤ 1 ∧
      (i.Status.Status = StatusAccepted → (validateAviInfraSetting env key i).ret = Ret.nil →
        statusWrites ((validateAviInfraSetting env key i).trace ++
          (validateAviInfraSetting { env with rangeOrder := order, rangeOrder_perm := horder }
            key i).trace) = [])) ∧
    (∀ m : MultiClusterIngress,
      ((validateMultiClusterIngressObj lib key m).trace.filter Event.isStatusWrite).length
        = 1) := by
  refine ⟨fun h => ?_, fun r => ?_, fun i => ?_, fun m => ?_⟩
  · have hc := statusWrites_length_le_one _ _ _ (validateHostRuleObj_statusWrites env key h)
    refine ⟨hc.1, fun hacc hret => ?_⟩
    have hc' := statusWrites_length_le_one _ _ _ (validateHostRuleObj_statusWrites
      { env with rangeOrder := order, rangeOrder_perm := horder } key h)
    rw [statusWrites_append, hc.2 (by simp [hacc]) hret, hc'.2 (by simp [hacc])
      (validateHostRuleObj_ret_nil_of_order env key h order horder hret)]
    rfl
  · have hsw := validateHTTPRuleObj_statusWrites env key r
    have hsw' := validateHTTPRuleObj_statusWrites
      { env with rangeOrder := order, rangeOrder_perm := horder } key r
    cases hd : httpRuleRefData [] r.Spec.Paths with
    | none =>
      rw [hd] at hsw
      refine ⟨by simp [hsw], fun _ hret => ?_⟩
      simp [validateHTTPRuleObj, hd] at hret
    | some refData =>
      rw [hd] at hsw hsw'
      have hc := statusWrites_length_le_one _ _ _ hsw
      have hc' := statusWrites_length_le_one _ _ _ hsw'
      refine ⟨hc.1, fun hacc hret => ?_⟩
      rw [statusWrites_append, hc.2 (by simp [hacc]) hret, hc'.2 (by simp [hacc])
        (validateHTTPRuleObj_ret_nil_of_order env key r order horder hret)]
      rfl
  · have hc := statusWrites_length_le_one _ _ _ (validateAviInfraSetting_statusWrites env key i)
    refine ⟨hc.1, fun hacc hret => ?_⟩
    have hc' := statusWrites_length_le_one _ _ _ (validateAviInfraSetting_statusWrites
      { env with rangeOrder := order, rangeOrder_perm := horder } key i)
    rw [statusWrites_append, hc.2 (by simp [hacc]) hret, hc'.2 (by simp [hacc])
      (validateAviInfraSetting_ret_nil_of_order env key i order horder hret)]
    rfl
  · unfold validateMultiClusterIngressObj
    split <;> simp [Event.isStatusWrite]

/-- Witness for C13 (amended): the Accepted HostRule, HTTPRule and
AviInfraSetting of the sample inputs, each validated twice, the second time with
the references visited in the opposite order. -/
theorem C13_status_writes_per_call_witness :
    (∀ m : RefMap, List.Perm (List.reverse m) m) ∧
    statusWrites ((validateHostRuleObj sampleEnv "HostRule/default/a" hostRuleAccepted).trace ++
      (validateHostRuleObj
        { sampleEnv with rangeOrder := List.reverse, rangeOrder_perm := List.reverse_perm }
        "HostRule/default/a" hostRuleAccepted).trace) = [] ∧
    statusWrites ((validateHTTPRuleObj sampleEnv "HostRule/default/a" httpRuleAccepted).trace ++
      (validateHTTPRuleObj
        { sampleEnv with rangeOrder := List.reverse, rangeOrder_perm := List.reverse_perm }
        "HostRule/default/a" httpRuleAccepted).trace) = [] ∧
    statusWrites
      ((validateAviInfraSetting sampleEnv "HostRule/default/a" infraSettingAccepted).trace ++
        (validateAviInfraSetting
          { sampleEnv with rangeOrder := List.reverse, rangeOrder_perm := List.reverse_perm }
          "HostRule/default/a" infraSettingAccepted).trace)
      = [] :=
  have w := C13_status_writes_per_call sampleEnv sampleLib "HostRule/default/a"
    List.reverse List.reverse_perm
  ⟨List.reverse_perm, (w.1 hostRuleAccepted).2 rfl (by decide),
   (w.2.1 httpRuleAccepted).2 rfl (by decide),
   (w.2.2.1 infraSettingAccepted).2 rfl (by decide)⟩

/-- Counterexample to C15 as stated: for the HTTPRule whose path sets both a PKI
profile and a destination CA, the reason persisted is
`lib.HttpRulePkiAndDestCASetErr`, the message of the returned error is that
text behind `key: <key>, msg: `, and the two differ. -/
theorem C15_counterexample :
    (validateHTTPRuleObj sampleEnv "HTTPRule/default/r" httpRulePkiAndCA).ret =
      Ret.error "key: HTTPRule/default/r, msg: pkiProfile and destinationCA cannot both be set" ∧
    statusWrites (validateHTTPRuleObj sampleEnv "HTTPRule/default/r" httpRulePkiAndCA).trace =
      [⟨StatusRejected, "pkiProfile and destinationCA cannot both be set"⟩] ∧
    "pkiProfile and destinationCA cannot both be set" ≠
      "key: HTTPRule/default/r, msg: pkiProfile and destinationCA cannot both be set" := by
  decide

/-- A validation whose status updates are characterised by its result returns
the error `msg` exactly when its status updates are the single Rejected write
with reason `msg`, and makes no Rejected write when it returns nil. -/
theorem error_iff_rejected_write (sw : List UpdateCRDStatusOptions) (ret : Ret) (acc : Bool)
    (h : sw = match ret with
      | Ret.error msg => [⟨StatusRejected, msg⟩]
      | Ret.nil => if acc then [] else [⟨StatusAccepted, ""⟩]
      | Ret.panic _ => []) :
    (∀ msg, ret = Ret.error msg ↔ sw = [⟨StatusRejected, msg⟩]) ∧
    (ret = Ret.nil → ∀ o ∈ sw, o.Status ≠ StatusRejected) := by
  have hne : StatusAccepted ≠ StatusRejected := by decide
  subst h
  cases ret with
  | nil => cases acc <;> simp [hne]
  | error m => simp
  | panic m => simp

/-- C15 (amended): `validateHostRuleObj` and `validateAviInfraSetting` return an
error with message `msg` exactly when they make one status update, Rejected
with reason `msg`, and make no Rejected write when they return nil.  The same
holds for `validateHTTPRuleObj` when no path sets both a PKI profile and a
destination CA; when some path does, the one status update is Rejected with
reason `lib.HttpRulePkiAndDestCASetErr` and the error returned reads
`key: <key>, msg: ` followed by that text. -/
theorem C15_error_iff_rejected (env : Env) (key : String) :
    (∀ h : HostRule,
      (∀ msg, (validateHostRuleObj env key h).ret = Ret.error msg ↔
        statusWrites (validateHostRuleObj env key h).trace = [⟨StatusRejected, msg⟩]) ∧
      ((validateHostRuleObj env key h).ret = Ret.nil →
        ∀ o ∈ statusWrites (validateHostRuleObj env key h).trace, o.Status ≠ StatusRejected)) ∧
    (∀ i : AviInfraSetting,
      (∀ msg, (validateAviInfraSetting env key i).ret = Ret.error msg ↔
        statusWrites (validateAviInfraSetting env key i).trace = [⟨StatusRejected, msg⟩]) ∧
      ((validateAviInfraSetting env key i).ret = Ret.nil →
        ∀ o ∈ statusWrites (validateAviInfraSetting env key i).trace,
          o.Status ≠ StatusRejected)) ∧
    (∀ r : HTTPRule,
      ((¬ ∃ path ∈ r.Spec.Paths, path.TLS.PKIProfile ≠ "" ∧ path.TLS.DestinationCA ≠ "") →
        ∀ msg, (validateHTTPRuleObj env key r).ret = Ret.error msg ↔
          statusWrites (validateHTTPRuleObj env key r).trace = [⟨StatusRejected, msg⟩]) ∧
      ((∃ path ∈ r.Spec.Paths, path.TLS.PKIProfile ≠ "" ∧ path.TLS.DestinationCA ≠ "") →
        (validateHTTPRuleObj env key r).ret =
            Ret.error ("key: " ++ key ++ ", msg: " ++ env.HttpRulePkiAndDestCASetErr) ∧
          statusWrites (validateHTTPRuleObj env key r).trace =
            [⟨StatusRejected, env.HttpRulePkiAndDestCASetErr⟩]) ∧
      ((validateHTTPRuleObj env key r).ret = Ret.nil →
        ∀ o ∈ statusWrites (validateHTTPRuleObj env key r).trace,
          o.Status ≠ StatusRejected)) := by
  refine ⟨fun h => ?_, fun i => ?_, fun r => ?_⟩
  · exact error_iff_rejected_write _ _ _ (validateHostRuleObj_statusWrites env key h)
  · exact error_iff_rejected_write _ _ _ (validateAviInfraSetting_statusWrites env key i)
  · have hsw := validateHTTPRuleObj_statusWrites env key r
    have hiff := httpRuleRefData_eq_none_iff r.Spec.Paths []
    cases hd : httpRuleRefData [] r.Spec.Paths with
    | none =>
      have hex := hiff.mp hd
      refine ⟨fun hno => absurd hex hno, fun _ => ?_, fun hret => ?_⟩
      · simp [validateHTTPRuleObj, hd, statusWrites, Event.statusOptions]
      · simp [validateHTTPRuleObj, hd] at hret
    | some refData =>
      rw [hd] at hsw
      have hc := error_iff_rejected_write _ _ _ hsw
      have hno : ¬ ∃ path ∈ r.Spec.Paths,
          path.TLS.PKIProfile ≠ "" ∧ path.TLS.DestinationCA ≠ "" := by
        intro hex
        rw [hiff.mpr hex] at hd
        cases hd
      exact ⟨fun _ => hc.1, fun hex => absurd hex hno, hc.2⟩

/-- Witness for C15 (amended): the HTTPRule without references, and the one whose
path sets both a PKI profile and a destination CA. -/
theorem C15_error_iff_rejected_witness :
    (∀ msg, (validateHTTPRuleObj sampleEnv "HTTPRule/default/r" httpRuleAccepted).ret =
        Ret.error msg ↔
      statusWrites (validateHTTPRuleObj sampleEnv "HTTPRule/default/r" httpRuleAccepted).trace =
        [⟨StatusRejected, msg⟩]) ∧
    ((validateHTTPRuleObj sampleEnv "HTTPRule/default/r" httpRulePkiAndCA).ret =
        Ret.error ("key: " ++ "HTTPRule/default/r" ++ ", msg: "
          ++ sampleEnv.HttpRulePkiAndDestCASetErr) ∧
      statusWrites (validateHTTPRuleObj sampleEnv "HTTPRule/default/r" httpRulePkiAndCA).trace =
        [⟨StatusRejected, sampleEnv.HttpRulePkiAndDestCASetErr⟩]) ∧
    (∀ o ∈ statusWrites
        (validateHostRuleObj sampleEnv "HostRule/default/a" hostRuleAccepted).trace,
      o.Status ≠ StatusRejected) ∧
    (∀ o ∈ statusWrites
        (validateAviInfraSetting sampleEnv "AviInfraSetting/infra-4" infraSettingAccepted).trace,
      o.Status ≠ StatusRejected) ∧
    (∀ o ∈ statusWrites
        (validateHTTPRuleObj sampleEnv "HTTPRule/default/r" httpRuleAccepted).trace,
      o.Status ≠ StatusRejected) :=
  ⟨((C15_error_iff_rejected sampleEnv "HTTPRule/default/r").2.2 httpRuleAccepted).1 (by decide),
   ((C15_error_iff_rejected sampleEnv "HTTPRule/default/r").2.2 httpRulePkiAndCA).2.1
      ⟨⟨⟨"ssl-1", "p1", "ca-data"⟩, "", ["hm-1"]⟩, by decide, by decide, by decide⟩,
   ((C15_error_iff_rejected sampleEnv "HostRule/default/a").1 hostRuleAccepted).2 (by decide),
   ((C15_error_iff_rejected sampleEnv "AviInfraSetting/infra-4").2.1 infraSettingAccepted).2
      (by decide),
   ((C15_error_iff_rejected sampleEnv "HTTPRule/default/r").2.2 httpRuleAccepted).2.2
      (by decide)⟩

/-! ## Event handlers -/

/-- No validation of a HostRule adds to a work queue or calls the SE group API. -/
theorem validateHostRuleObj_trace (env : Env) (key : String) (h : HostRule) :
    ∀ e ∈ (validateHostRuleObj env key h).trace, e.isEnqueue = false ∧ e.isLabelCall = false := by
  have hs : ∀ ns t n, ∀ e ∈ (secretCheck env ns t n).1,
      e.isEnqueue = false ∧ e.isLabelCall = false := by
    intro ns t n e he
    have := secretCheck_trace env ns t n e he
    simp only [Event.isControllerCall, Bool.or_eq_false_iff] at this
    exact ⟨this.2.1, this.2.2.2⟩
  have hq : ∀ m : RefMap, ∀ e ∈ (checkRefsOnController env key m).trace,
      e.isEnqueue = false ∧ e.isLabelCall = false := fun m e he =>
    (Event.isControllerQuery_elim e (checkRefsOnController_trace env key m e he)).2
  have hu : ∀ o, (Event.UpdateHostRuleStatus key o).isEnqueue = false ∧
      (Event.UpdateHostRuleStatus key o).isLabelCall = false := fun _ => ⟨rfl, rfl⟩
  unfold validateHostRuleObj rejectHostRule
  cases hostRuleLocalError env h with
  | some msg => simp [hu]
  | none =>
    simp only []
    cases (secretCheck env h.Namespace h.Spec.VirtualHost.TLS.SSLKeyCertificate.Type_
        h.Spec.VirtualHost.TLS.SSLKeyCertificate.Name).2 with
    | some msg =>
      simp only [List.forall_mem_append, List.forall_mem_singleton]
      exact ⟨hs _ _ _, hu _⟩
    | none =>
      simp only []
      cases (secretCheck env h.Namespace
          h.Spec.VirtualHost.TLS.SSLKeyCertificate.AlternateCertificate.Type_
          h.Spec.VirtualHost.TLS.SSLKeyCertificate.AlternateCertificate.Name).2 with
      | some msg =>
        simp only [List.forall_mem_append, List.forall_mem_singleton]
        exact ⟨⟨hs _ _ _, hs _ _ _⟩, hu _⟩
      | none =>
        simp only []
        cases (checkRefsOnController env key (hostRuleRefData h)).ret with
        | error msg =>
          simp only [List.forall_mem_append, List.forall_mem_singleton]
          exact ⟨⟨⟨hs _ _ _, hs _ _ _⟩, hq _⟩, hu _⟩
        | panic msg =>
          simp only [List.forall_mem_append]
          exact ⟨⟨hs _ _ _, hs _ _ _⟩, hq _⟩
        | nil =>
          simp only []
          split
          · simp only [List.forall_mem_append]
            exact ⟨⟨hs _ _ _, hs _ _ _⟩, hq _⟩
          · simp only [List.forall_mem_append, List.forall_mem_singleton]
            exact ⟨⟨⟨hs _ _ _, hs _ _ _⟩, hq _⟩, hu _⟩

/-- No validation of an HTTPRule adds to a work queue or calls the SE group API. -/
theorem validateHTTPRuleObj_trace (env : Env) (key : String) (r : HTTPRule) :
    ∀ e ∈ (validateHTTPRuleObj env key r).trace, e.isEnqueue = false ∧ e.isLabelCall = false := by
  have hq : ∀ m : RefMap, ∀ e ∈ (checkRefsOnController env key m).trace,
      e.isEnqueue = false ∧ e.isLabelCall = false := fun m e he =>
    (Event.isControllerQuery_elim e (checkRefsOnController_trace env key m e he)).2
  have hu : ∀ o, (Event.UpdateHTTPRuleStatus key o).isEnqueue = false ∧
      (Event.UpdateHTTPRuleStatus key o).isLabelCall = false := fun _ => ⟨rfl, rfl⟩
  unfold validateHTTPRuleObj
  cases httpRuleRefData [] r.Spec.Paths with
  | none => simp [hu]
  | some refData =>
    simp only []
    cases (checkRefsOnController env key refData).ret with
    | error msg =>
      simp only [List.forall_mem_append, List.forall_mem_singleton]
      exact ⟨hq _, hu _⟩
    | panic msg => exact hq _
    | nil =>
      simp only []
      split
      · exact hq _
      · simp only [List.forall_mem_append, List.forall_mem_singleton]
        exact ⟨hq _, hu _⟩

/-- No validation of an AviInfraSetting adds to a work queue. -/
theorem validateAviInfraSetting_trace (env : Env) (key : String) (i : AviInfraSetting) :
    ∀ e ∈ (validateAviInfraSetting env key i).trace, e.isEnqueue = false := by
  have hq : ∀ m : RefMap, ∀ e ∈ (checkRefsOnController env key m).trace,
      e.isEnqueue = false := fun m e he =>
    (Event.isControllerQuery_elim e (checkRefsOnController_trace env key m e he)).2.1
  have hl : ∀ s, ∀ e ∈ addSeGroupLabel env s, e.isEnqueue = false := fun s e he =>
    (addSeGroupLabel_trace env s e he).2.2
  have hu : ∀ o, (Event.UpdateAviInfraSettingStatus key o).isEnqueue = false := fun _ => rfl
  have hlab : ∀ e ∈ (if i.Spec.SeGroup.Name != "" then
      addSeGroupLabel env i.Spec.SeGroup.Name else []), e.isEnqueue = false := by
    split
    · exact hl _
    · simp
  unfold validateAviInfraSetting rejectAviInfraSetting
  simp only []
  split
  · simp [hu]
  · cases aviInfraRefData env [] i.Spec.Network.VipNetworks with
    | error msg => simp [hu]
    | ok refData =>
      simp only []
      cases (checkRefsOnController env key (if i.Spec.SeGroup.Name != "" then
          refData.set i.Spec.SeGroup.Name "ServiceEngineGroup" else refData)).ret with
      | error msg =>
        simp only [List.forall_mem_append, List.forall_mem_singleton]
        exact ⟨hq _, hu _⟩
      | panic msg => exact hq _
      | nil =>
        simp only []
        split
        · simp only [List.forall_mem_append]
          exact ⟨hq _, hlab⟩
        · simp only [List.forall_mem_append, List.forall_mem_singleton]
          exact ⟨⟨hq _, hlab⟩, hu _⟩

/-- After a validation that returns, with nil or with an error, and that added
nothing to a queue itself, the handler has added the key once. -/
theorem enqueueAfterValidation_enqueues (lib : Lib) (numWorkers : Nat) (ns key : String)
    (r : Run) (hret : ∀ msg, r.ret ≠ Ret.panic msg)
    (htrace : ∀ e ∈ r.trace, e.isEnqueue = false) :
    (enqueueAfterValidation lib numWorkers ns key r).ret = Ret.nil ∧
    (enqueueAfterValidation lib numWorkers ns key r).trace.filter Event.isEnqueue =
      [Event.AddRateLimited (lib.Bkt ns numWorkers) key] := by
  have hnil : r.trace.filter Event.isEnqueue = [] := by
    rw [List.filter_eq_nil_iff]
    intro e he
    simp [htrace e he]
  unfold enqueueAfterValidation
  cases hr : r.ret with
  | panic msg => exact absurd hr (hret msg)
  | nil => simp [List.filter_append, hnil, Event.isEnqueue]
  | error msg => simp [List.filter_append, hnil, Event.isEnqueue]

/-- Counterexample to C14 as stated: with sync enabled and every namespace
admitted, the Add handler and the Update handler of a MultiClusterIngress whose
`Spec.Config` is empty write the rejection and add nothing to any work queue. -/
theorem C14_counterexample :
    multiClusterIngressAddFunc ⟨false⟩ sampleLib 3 emptyMCI =
      ⟨[Event.UpdateMultiClusterIngressStatus "MultiClusterIngress/default/e" false
          "config must not be empty"], Ret.nil⟩ ∧
    (multiClusterIngressAddFunc ⟨false⟩ sampleLib 3 emptyMCI).trace.filter Event.isEnqueue = [] ∧
    (multiClusterIngressUpdateFunc ⟨false⟩ sampleLib 3
      { emptyMCI with
        Spec := ⟨"hostName: e.example.com, config: [/ on cluster-1]", [⟨"/ on cluster-1"⟩]⟩ }
      emptyMCI).trace.filter
        Event.isEnqueue = [] := by
  decide

/-- C14 (amended): with sync enabled, the Add handler and, on a significant
update, the Update handler of a HostRule, HTTPRule and AviInfraSetting add the key
exactly once, to the shard of the namespace, whenever the validator returns,
with nil or with an error.  For a MultiClusterIngress in an admitted namespace
the two handlers add the key exactly once when validation succeeds and not at
all when it fails. -/
theorem C14_enqueue_after_validation (c : AviController) (lib : Lib) (u : Utils) (env : Env)
    (numWorkers : Nat) (hsync : c.DisableSync = false) :
    (∀ h : HostRule,
      (∀ msg, (validateHostRuleObj env (lib.HostRule ++ "/" ++ lib.ObjKey h.Namespace h.Name)
        h).ret ≠ Ret.panic msg) →
      (hostRuleAddFunc c lib env numWorkers h).trace.filter Event.isEnqueue =
          [Event.AddRateLimited
            (lib.Bkt (lib.SplitMetaNamespaceKey (lib.ObjKey h.Namespace h.Name)) numWorkers)
            (lib.HostRule ++ "/" ++ lib.ObjKey h.Namespace h.Name)] ∧
        ∀ old, isHostRuleUpdated u old h = true →
          (hostRuleUpdateFunc c lib u env numWorkers old h).trace.filter Event.isEnqueue =
            [Event.AddRateLimited
              (lib.Bkt (lib.SplitMetaNamespaceKey (lib.ObjKey h.Namespace h.Name)) numWorkers)
              (lib.HostRule ++ "/" ++ lib.ObjKey h.Namespace h.Name)]) ∧
    (∀ r : HTTPRule,
      (∀ msg, (validateHTTPRuleObj env (lib.HTTPRule ++ "/" ++ lib.ObjKey r.Namespace r.Name)
        r).ret ≠ Ret.panic msg) →
      (httpRuleAddFunc c lib env numWorkers r).trace.filter Event.isEnqueue =
          [Event.AddRateLimited
            (lib.Bkt (lib.SplitMetaNamespaceKey (lib.ObjKey r.Namespace r.Name)) numWorkers)
            (lib.HTTPRule ++ "/" ++ lib.ObjKey r.Namespace r.Name)] ∧
        ∀ old, isHTTPRuleUpdated u old r = true →
          (httpRuleUpdateFunc c lib u env numWorkers old r).trace.filter Event.isEnqueue =
            [Event.AddRateLimited
              (lib.Bkt (lib.SplitMetaNamespaceKey (lib.ObjKey r.Namespace r.Name)) numWorkers)
              (lib.HTTPRule ++ "/" ++ lib.ObjKey r.Namespace r.Name)]) ∧
    (∀ i : AviInfraSetting,
      (∀ msg, (validateAviInfraSetting env
        (lib.AviInfraSetting ++ "/" ++ lib.ObjKey i.Namespace i.Name) i).ret ≠ Ret.panic msg) →
      (aviInfraAddFunc c lib env numWorkers i).trace.filter Event.isEnqueue =
          [Event.AddRateLimited
            (lib.Bkt (lib.SplitMetaNamespaceKey (lib.ObjKey i.Namespace i.Name)) numWorkers)
            (lib.AviInfraSetting ++ "/" ++ lib.ObjKey i.Namespace i.Name)] ∧
        ∀ old, isAviInfraUpdated u old i = true →
          (aviInfraUpdateFunc c lib u env numWorkers old i).trace.filter Event.isEnqueue =
            [Event.AddRateLimited
              (lib.Bkt (lib.SplitMetaNamespaceKey (lib.ObjKey i.Namespace i.Name)) numWorkers)
              (lib.AviInfraSetting ++ "/" ++ lib.ObjKey i.Namespace i.Name)]) ∧
    (∀ m : MultiClusterIngress,
      lib.IsNamespaceBlocked (lib.SplitMetaNamespaceKey (lib.ObjKey m.Namespace m.Name)) = false →
      lib.CheckIfNamespaceAccepted (lib.SplitMetaNamespaceKey (lib.ObjKey m.Namespace m.Name))
        = true →
      (multiClusterIngressAddFunc c lib numWorkers m).trace.filter Event.isEnqueue =
          (if multiClusterIngressError lib m = none then
            [Event.AddRateLimited
              (lib.Bkt (lib.SplitMetaNamespaceKey (lib.ObjKey m.Namespace m.Name)) numWorkers)
              (lib.MultiClusterIngress ++ "/" ++ lib.ObjKey m.Namespace m.Name)]
          else []) ∧
        ∀ old : MultiClusterIngress, lib.DeepEqualMultiClusterIngressSpec old.Spec m.Spec = false →
          (multiClusterIngressUpdateFunc c lib numWorkers old m).trace.filter Event.isEnqueue =
            (if multiClusterIngressError lib m = none then
              [Event.AddRateLimited
                (lib.Bkt (lib.SplitMetaNamespaceKey (lib.ObjKey m.Namespace m.Name)) numWorkers)
                (lib.MultiClusterIngress ++ "/" ++ lib.ObjKey m.Namespace m.Name)]
            else [])) := by
  refine ⟨fun h hret => ?_, fun r hret => ?_, fun i hret => ?_, fun m hblk hacc => ?_⟩
  · have he := (enqueueAfterValidation_enqueues lib numWorkers
      (lib.SplitMetaNamespaceKey (lib.ObjKey h.Namespace h.Name))
      (lib.HostRule ++ "/" ++ lib.ObjKey h.Namespace h.Name) _ hret
      (fun e he => (validateHostRuleObj_trace env _ h e he).1)).2
    refine ⟨?_, fun old hupd => ?_⟩
    · simpa [hostRuleAddFunc, hsync] using he
    · simpa [hostRuleUpdateFunc, hsync, hupd] using he
  · have he := (enqueueAfterValidation_enqueues lib numWorkers
      (lib.SplitMetaNamespaceKey (lib.ObjKey r.Namespace r.Name))
      (lib.HTTPRule ++ "/" ++ lib.ObjKey r.Namespace r.Name) _ hret
      (fun e he => (validateHTTPRuleObj_trace env _ r e he).1)).2
    refine ⟨?_, fun old hupd => ?_⟩
    · simpa [httpRuleAddFunc, hsync] using he
    · simpa [httpRuleUpdateFunc, hsync, hupd] using he
  · have he := (enqueueAfterValidation_enqueues lib numWorkers
      (lib.SplitMetaNamespaceKey (lib.ObjKey i.Namespace i.Name))
      (lib.AviInfraSetting ++ "/" ++ lib.ObjKey i.Namespace i.Name) _ hret
      (validateAviInfraSetting_trace env _ i)).2
    refine ⟨?_, fun old hupd => ?_⟩
    · simpa [aviInfraAddFunc, hsync] using he
    · simpa [aviInfraUpdateFunc, hsync, hupd] using he
  · have hadmit : (multiClusterIngressAdmit lib numWorkers m).trace.filter Event.isEnqueue =
        (if multiClusterIngressError lib m = none then
          [Event.AddRateLimited
            (lib.Bkt (lib.SplitMetaNamespaceKey (lib.ObjKey m.Namespace m.Name)) numWorkers)
            (lib.MultiClusterIngress ++ "/" ++ lib.ObjKey m.Namespace m.Name)]
        else []) := by
      unfold multiClusterIngressAdmit validateMultiClusterIngressObj
      cases hv : multiClusterIngressError lib m with
      | none => simp [hblk, hacc, Event.isEnqueue]
      | some msg => simp [hblk, hacc, Event.isEnqueue]
    refine ⟨?_, fun old hne => ?_⟩
    · simpa [multiClusterIngressAddFunc, hsync] using hadmit
    · simpa [multiClusterIngressUpdateFunc, hsync, hne] using hadmit

/-- Witness for C14 (amended): the rejected HostRule, HTTPRule and
AviInfraSetting of the sample inputs are enqueued once by their Add and Update
handlers; the MultiClusterIngress with a backend is enqueued once and the one
with an empty configuration is not. -/
theorem C14_enqueue_after_validation_witness :
    ((hostRuleAddFunc ⟨false⟩ sampleLib sampleEnv 3 hostRuleNoSSL).trace.filter Event.isEnqueue =
        [Event.AddRateLimited 1 "HostRule/default/t"] ∧
      (hostRuleUpdateFunc ⟨false⟩ sampleLib sampleUtils sampleEnv 3
        { sampleHostRule "default" "t" "old.example.com" with ResourceVersion := "0" }
        hostRuleNoSSL).trace.filter
          Event.isEnqueue = [Event.AddRateLimited 1 "HostRule/default/t"]) ∧
    ((httpRuleAddFunc ⟨false⟩ sampleLib sampleEnv 3 httpRulePkiAndCA).trace.filter
        Event.isEnqueue = [Event.AddRateLimited 1 "HTTPRule/default/r"] ∧
      (httpRuleUpdateFunc ⟨false⟩ sampleLib sampleUtils sampleEnv 3
        { httpRulePkiAndCA with ResourceVersion := "0", Spec := ⟨[]⟩ } httpRulePkiAndCA
          ).trace.filter Event.isEnqueue = [Event.AddRateLimited 1 "HTTPRule/default/r"]) ∧
    ((aviInfraAddFunc ⟨false⟩ sampleLib sampleEnv 3 infraSettingBgp).trace.filter
        Event.isEnqueue = [Event.AddRateLimited 0 "AviInfraSetting/infra-2"] ∧
      (aviInfraUpdateFunc ⟨false⟩ sampleLib sampleUtils sampleEnv 3
        { infraSettingBgp with ResourceVersion := "0", Spec := ⟨⟨[], none, []⟩, ⟨""⟩⟩ }
          infraSettingBgp).trace.filter Event.isEnqueue =
        [Event.AddRateLimited 0 "AviInfraSetting/infra-2"]) ∧
    ((multiClusterIngressAddFunc ⟨false⟩ sampleLib 3 sampleMCI).trace.filter Event.isEnqueue =
        [Event.AddRateLimited 1 "MultiClusterIngress/default/m"] ∧
      (multiClusterIngressUpdateFunc ⟨false⟩ sampleLib 3 emptyMCI sampleMCI).trace.filter
        Event.isEnqueue = [Event.AddRateLimited 1 "MultiClusterIngress/default/m"]) ∧
    ((multiClusterIngressAddFunc ⟨false⟩ sampleLib 3 emptyMCI).trace.filter Event.isEnqueue = [] ∧
      (multiClusterIngressUpdateFunc ⟨false⟩ sampleLib 3 sampleMCI emptyMCI).trace.filter
        Event.isEnqueue = []) :=
  have w := C14_enqueue_after_validation ⟨false⟩ sampleLib sampleUtils sampleEnv 3 rfl
  have hr := w.1 hostRuleNoSSL
    (fun msg h => Ret.noConfusion ((by decide :
      (validateHostRuleObj sampleEnv "HostRule/default/t" hostRuleNoSSL).ret =
        Ret.error "Hosting parent virtualservice must have SSL enabled").symm.trans h))
  have hh := w.2.1 httpRulePkiAndCA
    (fun msg h => Ret.noConfusion ((by decide :
      (validateHTTPRuleObj sampleEnv "HTTPRule/default/r" httpRulePkiAndCA).ret =
        Ret.error "key: HTTPRule/default/r, msg: pkiProfile and destinationCA cannot both be set"
      ).symm.trans h))
  have hi := w.2.2.1 infraSettingBgp
    (fun msg h => Ret.noConfusion ((by decide :
      (validateAviInfraSetting sampleEnv "AviInfraSetting/infra-2" infraSettingBgp).ret =
        Ret.error "BGPPeerLabels cannot be set if EnableRhi is false.").symm.trans h))
  have hm := w.2.2.2 sampleMCI rfl rfl
  have he := w.2.2.2 emptyMCI rfl rfl
  ⟨⟨hr.1, hr.2 _ (by decide)⟩, ⟨hh.1, hh.2 _ (by decide)⟩, ⟨hi.1, hi.2 _ (by decide)⟩,
   ⟨hm.1, hm.2 emptyMCI (by decide)⟩, ⟨he.1, he.2 sampleMCI (by decide)⟩⟩

/-! ## Failures of reference resolution -/

/-- Counterexample to C16 as stated: when the first result is the number `42`,
which does not parse as an object, `checkRefOnController` returns the error
`found on controller is invalid`, not the generic `not found on controller`. -/
theorem C16_counterexample :
    envNonObjectResult.AviGetCollectionRaw (collectionURI "WafPolicy" "waf-1") =
      .ok ⟨1, some (Json.arr [Json.num "42"])⟩ ∧
    unmarshalItem envNonObjectResult.ParseFloatFits (Json.num "42") = none ∧
    checkRefOnController envNonObjectResult "HostRule/default/a" "WafPolicy" "waf-1" =
      ⟨[Event.AviGetCollectionRaw (collectionURI "WafPolicy" "waf-1")],
        Ret.error "wafpolicy \"waf-1\" found on controller is invalid"⟩ ∧
    "wafpolicy \"waf-1\" found on controller is invalid" ≠ msgNotFound "WafPolicy" "waf-1" := by
  refine ⟨rfl, rfl, by decide, by decide⟩

/-- C16 (amended): for a reference resolved through the collection query,
`checkRefOnController` returns the generic error `<model> "<name>" not found on
controller` when the query returns an error, when the result count is zero, and
when the count is positive, not beyond the longest slice the runtime makes, and
the results array does not parse; under the same condition on the count, when
the first result does not decode into a map (it is not a JSON object, or it
holds a number outside the range of `float64`) it returns `<model> "<name>"
found on controller is invalid`. -/
theorem C16_resolution_failures (env : Env) (key refKey refValue : String)
    (hpath : ¬(env.IsPublicCloud = true ∧ refModelMap refKey = "network" ∧
      env.UsesNetworkRef = true)) :
    (∀ err, env.AviGetCollectionRaw (collectionURI refKey refValue) = .error err →
      checkRefOnController env key refKey refValue =
        ⟨[Event.AviGetCollectionRaw (collectionURI refKey refValue)],
          Ret.error (msgNotFound refKey refValue)⟩) ∧
    (∀ result, env.AviGetCollectionRaw (collectionURI refKey refValue) = .ok result →
      result.Count = 0 →
      checkRefOnController env key refKey refValue =
        ⟨[Event.AviGetCollectionRaw (collectionURI refKey refValue)],
          Ret.error (msgNotFound refKey refValue)⟩) ∧
    (∀ result, env.AviGetCollectionRaw (collectionURI refKey refValue) = .ok result →
      0 < result.Count → result.Count ≤ env.MaxSliceLen →
      unmarshalRawMessages result.Results = none →
      checkRefOnController env key refKey refValue =
        ⟨[Event.AviGetCollectionRaw (collectionURI refKey refValue)],
          Ret.error (msgNotFound refKey refValue)⟩) ∧
    (∀ result first rest, env.AviGetCollectionRaw (collectionURI refKey refValue) = .ok result →
      0 < result.Count → result.Count ≤ env.MaxSliceLen →
      unmarshalRawMessages result.Results = some (first :: rest) →
      unmarshalItem env.ParseFloatFits first = none →
      checkRefOnController env key refKey refValue =
        ⟨[Event.AviGetCollectionRaw (collectionURI refKey refValue)],
          Ret.error (msgInvalid refKey refValue)⟩) := by
  have hcond : (env.IsPublicCloud && refModelMap refKey == "network" && env.UsesNetworkRef)
      = false := by
    cases h1 : env.IsPublicCloud <;> cases h3 : env.UsesNetworkRef <;>
      by_cases h2 : refModelMap refKey = "network" <;> simp_all
  refine ⟨fun err hget => ?_, fun result hget hzero => ?_,
    fun result hget hpos hmax hres => ?_,
    fun result first rest hget hpos hmax hres hitem => ?_⟩
  · unfold checkRefOnController
    simp [hcond, hget]
  · unfold checkRefOnController
    simp [hcond, hget, hzero]
  · have h0 : ¬ result.Count = 0 := ne_of_gt hpos
    have hneg : ¬ result.Count < 0 := not_lt.mpr (le_of_lt hpos)
    have hbig : ¬ (env.MaxSliceLen : Int) < result.Count := not_lt.mpr hmax
    unfold checkRefOnController
    simp [hcond, hget, h0, hneg, hbig, hres]
  · have h0 : ¬ result.Count = 0 := ne_of_gt hpos
    have hneg : ¬ result.Count < 0 := not_lt.mpr (le_of_lt hpos)
    have hbig : ¬ (env.MaxSliceLen : Int) < result.Count := not_lt.mpr hmax
    unfold checkRefOnController
    simp [hcond, hget, h0, hneg, hbig, hres, hitem]

/-- Witness for C16 (amended): an unreachable controller, an empty collection, a
results text that is not an array, a first result that is a number, and a first
result that is an object with a number outside the range of `float64`. -/
theorem C16_resolution_failures_witness :
    checkRefOnController envUnreachable "HostRule/default/a" "WafPolicy" "waf-1" =
      ⟨[Event.AviGetCollectionRaw (collectionURI "WafPolicy" "waf-1")],
        Ret.error (msgNotFound "WafPolicy" "waf-1")⟩ ∧
    checkRefOnController sampleEnv "HostRule/default/a" "WafPolicy" "waf-1" =
      ⟨[Event.AviGetCollectionRaw (collectionURI "WafPolicy" "waf-1")],
        Ret.error (msgNotFound "WafPolicy" "waf-1")⟩ ∧
    checkRefOnController
        { sampleEnv with AviGetCollectionRaw := fun _ => .ok ⟨1, some (Json.str "oops")⟩ }
        "HostRule/default/a" "WafPolicy" "waf-1" =
      ⟨[Event.AviGetCollectionRaw (collectionURI "WafPolicy" "waf-1")],
        Ret.error (msgNotFound "WafPolicy" "waf-1")⟩ ∧
    checkRefOnController envNonObjectResult "HostRule/default/a" "WafPolicy" "waf-1" =
      ⟨[Event.AviGetCollectionRaw (collectionURI "WafPolicy" "waf-1")],
        Ret.error (msgInvalid "WafPolicy" "waf-1")⟩ ∧
    checkRefOnController envNumberOutOfRange "HostRule/default/a" "WafPolicy" "waf-1" =
      ⟨[Event.AviGetCollectionRaw (collectionURI "WafPolicy" "waf-1")],
        Ret.error (msgInvalid "WafPolicy" "waf-1")⟩ :=
  ⟨(C16_resolution_failures envUnreachable "HostRule/default/a" "WafPolicy" "waf-1"
      (by decide)).1 "connection refused" rfl,
   (C16_resolution_failures sampleEnv "HostRule/default/a" "WafPolicy" "waf-1"
      (by decide)).2.1 ⟨0, some (Json.arr [])⟩ rfl rfl,
   (C16_resolution_failures
      { sampleEnv with AviGetCollectionRaw := fun _ => .ok ⟨1, some (Json.str "oops")⟩ }
      "HostRule/default/a" "WafPolicy" "waf-1" (by decide)).2.2.1
      ⟨1, some (Json.str "oops")⟩ rfl (by decide) (by decide) rfl,
   (C16_resolution_failures envNonObjectResult "HostRule/default/a" "WafPolicy" "waf-1"
      (by decide)).2.2.2 ⟨1, some (Json.arr [Json.num "42"])⟩ (Json.num "42") [] rfl
      (by decide) (by decide) rfl rfl,
   (C16_resolution_failures envNumberOutOfRange "HostRule/default/a" "WafPolicy" "waf-1"
      (by decide)).2.2.2
      ⟨1, some (Json.arr [Json.obj [("name", Json.str "waf-1"), ("weight", Json.num "1e999")]])⟩
      (Json.obj [("name", Json.str "waf-1"), ("weight", Json.num "1e999")]) [] rfl
      (by decide) (by decide) rfl rfl⟩

/-- Counterexample to C17 as stated: the first result for the application profile
`ap-1` has no `type` field, and `checkRefOnController` returns nil. -/
theorem C17_counterexample :
    envNoType.AviGetCollectionRaw (collectionURI "AppProfile" "ap-1") =
      .ok ⟨1, some (Json.arr [Json.obj [("name", Json.str "ap-1")]])⟩ ∧
    checkRefOnController envNoType "HostRule/default/a" "AppProfile" "ap-1" =
      ⟨[Event.AviGetCollectionRaw (collectionURI "AppProfile" "ap-1")], Ret.nil⟩ :=
  ⟨rfl, by decide⟩

/-- C17 (amended): for an AppProfile reference, `checkRefOnController` returns
nil only if the first result decodes to an object whose `type` is the allowed
application profile type or is not a string (missing included); when the
result count is positive and not beyond the longest slice the runtime makes, a
first result that decodes to an object whose `type` is a different string is
rejected with the error `found on controller is invalid, must be of type:
<allowed>`. -/
theorem C17_app_profile_type (env : Env) (key refValue : String) :
    ((checkRefOnController env key "AppProfile" refValue).ret = Ret.nil →
      ∃ result first rest item,
        env.AviGetCollectionRaw (collectionURI "AppProfile" refValue) = .ok result ∧
        unmarshalRawMessages result.Results = some (first :: rest) ∧
        unmarshalItem env.ParseFloatFits first = some item ∧
        ((item.index "type").assertString = some env.AllowedApplicationProfile ∨
          (item.index "type").assertString = none)) ∧
    (∀ result first rest item appProfType,
      env.AviGetCollectionRaw (collectionURI "AppProfile" refValue) = .ok result →
      0 < result.Count → result.Count ≤ env.MaxSliceLen →
      unmarshalRawMessages result.Results = some (first :: rest) →
      unmarshalItem env.ParseFloatFits first = some item →
      (item.index "type").assertString = some appProfType →
      appProfType ≠ env.AllowedApplicationProfile →
      checkRefOnController env key "AppProfile" refValue =
        ⟨[Event.AviGetCollectionRaw (collectionURI "AppProfile" refValue)],
          Ret.error (msgInvalidType "AppProfile" refValue env.AllowedApplicationProfile)⟩) := by
  have hmodel : (refModelMap "AppProfile" == "network") = false := by decide
  constructor
  · intro hret
    unfold checkRefOnController at hret
    simp only [hmodel, Bool.and_false, Bool.false_and, Bool.false_eq_true, if_false] at hret
    cases hget : env.AviGetCollectionRaw (collectionURI "AppProfile" refValue) with
    | error err => simp [hget] at hret
    | ok result =>
      simp only [hget] at hret
      by_cases h0 : result.Count = 0
      · simp [h0] at hret
      · by_cases hneg : (decide (result.Count < 0) || decide (result.Count > env.MaxSliceLen))
            = true
        · simp [h0, hneg] at hret
        · simp only [beq_iff_eq, h0, if_false, hneg] at hret
          cases hres : unmarshalRawMessages result.Results with
          | none => simp [hres] at hret
          | some items =>
            cases items with
            | nil => simp [hres] at hret
            | cons first rest =>
              simp only [hres] at hret
              cases hitem : unmarshalItem env.ParseFloatFits first with
              | none => simp [hitem] at hret
              | some item =>
                simp only [hitem] at hret
                refine ⟨result, first, rest, item, rfl, hres, hitem, ?_⟩
                cases ht : (item.index "type").assertString with
                | none => exact Or.inr rfl
                | some t =>
                  by_cases hta : t = env.AllowedApplicationProfile
                  · exact Or.inl (by rw [hta])
                  · exfalso
                    simp [checkRefItem, checkRefSwitch, ht, hta] at hret
  · intro result first rest item appProfType hget hpos hmax hres hitem ht hne
    have h0 : ¬ result.Count = 0 := ne_of_gt hpos
    have hneg : ¬ result.Count < 0 := not_lt.mpr (le_of_lt hpos)
    have hbig : ¬ (env.MaxSliceLen : Int) < result.Count := not_lt.mpr hmax
    unfold checkRefOnController
    simp [hmodel, hget, h0, hneg, hbig, hres, hitem, checkRefItem, checkRefSwitch, ht, hne]

/-- Witness for C17 (amended): a first result without `type` is accepted, one of
type `APPLICATION_PROFILE_TYPE_L4` is rejected. -/
theorem C17_app_profile_type_witness :
    (∃ result first rest item,
      envNoType.AviGetCollectionRaw (collectionURI "AppProfile" "ap-1") = .ok result ∧
      unmarshalRawMessages result.Results = some (first :: rest) ∧
      unmarshalItem envNoType.ParseFloatFits first = some item ∧
      ((item.index "type").assertString = some envNoType.AllowedApplicationProfile ∨
        (item.index "type").assertString = none)) ∧
    checkRefOnController envL4Type "HostRule/default/a" "AppProfile" "ap-1" =
      ⟨[Event.AviGetCollectionRaw (collectionURI "AppProfile" "ap-1")],
        Ret.error (msgInvalidType "AppProfile" "ap-1" envL4Type.AllowedApplicationProfile)⟩ :=
  ⟨(C17_app_profile_type envNoType "HostRule/default/a" "ap-1").1 (by decide),
   (C17_app_profile_type envL4Type "HostRule/default/a" "ap-1").2
      ⟨1, some (Json.arr [Json.obj
        [("name", Json.str "ap-1"), ("type", Json.str "APPLICATION_PROFILE_TYPE_L4")]])⟩
      (Json.obj [("name", Json.str "ap-1"), ("type", Json.str "APPLICATION_PROFILE_TYPE_L4")])
      []
      [("name", GoValue.string "ap-1"), ("type", GoValue.string "APPLICATION_PROFILE_TYPE_L4")]
      "APPLICATION_PROFILE_TYPE_L4" rfl (by decide) (by decide) rfl rfl rfl (by decide)⟩

/-! ## Alias rules of an accepted HostRule -/

/-- A validation of a HostRule that returns nil has passed the local checks. -/
theorem hostRuleLocalError_of_nil (env : Env) (key : String) (h : HostRule)
    (hret : (validateHostRuleObj env key h).ret = Ret.nil) :
    hostRuleLocalError env h = none := by
  cases hl : hostRuleLocalError env h with
  | none => rfl
  | some msg =>
    rw [validateHostRuleObj_of_localError env key h msg hl] at hret
    simp [rejectHostRule] at hret

/-- Passing the local checks includes passing the alias check. -/
theorem checkAliases_of_localError_none (env : Env) (h : HostRule)
    (hl : hostRuleLocalError env h = none) : checkAliases env h = none := by
  unfold hostRuleLocalError at hl
  cases h1 : checkDuplicateFqdn env h <;> simp only [h1] at hl
  · cases h2 : checkLoadBalancerIP env h <;> simp only [h2] at hl
    · cases h3 : checkGslbFqdn h <;> simp only [h3] at hl
      · cases h4 : checkListenersSSL h <;> simp only [h4] at hl
        · exact hl
        · cases hl
      · cases hl
    · cases hl
  · cases hl

/-- A list without a reported duplicate has no string twice. -/
theorem nodup_of_containsDuplicate (l : List String) (h : ContainsDuplicate l = false) :
    l.Nodup := by
  induction l with
  | nil => exact List.nodup_nil
  | cons x xs ih =>
    simp only [ContainsDuplicate, Bool.or_eq_false_iff] at h
    refine List.nodup_cons.mpr ⟨?_, ih h.2⟩
    intro hx
    have : xs.contains x = true := by simpa using hx
    rw [this] at h
    exact Bool.noConfusion h.1

/-- C18: a HostRule with a non-nil alias list, empty or not, whose FQDN type is
not Exact is rejected, the Rejected status write being the only outside call;
so a HostRule with a non-nil alias list for which validation returns nil has
FQDN type Exact. -/
theorem C18_aliases_need_exact (env : Env) (key : String) (h : HostRule)
    (aliases : List String) (hal : h.Spec.VirtualHost.Aliases = some aliases) :
    (h.Spec.VirtualHost.FqdnType ≠ Exact →
      ∃ msg, validateHostRuleObj env key h =
        ⟨[Event.UpdateHostRuleStatus key ⟨StatusRejected, msg⟩], Ret.error msg⟩) ∧
    ((validateHostRuleObj env key h).ret = Ret.nil → h.Spec.VirtualHost.FqdnType = Exact) := by
  have hfirst : h.Spec.VirtualHost.FqdnType ≠ Exact →
      ∃ msg, validateHostRuleObj env key h =
        ⟨[Event.UpdateHostRuleStatus key ⟨StatusRejected, msg⟩], Ret.error msg⟩ := by
    intro hne
    have hc : checkAliases env h =
        some "Aliases is supported only when FQDN type is set as Exact" := by
      simp [checkAliases, hal, hne]
    obtain ⟨msg, hmsg⟩ := hostRuleLocalError_of_aliases env h _ hc
    exact ⟨msg, by rw [validateHostRuleObj_of_localError env key h msg hmsg]; rfl⟩
  refine ⟨hfirst, fun hret => ?_⟩
  by_contra hne
  obtain ⟨msg, hmsg⟩ := hfirst hne
  rw [hmsg] at hret
  cases hret

/-- Witness for C18: a Wildcard HostRule with an empty, non-nil alias list is
rejected; the accepted HostRule `default/b` with one alias is Exact. -/
theorem C18_aliases_need_exact_witness :
    (∃ msg, validateHostRuleObj sampleEnv "HostRule/default/w" hostRuleWildcardAliases =
      ⟨[Event.UpdateHostRuleStatus "HostRule/default/w" ⟨StatusRejected, msg⟩],
        Ret.error msg⟩) ∧
    hostRuleB.Spec.VirtualHost.FqdnType = Exact :=
  ⟨(C18_aliases_need_exact sampleEnv "HostRule/default/w" hostRuleWildcardAliases [] rfl).1
      (by decide),
   (C18_aliases_need_exact envWithA "HostRule/default/b" hostRuleB ["a.example.com"] rfl).2
      (by decide)⟩

/-- C19: when validation of a HostRule with a non-nil alias list returns nil, the
alias list does not contain the FQDN of the HostRule, does not contain its GSLB
FQDN if that is non-empty, and has no string twice. -/
theorem C19_accepted_aliases (env : Env) (key : String) (h : HostRule)
    (aliases : List String) (hal : h.Spec.VirtualHost.Aliases = some aliases)
    (hret : (validateHostRuleObj env key h).ret = Ret.nil) :
    h.Spec.VirtualHost.Fqdn ∉ aliases ∧
    (h.Spec.VirtualHost.Gslb.Fqdn ≠ "" → h.Spec.VirtualHost.Gslb.Fqdn ∉ aliases) ∧
    aliases.Nodup := by
  have hc := checkAliases_of_localError_none env h (hostRuleLocalError_of_nil env key h hret)
  unfold checkAliases at hc
  simp only [hal] at hc
  split_ifs at hc with h1 h2 h3 h4
  refine ⟨?_, ?_, ?_⟩
  · intro hmem
    exact h2 (by simpa [HasElem] using hmem)
  · intro hg hmem
    exact h4 (by simp [hg, HasElem, hmem])
  · exact nodup_of_containsDuplicate aliases (by simpa using h3)

/-- Witness for C19: the accepted HostRule `default/b` with the alias
`a.example.com`. -/
theorem C19_accepted_aliases_witness :
    hostRuleB.Spec.VirtualHost.Fqdn ∉ ["a.example.com"] ∧
    (hostRuleB.Spec.VirtualHost.Gslb.Fqdn ≠ "" →
      hostRuleB.Spec.VirtualHost.Gslb.Fqdn ∉ ["a.example.com"]) ∧
    ["a.example.com"].Nodup :=
  C19_accepted_aliases envWithA "HostRule/default/b" hostRuleB ["a.example.com"] rfl (by decide)

/-! ## SE group labels -/

/-- The runs of `validateAviInfraSetting`, by result.  On an error the trace is
controller queries followed by the Rejected write; on a panic it is controller
queries; on nil the network loop and the reference check have succeeded and the
trace is the controller queries, the label calls when an SE group is named, and
the Accepted write unless the status is Accepted already. -/
theorem validateAviInfraSetting_cases (env : Env) (key : String) (i : AviInfraSetting) :
    (∃ msg pre, validateAviInfraSetting env key i =
        ⟨pre ++ [Event.UpdateAviInfraSettingStatus key ⟨StatusRejected, msg⟩], Ret.error msg⟩ ∧
      ∀ e ∈ pre, e.isControllerQuery = true) ∨
    (∃ msg, (validateAviInfraSetting env key i).ret = Ret.panic msg ∧
      ∀ e ∈ (validateAviInfraSetting env key i).trace, e.isControllerQuery = true) ∨
    (∃ refData, aviInfraRefData env [] i.Spec.Network.VipNetworks = .ok refData ∧
      (checkRefsOnController env key (if i.Spec.SeGroup.Name != "" then
        refData.set i.Spec.SeGroup.Name "ServiceEngineGroup" else refData)).ret = Ret.nil ∧
      validateAviInfraSetting env key i =
        ⟨(checkRefsOnController env key (if i.Spec.SeGroup.Name != "" then
            refData.set i.Spec.SeGroup.Name "ServiceEngineGroup" else refData)).trace ++
          (if i.Spec.SeGroup.Name != "" then addSeGroupLabel env i.Spec.SeGroup.Name else []) ++
          (if i.Status.Status == StatusAccepted then []
            else [Event.UpdateAviInfraSettingStatus key ⟨StatusAccepted, ""⟩]),
          Ret.nil⟩) := by
  unfold validateAviInfraSetting rejectAviInfraSetting
  simp only []
  split
  · exact Or.inl ⟨_, [], rfl, by simp⟩
  · cases hd : aviInfraRefData env [] i.Spec.Network.VipNetworks with
    | error msg => exact Or.inl ⟨msg, [], rfl, by simp⟩
    | ok refData =>
      simp only []
      cases hr : (checkRefsOnController env key (if i.Spec.SeGroup.Name != "" then
          refData.set i.Spec.SeGroup.Name "ServiceEngineGroup" else refData)).ret with
      | error msg =>
        exact Or.inl ⟨msg, _, rfl, checkRefsOnController_trace env key _⟩
      | panic msg =>
        exact Or.inr (Or.inl ⟨msg, rfl, checkRefsOnController_trace env key _⟩)
      | nil =>
        refine Or.inr (Or.inr ⟨refData, rfl, hr, ?_⟩)
        simp only []
        split <;> simp

/-- C20: in a run of `validateAviInfraSetting` a call of the SE group API occurs
only when the result is nil, an SE group is named, and the network loop and the
reference check have succeeded; in that run the label calls stand after the
controller queries and before the Accepted write.  A run that ends with an error
consists of controller queries and the Rejected write.  With static route sync
disabled `addSeGroupLabel` makes no call. -/
theorem C20_label_calls (env : Env) (key : String) (i : AviInfraSetting) :
    ((∃ e ∈ (validateAviInfraSetting env key i).trace, e.isLabelCall = true) →
      (validateAviInfraSetting env key i).ret = Ret.nil ∧ i.Spec.SeGroup.Name ≠ "" ∧
      ∃ refData, aviInfraRefData env [] i.Spec.Network.VipNetworks = .ok refData ∧
        (checkRefsOnController env key
          (refData.set i.Spec.SeGroup.Name "ServiceEngineGroup")).ret = Ret.nil ∧
        (validateAviInfraSetting env key i).trace =
          (checkRefsOnController env key
            (refData.set i.Spec.SeGroup.Name "ServiceEngineGroup")).trace ++
          addSeGroupLabel env i.Spec.SeGroup.Name ++
          (if i.Status.Status == StatusAccepted then []
            else [Event.UpdateAviInfraSettingStatus key ⟨StatusAccepted, ""⟩])) ∧
    (∀ msg, (validateAviInfraSetting env key i).ret = Ret.error msg →
      ∃ pre, (validateAviInfraSetting env key i).trace =
          pre ++ [Event.UpdateAviInfraSettingStatus key ⟨StatusRejected, msg⟩] ∧
        ∀ e ∈ pre, e.isControllerQuery = true) ∧
    (env.GetDisableStaticRoute = true → ∀ segName, addSeGroupLabel env segName = []) := by
  have hnolabel : ∀ t : List Event, (∀ e ∈ t, e.isControllerQuery = true) →
      ∀ e ∈ t, e.isLabelCall = false := fun t ht e he =>
    (Event.isControllerQuery_elim e (ht e he)).2.2
  refine ⟨?_, ?_, ?_⟩
  · rintro ⟨e, he, hlab⟩
    rcases validateAviInfraSetting_cases env key i with
      ⟨msg, pre, hrun, hpre⟩ | ⟨msg, hret, htr⟩ | ⟨refData, hdata, hrefs, hrun⟩
    · exfalso
      rw [hrun] at he
      rcases List.mem_append.mp he with h | h
      · rw [hnolabel pre hpre e h] at hlab
        cases hlab
      · simp only [List.mem_singleton] at h
        subst h
        cases hlab
    · exfalso
      rw [hnolabel _ htr e he] at hlab
      cases hlab
    · by_cases hname : i.Spec.SeGroup.Name = ""
      · exfalso
        rw [hrun] at he
        simp only [hname, bne_self_eq_false, Bool.false_eq_true, if_false, List.append_nil]
          at he
        rcases List.mem_append.mp he with h | h
        · rw [hnolabel _ (checkRefsOnController_trace env key _) e h] at hlab
          cases hlab
        · split at h
          · simp at h
          · simp only [List.mem_singleton] at h
            subst h
            cases hlab
      · have hb : (i.Spec.SeGroup.Name != "") = true := by simpa using hname
        simp only [hb, if_true] at hrefs hrun
        exact ⟨by rw [hrun], hname, refData, hdata, hrefs, by rw [hrun]⟩
  · intro msg hret
    rcases validateAviInfraSetting_cases env key i with
      ⟨m, pre, hrun, hpre⟩ | ⟨m, hp, _⟩ | ⟨refData, _, _, hrun⟩
    · rw [hrun] at hret ⊢
      simp only [Ret.error.injEq] at hret
      subst hret
      exact ⟨pre, rfl, hpre⟩
    · rw [hp] at hret
      cases hret
    · rw [hrun] at hret
      cases hret
  · intro hflag segName
    simp [addSeGroupLabel, hflag]

/-- Witness for C20: the AviInfraSetting that names `seg-1` on a controller that
holds it, the AviInfraSetting rejected for its BGP peer labels, and an
environment with static route sync disabled. -/
theorem C20_label_calls_witness :
    ((validateAviInfraSetting envSeGroup "AviInfraSetting/infra-1" infraSettingSeg).ret = Ret.nil ∧
      infraSettingSeg.Spec.SeGroup.Name ≠ "" ∧
      ∃ refData, aviInfraRefData envSeGroup [] infraSettingSeg.Spec.Network.VipNetworks
          = .ok refData ∧
        (checkRefsOnController envSeGroup "AviInfraSetting/infra-1"
          (refData.set infraSettingSeg.Spec.SeGroup.Name "ServiceEngineGroup")).ret = Ret.nil ∧
        (validateAviInfraSetting envSeGroup "AviInfraSetting/infra-1" infraSettingSeg).trace =
          (checkRefsOnController envSeGroup "AviInfraSetting/infra-1"
            (refData.set infraSettingSeg.Spec.SeGroup.Name "ServiceEngineGroup")).trace ++
          addSeGroupLabel envSeGroup infraSettingSeg.Spec.SeGroup.Name ++
          (if infraSettingSeg.Status.Status == StatusAccepted then []
            else [Event.UpdateAviInfraSettingStatus "AviInfraSetting/infra-1"
              ⟨StatusAccepted, ""⟩])) ∧
    (∃ pre, (validateAviInfraSetting sampleEnv "AviInfraSetting/infra-2" infraSettingBgp).trace =
        pre ++ [Event.UpdateAviInfraSettingStatus "AviInfraSetting/infra-2"
          ⟨StatusRejected, "BGPPeerLabels cannot be set if EnableRhi is false."⟩] ∧
      ∀ e ∈ pre, e.isControllerQuery = true) ∧
    (∀ segName, addSeGroupLabel envNoStaticRoute segName = []) :=
  ⟨(C20_label_calls envSeGroup "AviInfraSetting/infra-1" infraSettingSeg).1
      ⟨Event.GetAviSeGroup "seg-1", by decide, rfl⟩,
   (C20_label_calls sampleEnv "AviInfraSetting/infra-2" infraSettingBgp).2.1
      "BGPPeerLabels cannot be set if EnableRhi is false." (by decide),
   (C20_label_calls envNoStaticRoute "AviInfraSetting/infra-1" infraSettingSeg).2.2 rfl⟩

/-! ## Handlers with sync disabled -/

/-- C21: while `DisableSync` is set, the Add, Update and Delete handler of every
kind returns at once with an empty trace: no validation, no status update, no
removal from the resource-version cache and no enqueue. -/
theorem C21_sync_disabled (c : AviController) (lib : Lib) (u : Utils) (env : Env)
    (numWorkers : Nat) (hsync : c.DisableSync = true) :
    (∀ (o old : HostRule) (obj : Object),
      hostRuleAddFunc c lib env numWorkers o = ⟨[], Ret.nil⟩ ∧
      hostRuleUpdateFunc c lib u env numWorkers old o = ⟨[], Ret.nil⟩ ∧
      hostRuleDeleteFunc c lib numWorkers obj = ⟨[], Ret.nil⟩) ∧
    (∀ (o old : HTTPRule) (obj : Object),
      httpRuleAddFunc c lib env numWorkers o = ⟨[], Ret.nil⟩ ∧
      httpRuleUpdateFunc c lib u env numWorkers old o = ⟨[], Ret.nil⟩ ∧
      httpRuleDeleteFunc c lib numWorkers obj = ⟨[], Ret.nil⟩) ∧
    (∀ (o old : AviInfraSetting) (obj : Object),
      aviInfraAddFunc c lib env numWorkers o = ⟨[], Ret.nil⟩ ∧
      aviInfraUpdateFunc c lib u env numWorkers old o = ⟨[], Ret.nil⟩ ∧
      aviInfraDeleteFunc c lib numWorkers obj = ⟨[], Ret.nil⟩) ∧
    (∀ (o old : VirtualService) (obj : Object),
      virtualServiceAddFunc c lib numWorkers o = ⟨[], Ret.nil⟩ ∧
      virtualServiceUpdateFunc c lib numWorkers old o = ⟨[], Ret.nil⟩ ∧
      virtualServiceDeleteFunc c lib numWorkers obj = ⟨[], Ret.nil⟩) ∧
    (∀ (o old : DestinationRule) (obj : Object),
      destinationRuleAddFunc c lib numWorkers o = ⟨[], Ret.nil⟩ ∧
      destinationRuleUpdateFunc c lib numWorkers old o = ⟨[], Ret.nil⟩ ∧
      destinationRuleDeleteFunc c lib numWorkers obj = ⟨[], Ret.nil⟩) ∧
    (∀ (o old : Gateway) (obj : Object),
      gatewayAddFunc c lib numWorkers o = ⟨[], Ret.nil⟩ ∧
      gatewayUpdateFunc c lib numWorkers old o = ⟨[], Ret.nil⟩ ∧
      gatewayDeleteFunc c lib numWorkers obj = ⟨[], Ret.nil⟩) ∧
    (∀ (o old : MultiClusterIngress) (obj : Object),
      multiClusterIngressAddFunc c lib numWorkers o = ⟨[], Ret.nil⟩ ∧
      multiClusterIngressUpdateFunc c lib numWorkers old o = ⟨[], Ret.nil⟩ ∧
      multiClusterIngressDeleteFunc c lib numWorkers obj = ⟨[], Ret.nil⟩) ∧
    (∀ (o old : ServiceImport) (obj : Object),
      serviceImportAddFunc c lib numWorkers o = ⟨[], Ret.nil⟩ ∧
      serviceImportUpdateFunc c lib numWorkers old o = ⟨[], Ret.nil⟩ ∧
      serviceImportDeleteFunc c lib numWorkers obj = ⟨[], Ret.nil⟩) := by
  refine ⟨?_, ?_, ?_, ?_, ?_, ?_, ?_, ?_⟩ <;> intro o old obj <;>
    simp [hostRuleAddFunc,
      hostRuleUpdateFunc,
      hostRuleDeleteFunc,
      httpRuleAddFunc,
      httpRuleUpdateFunc,
      httpRuleDeleteFunc,
      aviInfraAddFunc,
      aviInfraUpdateFunc,
      aviInfraDeleteFunc,
      virtualServiceAddFunc,
      virtualServiceUpdateFunc,
      virtualServiceDeleteFunc,
      destinationRuleAddFunc,
      destinationRuleUpdateFunc,
      destinationRuleDeleteFunc,
      gatewayAddFunc,
      gatewayUpdateFunc,
      gatewayDeleteFunc,
      multiClusterIngressAddFunc,
      multiClusterIngressUpdateFunc,
      multiClusterIngressDeleteFunc,
      serviceImportAddFunc,
      serviceImportUpdateFunc,
      serviceImportDeleteFunc, hsync]

/-- Witness for C21: the twenty-four handlers on sample objects with `DisableSync`
set. -/
theorem C21_sync_disabled_witness :
    (hostRuleAddFunc ⟨true⟩ sampleLib sampleEnv 3 hostRuleAccepted = ⟨[], Ret.nil⟩ ∧
      hostRuleUpdateFunc ⟨true⟩ sampleLib sampleUtils sampleEnv 3
        (sampleHostRule "default" "a" "old.example.com") hostRuleAccepted = ⟨[], Ret.nil⟩ ∧
      hostRuleDeleteFunc ⟨true⟩ sampleLib 3
        (Object.hostRule hostRuleAccepted) = ⟨[], Ret.nil⟩) ∧
    (httpRuleAddFunc ⟨true⟩ sampleLib sampleEnv 3 httpRuleAccepted = ⟨[], Ret.nil⟩ ∧
      httpRuleUpdateFunc ⟨true⟩ sampleLib sampleUtils sampleEnv 3
        httpRulePkiAndCA httpRuleAccepted = ⟨[], Ret.nil⟩ ∧
      httpRuleDeleteFunc ⟨true⟩ sampleLib 3
        (Object.httpRule httpRuleAccepted) = ⟨[], Ret.nil⟩) ∧
    (aviInfraAddFunc ⟨true⟩ sampleLib sampleEnv 3 infraSettingSeg = ⟨[], Ret.nil⟩ ∧
      aviInfraUpdateFunc ⟨true⟩ sampleLib sampleUtils sampleEnv 3
        infraSettingBgp infraSettingSeg = ⟨[], Ret.nil⟩ ∧
      aviInfraDeleteFunc ⟨true⟩ sampleLib 3
        (Object.DeletedFinalStateUnknown "infra-1" (Object.aviInfraSetting infraSettingSeg)) = ⟨[], Ret.nil⟩) ∧
    (virtualServiceAddFunc ⟨true⟩ sampleLib 3 sampleVirtualService = ⟨[], Ret.nil⟩ ∧
      virtualServiceUpdateFunc ⟨true⟩ sampleLib 3
        { sampleVirtualService with Spec := ⟨"hosts: nil, gateways: nil"⟩ } sampleVirtualService = ⟨[], Ret.nil⟩ ∧
      virtualServiceDeleteFunc ⟨true⟩ sampleLib 3
        (Object.virtualService sampleVirtualService) = ⟨[], Ret.nil⟩) ∧
    (destinationRuleAddFunc ⟨true⟩ sampleLib 3 sampleDestinationRule = ⟨[], Ret.nil⟩ ∧
      destinationRuleUpdateFunc ⟨true⟩ sampleLib 3
        { sampleDestinationRule with Spec := ⟨"host: other, exportTo: nil"⟩ } sampleDestinationRule = ⟨[], Ret.nil⟩ ∧
      destinationRuleDeleteFunc ⟨true⟩ sampleLib 3
        (Object.destinationRule sampleDestinationRule) = ⟨[], Ret.nil⟩) ∧
    (gatewayAddFunc ⟨true⟩ sampleLib 3 sampleGateway = ⟨[], Ret.nil⟩ ∧
      gatewayUpdateFunc ⟨true⟩ sampleLib 3
        { sampleGateway with Spec := ⟨"servers: nil, selector: nil"⟩ } sampleGateway = ⟨[], Ret.nil⟩ ∧
      gatewayDeleteFunc ⟨true⟩ sampleLib 3
        (Object.DeletedFinalStateUnknown "default/gw" (Object.gateway sampleGateway)) = ⟨[], Ret.nil⟩) ∧
    (multiClusterIngressAddFunc ⟨true⟩ sampleLib 3 sampleMCI = ⟨[], Ret.nil⟩ ∧
      multiClusterIngressUpdateFunc ⟨true⟩ sampleLib 3
        emptyMCI sampleMCI = ⟨[], Ret.nil⟩ ∧
      multiClusterIngressDeleteFunc ⟨true⟩ sampleLib 3
        (Object.multiClusterIngress sampleMCI) = ⟨[], Ret.nil⟩) ∧
    (serviceImportAddFunc ⟨true⟩ sampleLib 3 sampleServiceImport = ⟨[], Ret.nil⟩ ∧
      serviceImportUpdateFunc ⟨true⟩ sampleLib 3
        { sampleServiceImport with Spec := ⟨"cluster: cluster-2, service: svc"⟩ } sampleServiceImport = ⟨[], Ret.nil⟩ ∧
      serviceImportDeleteFunc ⟨true⟩ sampleLib 3
        (Object.serviceImport sampleServiceImport) = ⟨[], Ret.nil⟩) :=
  have w := C21_sync_disabled ⟨true⟩ sampleLib sampleUtils sampleEnv 3 rfl
  ⟨w.1 hostRuleAccepted (sampleHostRule "default" "a" "old.example.com")
      (Object.hostRule hostRuleAccepted),
   w.2.1 httpRuleAccepted httpRulePkiAndCA
      (Object.httpRule httpRuleAccepted),
   w.2.2.1 infraSettingSeg infraSettingBgp
      (Object.DeletedFinalStateUnknown "infra-1" (Object.aviInfraSetting infraSettingSeg)),
   w.2.2.2.1 sampleVirtualService { sampleVirtualService with Spec := ⟨"hosts: nil, gateways: nil"⟩ }
      (Object.virtualService sampleVirtualService),
   w.2.2.2.2.1 sampleDestinationRule { sampleDestinationRule with Spec := ⟨"host: other, exportTo: nil"⟩ }
      (Object.destinationRule sampleDestinationRule),
   w.2.2.2.2.2.1 sampleGateway { sampleGateway with Spec := ⟨"servers: nil, selector: nil"⟩ }
      (Object.DeletedFinalStateUnknown "default/gw" (Object.gateway sampleGateway)),
   w.2.2.2.2.2.2.1 sampleMCI emptyMCI
      (Object.multiClusterIngress sampleMCI),
   w.2.2.2.2.2.2.2 sampleServiceImport { sampleServiceImport with Spec := ⟨"cluster: cluster-2, service: svc"⟩ }
      (Object.serviceImport sampleServiceImport)⟩

/-! ## Delete handlers -/

/-- C22: with sync enabled, the Delete handler of every kind, given the object or a
tombstone that wraps the object, removes the key `<Kind>/<object key>` from the
resource-version cache and then adds it once to the shard of the namespace, and
does nothing else (for MultiClusterIngress and ServiceImport when the namespace
is admitted); given a payload that is neither, it does nothing. -/
theorem C22_delete_handlers (c : AviController) (lib : Lib) (numWorkers : Nat)
    (hsync : c.DisableSync = false) :
    ((∀ (o : HostRule) (tombstoneKey : String),
      hostRuleDeleteFunc c lib numWorkers (Object.hostRule o) =
        ⟨[Event.ResourceVerDelete (lib.HostRule ++ "/" ++ lib.ObjKey o.Namespace o.Name),
          Event.AddRateLimited
            (lib.Bkt (lib.SplitMetaNamespaceKey (lib.ObjKey o.Namespace o.Name)) numWorkers)
            (lib.HostRule ++ "/" ++ lib.ObjKey o.Namespace o.Name)], Ret.nil⟩ ∧
      hostRuleDeleteFunc c lib numWorkers (Object.DeletedFinalStateUnknown tombstoneKey (Object.hostRule o)) =
        ⟨[Event.ResourceVerDelete (lib.HostRule ++ "/" ++ lib.ObjKey o.Namespace o.Name),
          Event.AddRateLimited
            (lib.Bkt (lib.SplitMetaNamespaceKey (lib.ObjKey o.Namespace o.Name)) numWorkers)
            (lib.HostRule ++ "/" ++ lib.ObjKey o.Namespace o.Name)], Ret.nil⟩) ∧
    (∀ obj : Object, obj.assertHostRule = none →
      (∀ inner, obj.assertTombstone = some inner → inner.assertHostRule = none) →
      hostRuleDeleteFunc c lib numWorkers obj = ⟨[], Ret.nil⟩)) ∧
    ((∀ (o : HTTPRule) (tombstoneKey : String),
      httpRuleDeleteFunc c lib numWorkers (Object.httpRule o) =
        ⟨[Event.ResourceVerDelete (lib.HTTPRule ++ "/" ++ lib.ObjKey o.Namespace o.Name),
          Event.AddRateLimited
            (lib.Bkt (lib.SplitMetaNamespaceKey (lib.ObjKey o.Namespace o.Name)) numWorkers)
            (lib.HTTPRule ++ "/" ++ lib.ObjKey o.Namespace o.Name)], Ret.nil⟩ ∧
      httpRuleDeleteFunc c lib numWorkers (Object.DeletedFinalStateUnknown tombstoneKey (Object.httpRule o)) =
        ⟨[Event.ResourceVerDelete (lib.HTTPRule ++ "/" ++ lib.ObjKey o.Namespace o.Name),
          Event.AddRateLimited
            (lib.Bkt (lib.SplitMetaNamespaceKey (lib.ObjKey o.Namespace o.Name)) numWorkers)
            (lib.HTTPRule ++ "/" ++ lib.ObjKey o.Namespace o.Name)], Ret.nil⟩) ∧
    (∀ obj : Object, obj.assertHTTPRule = none →
      (∀ inner, obj.assertTombstone = some inner → inner.assertHTTPRule = none) →
      httpRuleDeleteFunc c lib numWorkers obj = ⟨[], Ret.nil⟩)) ∧
    ((∀ (o : AviInfraSetting) (tombstoneKey : String),
      aviInfraDeleteFunc c lib numWorkers (Object.aviInfraSetting o) =
        ⟨[Event.ResourceVerDelete (lib.AviInfraSetting ++ "/" ++ lib.ObjKey o.Namespace o.Name),
          Event.AddRateLimited
            (lib.Bkt (lib.SplitMetaNamespaceKey (lib.ObjKey o.Namespace o.Name)) numWorkers)
            (lib.AviInfraSetting ++ "/" ++ lib.ObjKey o.Namespace o.Name)], Ret.nil⟩ ∧
      aviInfraDeleteFunc c lib numWorkers (Object.DeletedFinalStateUnknown tombstoneKey (Object.aviInfraSetting o)) =
        ⟨[Event.ResourceVerDelete (lib.AviInfraSetting ++ "/" ++ lib.ObjKey o.Namespace o.Name),
          Event.AddRateLimited
            (lib.Bkt (lib.SplitMetaNamespaceKey (lib.ObjKey o.Namespace o.Name)) numWorkers)
            (lib.AviInfraSetting ++ "/" ++ lib.ObjKey o.Namespace o.Name)], Ret.nil⟩) ∧
    (∀ obj : Object, obj.assertAviInfraSetting = none →
      (∀ inner, obj.assertTombstone = some inner → inner.assertAviInfraSetting = none) →
      aviInfraDeleteFunc c lib numWorkers obj = ⟨[], Ret.nil⟩)) ∧
    ((∀ (o : VirtualService) (tombstoneKey : String),
      virtualServiceDeleteFunc c lib numWorkers (Object.virtualService o) =
        ⟨[Event.ResourceVerDelete (lib.IstioVirtualService ++ "/" ++ lib.ObjKey o.Namespace o.Name),
          Event.AddRateLimited
            (lib.Bkt (lib.SplitMetaNamespaceKey (lib.ObjKey o.Namespace o.Name)) numWorkers)
            (lib.IstioVirtualService ++ "/" ++ lib.ObjKey o.Namespace o.Name)], Ret.nil⟩ ∧
      virtualServiceDeleteFunc c lib numWorkers (Object.DeletedFinalStateUnknown tombstoneKey (Object.virtualService o)) =
        ⟨[Event.ResourceVerDelete (lib.IstioVirtualService ++ "/" ++ lib.ObjKey o.Namespace o.Name),
          Event.AddRateLimited
            (lib.Bkt (lib.SplitMetaNamespaceKey (lib.ObjKey o.Namespace o.Name)) numWorkers)
            (lib.IstioVirtualService ++ "/" ++ lib.ObjKey o.Namespace o.Name)], Ret.nil⟩) ∧
    (∀ obj : Object, obj.assertVirtualService = none →
      (∀ inner, obj.assertTombstone = some inner → inner.assertVirtualService = none) →
      virtualServiceDeleteFunc c lib numWorkers obj = ⟨[], Ret.nil⟩)) ∧
    ((∀ (o : DestinationRule) (tombstoneKey : String),
      destinationRuleDeleteFunc c lib numWorkers (Object.destinationRule o) =
        ⟨[Event.ResourceVerDelete (lib.IstioDestinationRule ++ "/" ++ lib.ObjKey o.Namespace o.Name),
          Event.AddRateLimited
            (lib.Bkt (lib.SplitMetaNamespaceKey (lib.ObjKey o.Namespace o.Name)) numWorkers)
            (lib.IstioDestinationRule ++ "/" ++ lib.ObjKey o.Namespace o.Name)], Ret.nil⟩ ∧
      destinationRuleDeleteFunc c lib numWorkers (Object.DeletedFinalStateUnknown tombstoneKey (Object.destinationRule o)) =
        ⟨[Event.ResourceVerDelete (lib.IstioDestinationRule ++ "/" ++ lib.ObjKey o.Namespace o.Name),
          Event.AddRateLimited
            (lib.Bkt (lib.SplitMetaNamespaceKey (lib.ObjKey o.Namespace o.Name)) numWorkers)
            (lib.IstioDestinationRule ++ "/" ++ lib.ObjKey o.Namespace o.Name)], Ret.nil⟩) ∧
    (∀ obj : Object, obj.assertDestinationRule = none →
      (∀ inner, obj.assertTombstone = some inner → inner.assertDestinationRule = none) →
      destinationRuleDeleteFunc c lib numWorkers obj = ⟨[], Ret.nil⟩)) ∧
    ((∀ (o : Gateway) (tombstoneKey : String),
      gatewayDeleteFunc c lib numWorkers (Object.gateway o) =
        ⟨[Event.ResourceVerDelete (lib.IstioGateway ++ "/" ++ lib.ObjKey o.Namespace o.Name),
          Event.AddRateLimited
            (lib.Bkt (lib.SplitMetaNamespaceKey (lib.ObjKey o.Namespace o.Name)) numWorkers)
            (lib.IstioGateway ++ "/" ++ lib.ObjKey o.Namespace o.Name)], Ret.nil⟩ ∧
      gatewayDeleteFunc c lib numWorkers (Object.DeletedFinalStateUnknown tombstoneKey (Object.gateway o)) =
        ⟨[Event.ResourceVerDelete (lib.IstioGateway ++ "/" ++ lib.ObjKey o.Namespace o.Name),
          Event.AddRateLimited
            (lib.Bkt (lib.SplitMetaNamespaceKey (lib.ObjKey o.Namespace o.Name)) numWorkers)
            (lib.IstioGateway ++ "/" ++ lib.ObjKey o.Namespace o.Name)], Ret.nil⟩) ∧
    (∀ obj : Object, obj.assertGateway = none →
      (∀ inner, obj.assertTombstone = some inner → inner.assertGateway = none) →
      gatewayDeleteFunc c lib numWorkers obj = ⟨[], Ret.nil⟩)) ∧
    ((∀ (o : MultiClusterIngress) (tombstoneKey : String),
      lib.IsNamespaceBlocked (lib.SplitMetaNamespaceKey (lib.ObjKey o.Namespace o.Name)) = false →
      lib.CheckIfNamespaceAccepted (lib.SplitMetaNamespaceKey (lib.ObjKey o.Namespace o.Name))
        = true →
      multiClusterIngressDeleteFunc c lib numWorkers (Object.multiClusterIngress o) =
        ⟨[Event.ResourceVerDelete (lib.MultiClusterIngress ++ "/" ++ lib.ObjKey o.Namespace o.Name),
          Event.AddRateLimited
            (lib.Bkt (lib.SplitMetaNamespaceKey (lib.ObjKey o.Namespace o.Name)) numWorkers)
            (lib.MultiClusterIngress ++ "/" ++ lib.ObjKey o.Namespace o.Name)], Ret.nil⟩ ∧
      multiClusterIngressDeleteFunc c lib numWorkers (Object.DeletedFinalStateUnknown tombstoneKey (Object.multiClusterIngress o)) =
        ⟨[Event.ResourceVerDelete (lib.MultiClusterIngress ++ "/" ++ lib.ObjKey o.Namespace o.Name),
          Event.AddRateLimited
            (lib.Bkt (lib.SplitMetaNamespaceKey (lib.ObjKey o.Namespace o.Name)) numWorkers)
            (lib.MultiClusterIngress ++ "/" ++ lib.ObjKey o.Namespace o.Name)], Ret.nil⟩) ∧
    (∀ obj : Object, obj.assertMultiClusterIngress = none →
      (∀ inner, obj.assertTombstone = some inner → inner.assertMultiClusterIngress = none) →
      multiClusterIngressDeleteFunc c lib numWorkers obj = ⟨[], Ret.nil⟩)) ∧
    ((∀ (o : ServiceImport) (tombstoneKey : String),
      lib.IsNamespaceBlocked (lib.SplitMetaNamespaceKey (lib.ObjKey o.Namespace o.Name)) = false →
      lib.CheckIfNamespaceAccepted (lib.SplitMetaNamespaceKey (lib.ObjKey o.Namespace o.Name))
        = true →
      serviceImportDeleteFunc c lib numWorkers (Object.serviceImport o) =
        ⟨[Event.ResourceVerDelete (lib.ServiceImport ++ "/" ++ lib.ObjKey o.Namespace o.Name),
          Event.AddRateLimited
            (lib.Bkt (lib.SplitMetaNamespaceKey (lib.ObjKey o.Namespace o.Name)) numWorkers)
            (lib.ServiceImport ++ "/" ++ lib.ObjKey o.Namespace o.Name)], Ret.nil⟩ ∧
      serviceImportDeleteFunc c lib numWorkers (Object.DeletedFinalStateUnknown tombstoneKey (Object.serviceImport o)) =
        ⟨[Event.ResourceVerDelete (lib.ServiceImport ++ "/" ++ lib.ObjKey o.Namespace o.Name),
          Event.AddRateLimited
            (lib.Bkt (lib.SplitMetaNamespaceKey (lib.ObjKey o.Namespace o.Name)) numWorkers)
            (lib.ServiceImport ++ "/" ++ lib.ObjKey o.Namespace o.Name)], Ret.nil⟩) ∧
    (∀ obj : Object, obj.assertServiceImport = none →
      (∀ inner, obj.assertTombstone = some inner → inner.assertServiceImport = none) →
      serviceImportDeleteFunc c lib numWorkers obj = ⟨[], Ret.nil⟩)) := by
  refine ⟨?_, ?_, ?_, ?_, ?_, ?_, ?_, ?_⟩
  · refine ⟨?_, ?_⟩
    · intro o tombstoneKey
      simp [hostRuleDeleteFunc, unwrapDeleted, Object.assertHostRule, Object.assertTombstone, deleteAndEnqueue,
        hsync]
    · intro obj hkind htomb
      unfold hostRuleDeleteFunc unwrapDeleted
      simp only [hsync, hkind, Bool.false_eq_true, if_false]
      cases ht : obj.assertTombstone with
      | none => rfl
      | some inner => simp only [htomb inner ht]
  · refine ⟨?_, ?_⟩
    · intro o tombstoneKey
      simp [httpRuleDeleteFunc, unwrapDeleted, Object.assertHTTPRule, Object.assertTombstone, deleteAndEnqueue,
        hsync]
    · intro obj hkind htomb
      unfold httpRuleDeleteFunc unwrapDeleted
      simp only [hsync, hkind, Bool.false_eq_true, if_false]
      cases ht : obj.assertTombstone with
      | none => rfl
      | some inner => simp only [htomb inner ht]
  · refine ⟨?_, ?_⟩
    · intro o tombstoneKey
      simp [aviInfraDeleteFunc, unwrapDeleted, Object.assertAviInfraSetting, Object.assertTombstone, deleteAndEnqueue,
        hsync]
    · intro obj hkind htomb
      unfold aviInfraDeleteFunc unwrapDeleted
      simp only [hsync, hkind, Bool.false_eq_true, if_false]
      cases ht : obj.assertTombstone with
      | none => rfl
      | some inner => simp only [htomb inner ht]
  · refine ⟨?_, ?_⟩
    · intro o tombstoneKey
      simp [virtualServiceDeleteFunc, unwrapDeleted, Object.assertVirtualService, Object.assertTombstone, deleteAndEnqueue,
        hsync]
    · intro obj hkind htomb
      unfold virtualServiceDeleteFunc unwrapDeleted
      simp only [hsync, hkind, Bool.false_eq_true, if_false]
      cases ht : obj.assertTombstone with
      | none => rfl
      | some inner => simp only [htomb inner ht]
  · refine ⟨?_, ?_⟩
    · intro o tombstoneKey
      simp [destinationRuleDeleteFunc, unwrapDeleted, Object.assertDestinationRule, Object.assertTombstone, deleteAndEnqueue,
        hsync]
    · intro obj hkind htomb
      unfold destinationRuleDeleteFunc unwrapDeleted
      simp only [hsync, hkind, Bool.false_eq_true, if_false]
      cases ht : obj.assertTombstone with
      | none => rfl
      | some inner => simp only [htomb inner ht]
  · refine ⟨?_, ?_⟩
    · intro o tombstoneKey
      simp [gatewayDeleteFunc, unwrapDeleted, Object.assertGateway, Object.assertTombstone, deleteAndEnqueue,
        hsync]
    · intro obj hkind htomb
      unfold gatewayDeleteFunc unwrapDeleted
      simp only [hsync, hkind, Bool.false_eq_true, if_false]
      cases ht : obj.assertTombstone with
      | none => rfl
      | some inner => simp only [htomb inner ht]
  · refine ⟨?_, ?_⟩
    · intro o tombstoneKey hblocked haccepted
      simp [multiClusterIngressDeleteFunc, unwrapDeleted, Object.assertMultiClusterIngress, Object.assertTombstone, deleteAndEnqueue,
        hsync, deleteAndEnqueueFiltered, hblocked, haccepted]
    · intro obj hkind htomb
      unfold multiClusterIngressDeleteFunc unwrapDeleted
      simp only [hsync, hkind, Bool.false_eq_true, if_false]
      cases ht : obj.assertTombstone with
      | none => rfl
      | some inner => simp only [htomb inner ht]
  · refine ⟨?_, ?_⟩
    · intro o tombstoneKey hblocked haccepted
      simp [serviceImportDeleteFunc, unwrapDeleted, Object.assertServiceImport, Object.assertTombstone, deleteAndEnqueue,
        hsync, deleteAndEnqueueFiltered, hblocked, haccepted]
    · intro obj hkind htomb
      unfold serviceImportDeleteFunc unwrapDeleted
      simp only [hsync, hkind, Bool.false_eq_true, if_false]
      cases ht : obj.assertTombstone with
      | none => rfl
      | some inner => simp only [htomb inner ht]

/-- Witness for C22: each Delete handler on a sample object, on a tombstone around
it, on a value of another type and on a tombstone around such a value. -/
theorem C22_delete_handlers_witness :
    (hostRuleDeleteFunc ⟨false⟩ sampleLib 3 (Object.hostRule hostRuleAccepted) =
        ⟨[Event.ResourceVerDelete (sampleLib.HostRule ++ "/" ++ sampleLib.ObjKey hostRuleAccepted.Namespace hostRuleAccepted.Name),
          Event.AddRateLimited
            (sampleLib.Bkt (sampleLib.SplitMetaNamespaceKey (sampleLib.ObjKey hostRuleAccepted.Namespace hostRuleAccepted.Name)) 3)
            (sampleLib.HostRule ++ "/" ++ sampleLib.ObjKey hostRuleAccepted.Namespace hostRuleAccepted.Name)], Ret.nil⟩ ∧
      hostRuleDeleteFunc ⟨false⟩ sampleLib 3
          (Object.DeletedFinalStateUnknown "gone" (Object.hostRule hostRuleAccepted)) =
        ⟨[Event.ResourceVerDelete (sampleLib.HostRule ++ "/" ++ sampleLib.ObjKey hostRuleAccepted.Namespace hostRuleAccepted.Name),
          Event.AddRateLimited
            (sampleLib.Bkt (sampleLib.SplitMetaNamespaceKey (sampleLib.ObjKey hostRuleAccepted.Namespace hostRuleAccepted.Name)) 3)
            (sampleLib.HostRule ++ "/" ++ sampleLib.ObjKey hostRuleAccepted.Namespace hostRuleAccepted.Name)], Ret.nil⟩ ∧
      hostRuleDeleteFunc ⟨false⟩ sampleLib 3 (Object.other "string") = ⟨[], Ret.nil⟩ ∧
      hostRuleDeleteFunc ⟨false⟩ sampleLib 3
        (Object.DeletedFinalStateUnknown "gone" (Object.other "string")) = ⟨[], Ret.nil⟩) ∧
    (httpRuleDeleteFunc ⟨false⟩ sampleLib 3 (Object.httpRule httpRuleAccepted) =
        ⟨[Event.ResourceVerDelete (sampleLib.HTTPRule ++ "/" ++ sampleLib.ObjKey httpRuleAccepted.Namespace httpRuleAccepted.Name),
          Event.AddRateLimited
            (sampleLib.Bkt (sampleLib.SplitMetaNamespaceKey (sampleLib.ObjKey httpRuleAccepted.Namespace httpRuleAccepted.Name)) 3)
            (sampleLib.HTTPRule ++ "/" ++ sampleLib.ObjKey httpRuleAccepted.Namespace httpRuleAccepted.Name)], Ret.nil⟩ ∧
      httpRuleDeleteFunc ⟨false⟩ sampleLib 3
          (Object.DeletedFinalStateUnknown "gone" (Object.httpRule httpRuleAccepted)) =
        ⟨[Event.ResourceVerDelete (sampleLib.HTTPRule ++ "/" ++ sampleLib.ObjKey httpRuleAccepted.Namespace httpRuleAccepted.Name),
          Event.AddRateLimited
            (sampleLib.Bkt (sampleLib.SplitMetaNamespaceKey (sampleLib.ObjKey httpRuleAccepted.Namespace httpRuleAccepted.Name)) 3)
            (sampleLib.HTTPRule ++ "/" ++ sampleLib.ObjKey httpRuleAccepted.Namespace httpRuleAccepted.Name)], Ret.nil⟩ ∧
      httpRuleDeleteFunc ⟨false⟩ sampleLib 3 (Object.other "string") = ⟨[], Ret.nil⟩ ∧
      httpRuleDeleteFunc ⟨false⟩ sampleLib 3
        (Object.DeletedFinalStateUnknown "gone" (Object.other "string")) = ⟨[], Ret.nil⟩) ∧
    (aviInfraDeleteFunc ⟨false⟩ sampleLib 3 (Object.aviInfraSetting infraSettingSeg) =
        ⟨[Event.ResourceVerDelete (sampleLib.AviInfraSetting ++ "/" ++ sampleLib.ObjKey infraSettingSeg.Namespace infraSettingSeg.Name),
          Event.AddRateLimited
            (sampleLib.Bkt (sampleLib.SplitMetaNamespaceKey (sampleLib.ObjKey infraSettingSeg.Namespace infraSettingSeg.Name)) 3)
            (sampleLib.AviInfraSetting ++ "/" ++ sampleLib.ObjKey infraSettingSeg.Namespace infraSettingSeg.Name)], Ret.nil⟩ ∧
      aviInfraDeleteFunc ⟨false⟩ sampleLib 3
          (Object.DeletedFinalStateUnknown "gone" (Object.aviInfraSetting infraSettingSeg)) =
        ⟨[Event.ResourceVerDelete (sampleLib.AviInfraSetting ++ "/" ++ sampleLib.ObjKey infraSettingSeg.Namespace infraSettingSeg.Name),
          Event.AddRateLimited
            (sampleLib.Bkt (sampleLib.SplitMetaNamespaceKey (sampleLib.ObjKey infraSettingSeg.Namespace infraSettingSeg.Name)) 3)
            (sampleLib.AviInfraSetting ++ "/" ++ sampleLib.ObjKey infraSettingSeg.Namespace infraSettingSeg.Name)], Ret.nil⟩ ∧
      aviInfraDeleteFunc ⟨false⟩ sampleLib 3 (Object.other "string") = ⟨[], Ret.nil⟩ ∧
      aviInfraDeleteFunc ⟨false⟩ sampleLib 3
        (Object.DeletedFinalStateUnknown "gone" (Object.other "string")) = ⟨[], Ret.nil⟩) ∧
    (virtualServiceDeleteFunc ⟨false⟩ sampleLib 3 (Object.virtualService sampleVirtualService) =
        ⟨[Event.ResourceVerDelete (sampleLib.IstioVirtualService ++ "/" ++ sampleLib.ObjKey sampleVirtualService.Namespace sampleVirtualService.Name),
          Event.AddRateLimited
            (sampleLib.Bkt (sampleLib.SplitMetaNamespaceKey (sampleLib.ObjKey sampleVirtualService.Namespace sampleVirtualService.Name)) 3)
            (sampleLib.IstioVirtualService ++ "/" ++ sampleLib.ObjKey sampleVirtualService.Namespace sampleVirtualService.Name)], Ret.nil⟩ ∧
      virtualServiceDeleteFunc ⟨false⟩ sampleLib 3
          (Object.DeletedFinalStateUnknown "gone" (Object.virtualService sampleVirtualService)) =
        ⟨[Event.ResourceVerDelete (sampleLib.IstioVirtualService ++ "/" ++ sampleLib.ObjKey sampleVirtualService.Namespace sampleVirtualService.Name),
          Event.AddRateLimited
            (sampleLib.Bkt (sampleLib.SplitMetaNamespaceKey (sampleLib.ObjKey sampleVirtualService.Namespace sampleVirtualService.Name)) 3)
            (sampleLib.IstioVirtualService ++ "/" ++ sampleLib.ObjKey sampleVirtualService.Namespace sampleVirtualService.Name)], Ret.nil⟩ ∧
      virtualServiceDeleteFunc ⟨false⟩ sampleLib 3 (Object.other "string") = ⟨[], Ret.nil⟩ ∧
      virtualServiceDeleteFunc ⟨false⟩ sampleLib 3
        (Object.DeletedFinalStateUnknown "gone" (Object.other "string")) = ⟨[], Ret.nil⟩) ∧
    (destinationRuleDeleteFunc ⟨false⟩ sampleLib 3 (Object.destinationRule sampleDestinationRule) =
        ⟨[Event.ResourceVerDelete (sampleLib.IstioDestinationRule ++ "/" ++ sampleLib.ObjKey sampleDestinationRule.Namespace sampleDestinationRule.Name),
          Event.AddRateLimited
            (sampleLib.Bkt (sampleLib.SplitMetaNamespaceKey (sampleLib.ObjKey sampleDestinationRule.Namespace sampleDestinationRule.Name)) 3)
            (sampleLib.IstioDestinationRule ++ "/" ++ sampleLib.ObjKey sampleDestinationRule.Namespace sampleDestinationRule.Name)], Ret.nil⟩ ∧
      destinationRuleDeleteFunc ⟨false⟩ sampleLib 3
          (Object.DeletedFinalStateUnknown "gone" (Object.destinationRule sampleDestinationRule)) =
        ⟨[Event.ResourceVerDelete (sampleLib.IstioDestinationRule ++ "/" ++ sampleLib.ObjKey sampleDestinationRule.Namespace sampleDestinationRule.Name),
          Event.AddRateLimited
            (sampleLib.Bkt (sampleLib.SplitMetaNamespaceKey (sampleLib.ObjKey sampleDestinationRule.Namespace sampleDestinationRule.Name)) 3)
            (sampleLib.IstioDestinationRule ++ "/" ++ sampleLib.ObjKey sampleDestinationRule.Namespace sampleDestinationRule.Name)], Ret.nil⟩ ∧
      destinationRuleDeleteFunc ⟨false⟩ sampleLib 3 (Object.other "string") = ⟨[], Ret.nil⟩ ∧
      destinationRuleDeleteFunc ⟨false⟩ sampleLib 3
        (Object.DeletedFinalStateUnknown "gone" (Object.other "string")) = ⟨[], Ret.nil⟩) ∧
    (gatewayDeleteFunc ⟨false⟩ sampleLib 3 (Object.gateway sampleGateway) =
        ⟨[Event.ResourceVerDelete (sampleLib.IstioGateway ++ "/" ++ sampleLib.ObjKey sampleGateway.Namespace sampleGateway.Name),
          Event.AddRateLimited
            (sampleLib.Bkt (sampleLib.SplitMetaNamespaceKey (sampleLib.ObjKey sampleGateway.Namespace sampleGateway.Name)) 3)
            (sampleLib.IstioGateway ++ "/" ++ sampleLib.ObjKey sampleGateway.Namespace sampleGateway.Name)], Ret.nil⟩ ∧
      gatewayDeleteFunc ⟨false⟩ sampleLib 3
          (Object.DeletedFinalStateUnknown "gone" (Object.gateway sampleGateway)) =
        ⟨[Event.ResourceVerDelete (sampleLib.IstioGateway ++ "/" ++ sampleLib.ObjKey sampleGateway.Namespace sampleGateway.Name),
          Event.AddRateLimited
            (sampleLib.Bkt (sampleLib.SplitMetaNamespaceKey (sampleLib.ObjKey sampleGateway.Namespace sampleGateway.Name)) 3)
            (sampleLib.IstioGateway ++ "/" ++ sampleLib.ObjKey sampleGateway.Namespace sampleGateway.Name)], Ret.nil⟩ ∧
      gatewayDeleteFunc ⟨false⟩ sampleLib 3 (Object.other "string") = ⟨[], Ret.nil⟩ ∧
      gatewayDeleteFunc ⟨false⟩ sampleLib 3
        (Object.DeletedFinalStateUnknown "gone" (Object.other "string")) = ⟨[], Ret.nil⟩) ∧
    (multiClusterIngressDeleteFunc ⟨false⟩ sampleLib 3 (Object.multiClusterIngress sampleMCI) =
        ⟨[Event.ResourceVerDelete (sampleLib.MultiClusterIngress ++ "/" ++ sampleLib.ObjKey sampleMCI.Namespace sampleMCI.Name),
          Event.AddRateLimited
            (sampleLib.Bkt (sampleLib.SplitMetaNamespaceKey (sampleLib.ObjKey sampleMCI.Namespace sampleMCI.Name)) 3)
            (sampleLib.MultiClusterIngress ++ "/" ++ sampleLib.ObjKey sampleMCI.Namespace sampleMCI.Name)], Ret.nil⟩ ∧
      multiClusterIngressDeleteFunc ⟨false⟩ sampleLib 3
          (Object.DeletedFinalStateUnknown "gone" (Object.multiClusterIngress sampleMCI)) =
        ⟨[Event.ResourceVerDelete (sampleLib.MultiClusterIngress ++ "/" ++ sampleLib.ObjKey sampleMCI.Namespace sampleMCI.Name),
          Event.AddRateLimited
            (sampleLib.Bkt (sampleLib.SplitMetaNamespaceKey (sampleLib.ObjKey sampleMCI.Namespace sampleMCI.Name)) 3)
            (sampleLib.MultiClusterIngress ++ "/" ++ sampleLib.ObjKey sampleMCI.Namespace sampleMCI.Name)], Ret.nil⟩ ∧
      multiClusterIngressDeleteFunc ⟨false⟩ sampleLib 3 (Object.other "string") = ⟨[], Ret.nil⟩ ∧
      multiClusterIngressDeleteFunc ⟨false⟩ sampleLib 3
        (Object.DeletedFinalStateUnknown "gone" (Object.other "string")) = ⟨[], Ret.nil⟩) ∧
    (serviceImportDeleteFunc ⟨false⟩ sampleLib 3 (Object.serviceImport sampleServiceImport) =
        ⟨[Event.ResourceVerDelete (sampleLib.ServiceImport ++ "/" ++ sampleLib.ObjKey sampleServiceImport.Namespace sampleServiceImport.Name),
          Event.AddRateLimited
            (sampleLib.Bkt (sampleLib.SplitMetaNamespaceKey (sampleLib.ObjKey sampleServiceImport.Namespace sampleServiceImport.Name)) 3)
            (sampleLib.ServiceImport ++ "/" ++ sampleLib.ObjKey sampleServiceImport.Namespace sampleServiceImport.Name)], Ret.nil⟩ ∧
      serviceImportDeleteFunc ⟨false⟩ sampleLib 3
          (Object.DeletedFinalStateUnknown "gone" (Object.serviceImport sampleServiceImport)) =
        ⟨[Event.ResourceVerDelete (sampleLib.ServiceImport ++ "/" ++ sampleLib.ObjKey sampleServiceImport.Namespace sampleServiceImport.Name),
          Event.AddRateLimited
            (sampleLib.Bkt (sampleLib.SplitMetaNamespaceKey (sampleLib.ObjKey sampleServiceImport.Namespace sampleServiceImport.Name)) 3)
            (sampleLib.ServiceImport ++ "/" ++ sampleLib.ObjKey sampleServiceImport.Namespace sampleServiceImport.Name)], Ret.nil⟩ ∧
      serviceImportDeleteFunc ⟨false⟩ sampleLib 3 (Object.other "string") = ⟨[], Ret.nil⟩ ∧
      serviceImportDeleteFunc ⟨false⟩ sampleLib 3
        (Object.DeletedFinalStateUnknown "gone" (Object.other "string")) = ⟨[], Ret.nil⟩) :=
  have w := C22_delete_handlers ⟨false⟩ sampleLib 3 rfl
  ⟨⟨(w.1.1 hostRuleAccepted "gone").1, (w.1.1 hostRuleAccepted "gone").2,
     w.1.2 (Object.other "string") rfl (fun _ h => by cases h),
     w.1.2 (Object.DeletedFinalStateUnknown "gone" (Object.other "string")) rfl
       (fun _ h => by cases h; rfl)⟩,
   ⟨(w.2.1.1 httpRuleAccepted "gone").1, (w.2.1.1 httpRuleAccepted "gone").2,
     w.2.1.2 (Object.other "string") rfl (fun _ h => by cases h),
     w.2.1.2 (Object.DeletedFinalStateUnknown "gone" (Object.other "string")) rfl
       (fun _ h => by cases h; rfl)⟩,
   ⟨(w.2.2.1.1 infraSettingSeg "gone").1, (w.2.2.1.1 infraSettingSeg "gone").2,
     w.2.2.1.2 (Object.other "string") rfl (fun _ h => by cases h),
     w.2.2.1.2 (Object.DeletedFinalStateUnknown "gone" (Object.other "string")) rfl
       (fun _ h => by cases h; rfl)⟩,
   ⟨(w.2.2.2.1.1 sampleVirtualService "gone").1, (w.2.2.2.1.1 sampleVirtualService "gone").2,
     w.2.2.2.1.2 (Object.other "string") rfl (fun _ h => by cases h),
     w.2.2.2.1.2 (Object.DeletedFinalStateUnknown "gone" (Object.other "string")) rfl
       (fun _ h => by cases h; rfl)⟩,
   ⟨(w.2.2.2.2.1.1 sampleDestinationRule "gone").1, (w.2.2.2.2.1.1 sampleDestinationRule "gone").2,
     w.2.2.2.2.1.2 (Object.other "string") rfl (fun _ h => by cases h),
     w.2.2.2.2.1.2 (Object.DeletedFinalStateUnknown "gone" (Object.other "string")) rfl
       (fun _ h => by cases h; rfl)⟩,
   ⟨(w.2.2.2.2.2.1.1 sampleGateway "gone").1, (w.2.2.2.2.2.1.1 sampleGateway "gone").2,
     w.2.2.2.2.2.1.2 (Object.other "string") rfl (fun _ h => by cases h),
     w.2.2.2.2.2.1.2 (Object.DeletedFinalStateUnknown "gone" (Object.other "string")) rfl
       (fun _ h => by cases h; rfl)⟩,
   ⟨(w.2.2.2.2.2.2.1.1 sampleMCI "gone" rfl rfl).1, (w.2.2.2.2.2.2.1.1 sampleMCI "gone" rfl rfl).2,
     w.2.2.2.2.2.2.1.2 (Object.other "string") rfl (fun _ h => by cases h),
     w.2.2.2.2.2.2.1.2 (Object.DeletedFinalStateUnknown "gone" (Object.other "string")) rfl
       (fun _ h => by cases h; rfl)⟩,
   ⟨(w.2.2.2.2.2.2.2.1 sampleServiceImport "gone" rfl rfl).1, (w.2.2.2.2.2.2.2.1 sampleServiceImport "gone" rfl rfl).2,
     w.2.2.2.2.2.2.2.2 (Object.other "string") rfl (fun _ h => by cases h),
     w.2.2.2.2.2.2.2.2 (Object.DeletedFinalStateUnknown "gone" (Object.other "string")) rfl
       (fun _ h => by cases h; rfl)⟩⟩

/-! ## Handlers of the Istio kinds -/

/-- C23: with sync enabled, the Add handler of a VirtualService, DestinationRule or
Gateway does nothing when the resource-version cache holds, under the key of the
object, the resource version of the object; in every other case its one outside
call is the `AddRateLimited` of the key on the shard of the namespace.  In
neither case does it write the cache. -/
theorem C23_istio_add (c : AviController) (lib : Lib) (numWorkers : Nat)
    (hsync : c.DisableSync = false) :
    (∀ o : VirtualService,
      (((lib.ResourceVerGet (lib.IstioVirtualService ++ "/" ++ lib.ObjKey o.Namespace o.Name)).1 = true ∧
          (lib.ResourceVerGet (lib.IstioVirtualService ++ "/" ++ lib.ObjKey o.Namespace o.Name)).2 = o.ResourceVersion) →
        virtualServiceAddFunc c lib numWorkers o = ⟨[], Ret.nil⟩) ∧
      (¬((lib.ResourceVerGet (lib.IstioVirtualService ++ "/" ++ lib.ObjKey o.Namespace o.Name)).1 = true ∧
          (lib.ResourceVerGet (lib.IstioVirtualService ++ "/" ++ lib.ObjKey o.Namespace o.Name)).2 = o.ResourceVersion) →
        virtualServiceAddFunc c lib numWorkers o =
          ⟨[Event.AddRateLimited
              (lib.Bkt (lib.SplitMetaNamespaceKey (lib.ObjKey o.Namespace o.Name)) numWorkers)
              (lib.IstioVirtualService ++ "/" ++ lib.ObjKey o.Namespace o.Name)], Ret.nil⟩)) ∧
    (∀ o : DestinationRule,
      (((lib.ResourceVerGet (lib.IstioDestinationRule ++ "/" ++ lib.ObjKey o.Namespace o.Name)).1 = true ∧
          (lib.ResourceVerGet (lib.IstioDestinationRule ++ "/" ++ lib.ObjKey o.Namespace o.Name)).2 = o.ResourceVersion) →
        destinationRuleAddFunc c lib numWorkers o = ⟨[], Ret.nil⟩) ∧
      (¬((lib.ResourceVerGet (lib.IstioDestinationRule ++ "/" ++ lib.ObjKey o.Namespace o.Name)).1 = true ∧
          (lib.ResourceVerGet (lib.IstioDestinationRule ++ "/" ++ lib.ObjKey o.Namespace o.Name)).2 = o.ResourceVersion) →
        destinationRuleAddFunc c lib numWorkers o =
          ⟨[Event.AddRateLimited
              (lib.Bkt (lib.SplitMetaNamespaceKey (lib.ObjKey o.Namespace o.Name)) numWorkers)
              (lib.IstioDestinationRule ++ "/" ++ lib.ObjKey o.Namespace o.Name)], Ret.nil⟩)) ∧
    (∀ o : Gateway,
      (((lib.ResourceVerGet (lib.IstioGateway ++ "/" ++ lib.ObjKey o.Namespace o.Name)).1 = true ∧
          (lib.ResourceVerGet (lib.IstioGateway ++ "/" ++ lib.ObjKey o.Namespace o.Name)).2 = o.ResourceVersion) →
        gatewayAddFunc c lib numWorkers o = ⟨[], Ret.nil⟩) ∧
      (¬((lib.ResourceVerGet (lib.IstioGateway ++ "/" ++ lib.ObjKey o.Namespace o.Name)).1 = true ∧
          (lib.ResourceVerGet (lib.IstioGateway ++ "/" ++ lib.ObjKey o.Namespace o.Name)).2 = o.ResourceVersion) →
        gatewayAddFunc c lib numWorkers o =
          ⟨[Event.AddRateLimited
              (lib.Bkt (lib.SplitMetaNamespaceKey (lib.ObjKey o.Namespace o.Name)) numWorkers)
              (lib.IstioGateway ++ "/" ++ lib.ObjKey o.Namespace o.Name)], Ret.nil⟩)) := by
  refine ⟨?_, ?_, ?_⟩ <;> intro o <;> refine ⟨fun hc => ?_, fun hc => ?_⟩
  all_goals
    simp only [virtualServiceAddFunc, destinationRuleAddFunc, gatewayAddFunc, istioAdd, hsync,
      Bool.false_eq_true, if_false]
  · simp [hc.1, hc.2]
  · rw [if_neg (by simpa using hc)]
  · simp [hc.1, hc.2]
  · rw [if_neg (by simpa using hc)]
  · simp [hc.1, hc.2]
  · rw [if_neg (by simpa using hc)]

/-- Witness for C23: with version `7` cached under every key, the object at
version `7` is skipped and the object at version `8` is enqueued; with an empty
cache the object is enqueued. -/
theorem C23_istio_add_witness :
    (virtualServiceAddFunc ⟨false⟩ libCachedSeven 3 sampleVirtualService = ⟨[], Ret.nil⟩ ∧
      virtualServiceAddFunc ⟨false⟩ libCachedSeven 3 { sampleVirtualService with ResourceVersion := "8" } =
        ⟨[Event.AddRateLimited
            (libCachedSeven.Bkt (libCachedSeven.SplitMetaNamespaceKey (libCachedSeven.ObjKey sampleVirtualService.Namespace sampleVirtualService.Name)) 3)
            (libCachedSeven.IstioVirtualService ++ "/" ++ libCachedSeven.ObjKey sampleVirtualService.Namespace sampleVirtualService.Name)], Ret.nil⟩ ∧
      virtualServiceAddFunc ⟨false⟩ sampleLib 3 sampleVirtualService =
        ⟨[Event.AddRateLimited
            (sampleLib.Bkt (sampleLib.SplitMetaNamespaceKey (sampleLib.ObjKey sampleVirtualService.Namespace sampleVirtualService.Name)) 3)
            (sampleLib.IstioVirtualService ++ "/" ++ sampleLib.ObjKey sampleVirtualService.Namespace sampleVirtualService.Name)], Ret.nil⟩) ∧
    (destinationRuleAddFunc ⟨false⟩ libCachedSeven 3 sampleDestinationRule = ⟨[], Ret.nil⟩ ∧
      destinationRuleAddFunc ⟨false⟩ libCachedSeven 3 { sampleDestinationRule with ResourceVersion := "8" } =
        ⟨[Event.AddRateLimited
            (libCachedSeven.Bkt (libCachedSeven.SplitMetaNamespaceKey (libCachedSeven.ObjKey sampleDestinationRule.Namespace sampleDestinationRule.Name)) 3)
            (libCachedSeven.IstioDestinationRule ++ "/" ++ libCachedSeven.ObjKey sampleDestinationRule.Namespace sampleDestinationRule.Name)], Ret.nil⟩ ∧
      destinationRuleAddFunc ⟨false⟩ sampleLib 3 sampleDestinationRule =
        ⟨[Event.AddRateLimited
            (sampleLib.Bkt (sampleLib.SplitMetaNamespaceKey (sampleLib.ObjKey sampleDestinationRule.Namespace sampleDestinationRule.Name)) 3)
            (sampleLib.IstioDestinationRule ++ "/" ++ sampleLib.ObjKey sampleDestinationRule.Namespace sampleDestinationRule.Name)], Ret.nil⟩) ∧
    (gatewayAddFunc ⟨false⟩ libCachedSeven 3 sampleGateway = ⟨[], Ret.nil⟩ ∧
      gatewayAddFunc ⟨false⟩ libCachedSeven 3 { sampleGateway with ResourceVersion := "8" } =
        ⟨[Event.AddRateLimited
            (libCachedSeven.Bkt (libCachedSeven.SplitMetaNamespaceKey (libCachedSeven.ObjKey sampleGateway.Namespace sampleGateway.Name)) 3)
            (libCachedSeven.IstioGateway ++ "/" ++ libCachedSeven.ObjKey sampleGateway.Namespace sampleGateway.Name)], Ret.nil⟩ ∧
      gatewayAddFunc ⟨false⟩ sampleLib 3 sampleGateway =
        ⟨[Event.AddRateLimited
            (sampleLib.Bkt (sampleLib.SplitMetaNamespaceKey (sampleLib.ObjKey sampleGateway.Namespace sampleGateway.Name)) 3)
            (sampleLib.IstioGateway ++ "/" ++ sampleLib.ObjKey sampleGateway.Namespace sampleGateway.Name)], Ret.nil⟩) :=
  have w := C23_istio_add ⟨false⟩ libCachedSeven 3 rfl
  have ws := C23_istio_add ⟨false⟩ sampleLib 3 rfl
  ⟨⟨(w.1 sampleVirtualService).1 ⟨rfl, rfl⟩,
     (w.1 { sampleVirtualService with ResourceVersion := "8" }).2 (by decide),
     (ws.1 sampleVirtualService).2 (by decide)⟩,
   ⟨(w.2.1 sampleDestinationRule).1 ⟨rfl, rfl⟩,
     (w.2.1 { sampleDestinationRule with ResourceVersion := "8" }).2 (by decide),
     (ws.2.1 sampleDestinationRule).2 (by decide)⟩,
   ⟨(w.2.2 sampleGateway).1 ⟨rfl, rfl⟩,
     (w.2.2 { sampleGateway with ResourceVersion := "8" }).2 (by decide),
     (ws.2.2 sampleGateway).2 (by decide)⟩⟩

/-- C24: with sync enabled, the Update handler of a VirtualService, DestinationRule
or Gateway makes one outside call, the `AddRateLimited` of the key on the shard of
the namespace, when `reflect.DeepEqual` tells the two specs apart, and none when
it finds them deeply equal; the run is the same for every resource version and
status of the two objects and every content of the resource-version cache. -/
theorem C24_istio_update (c : AviController) (lib : Lib) (numWorkers : Nat)
    (hsync : c.DisableSync = false) :
    (∀ old new : VirtualService,
      (lib.DeepEqualVirtualServiceSpec old.Spec new.Spec = false →
        virtualServiceUpdateFunc c lib numWorkers old new =
          ⟨[Event.AddRateLimited
              (lib.Bkt (lib.SplitMetaNamespaceKey (lib.ObjKey new.Namespace new.Name)) numWorkers)
              (lib.IstioVirtualService ++ "/" ++ lib.ObjKey new.Namespace new.Name)], Ret.nil⟩) ∧
      (lib.DeepEqualVirtualServiceSpec old.Spec new.Spec = true →
        virtualServiceUpdateFunc c lib numWorkers old new = ⟨[], Ret.nil⟩) ∧
      ∀ (rv rv' st st' : String) (cached : String → Bool × String),
        virtualServiceUpdateFunc c { lib with ResourceVerGet := cached } numWorkers
            { old with ResourceVersion := rv, Status := st }
            { new with ResourceVersion := rv', Status := st' } =
          virtualServiceUpdateFunc c lib numWorkers old new) ∧
    (∀ old new : DestinationRule,
      (lib.DeepEqualDestinationRuleSpec old.Spec new.Spec = false →
        destinationRuleUpdateFunc c lib numWorkers old new =
          ⟨[Event.AddRateLimited
              (lib.Bkt (lib.SplitMetaNamespaceKey (lib.ObjKey new.Namespace new.Name)) numWorkers)
              (lib.IstioDestinationRule ++ "/" ++ lib.ObjKey new.Namespace new.Name)], Ret.nil⟩) ∧
      (lib.DeepEqualDestinationRuleSpec old.Spec new.Spec = true →
        destinationRuleUpdateFunc c lib numWorkers old new = ⟨[], Ret.nil⟩) ∧
      ∀ (rv rv' st st' : String) (cached : String → Bool × String),
        destinationRuleUpdateFunc c { lib with ResourceVerGet := cached } numWorkers
            { old with ResourceVersion := rv, Status := st }
            { new with ResourceVersion := rv', Status := st' } =
          destinationRuleUpdateFunc c lib numWorkers old new) ∧
    (∀ old new : Gateway,
      (lib.DeepEqualGatewaySpec old.Spec new.Spec = false →
        gatewayUpdateFunc c lib numWorkers old new =
          ⟨[Event.AddRateLimited
              (lib.Bkt (lib.SplitMetaNamespaceKey (lib.ObjKey new.Namespace new.Name)) numWorkers)
              (lib.IstioGateway ++ "/" ++ lib.ObjKey new.Namespace new.Name)], Ret.nil⟩) ∧
      (lib.DeepEqualGatewaySpec old.Spec new.Spec = true →
        gatewayUpdateFunc c lib numWorkers old new = ⟨[], Ret.nil⟩) ∧
      ∀ (rv rv' st st' : String) (cached : String → Bool × String),
        gatewayUpdateFunc c { lib with ResourceVerGet := cached } numWorkers
            { old with ResourceVersion := rv, Status := st }
            { new with ResourceVersion := rv', Status := st' } =
          gatewayUpdateFunc c lib numWorkers old new) := by
  refine ⟨?_, ?_, ?_⟩ <;> intro old new <;>
    refine ⟨fun hne => ?_, fun heq => ?_, fun rv rv' st st' cached => ?_⟩
  all_goals
    simp only [virtualServiceUpdateFunc, destinationRuleUpdateFunc, gatewayUpdateFunc,
      istioEnqueue, hsync, Bool.false_eq_true, if_false]
  · simp [hne]
  · simp [heq]
  · simp [hne]
  · simp [heq]
  · simp [hne]
  · simp [heq]

/-- Witness for C24: with the sample `reflect.DeepEqual`, which compares the texts
of the specs, an update that turns a nil slice or map of the spec into an empty
one is enqueued, and an update that changes only the resource version is not. -/
theorem C24_istio_update_witness :
    (virtualServiceUpdateFunc ⟨false⟩ sampleLib 3
          { sampleVirtualService with Spec := ⟨"hosts: nil, gateways: [gw]"⟩ }
          sampleVirtualService =
        ⟨[Event.AddRateLimited
            (sampleLib.Bkt (sampleLib.SplitMetaNamespaceKey
              (sampleLib.ObjKey sampleVirtualService.Namespace sampleVirtualService.Name)) 3)
            (sampleLib.IstioVirtualService ++ "/" ++
              sampleLib.ObjKey sampleVirtualService.Namespace sampleVirtualService.Name)],
          Ret.nil⟩ ∧
      virtualServiceUpdateFunc ⟨false⟩ sampleLib 3
          { sampleVirtualService with ResourceVersion := "6" } sampleVirtualService =
        ⟨[], Ret.nil⟩) ∧
    (destinationRuleUpdateFunc ⟨false⟩ sampleLib 3
          { sampleDestinationRule with Spec := ⟨"host: svc.default.svc.cluster.local, exportTo: []"⟩ }
          sampleDestinationRule =
        ⟨[Event.AddRateLimited
            (sampleLib.Bkt (sampleLib.SplitMetaNamespaceKey
              (sampleLib.ObjKey sampleDestinationRule.Namespace sampleDestinationRule.Name)) 3)
            (sampleLib.IstioDestinationRule ++ "/" ++
              sampleLib.ObjKey sampleDestinationRule.Namespace sampleDestinationRule.Name)],
          Ret.nil⟩ ∧
      destinationRuleUpdateFunc ⟨false⟩ sampleLib 3
          { sampleDestinationRule with ResourceVersion := "6" } sampleDestinationRule =
        ⟨[], Ret.nil⟩) ∧
    (gatewayUpdateFunc ⟨false⟩ sampleLib 3
          { sampleGateway with Spec := ⟨"servers: [https-443], selector: nil"⟩ }
          sampleGateway =
        ⟨[Event.AddRateLimited
            (sampleLib.Bkt (sampleLib.SplitMetaNamespaceKey
              (sampleLib.ObjKey sampleGateway.Namespace sampleGateway.Name)) 3)
            (sampleLib.IstioGateway ++ "/" ++
              sampleLib.ObjKey sampleGateway.Namespace sampleGateway.Name)],
          Ret.nil⟩ ∧
      gatewayUpdateFunc ⟨false⟩ sampleLib 3
          { sampleGateway with ResourceVersion := "6" } sampleGateway =
        ⟨[], Ret.nil⟩) :=
  have w := C24_istio_update ⟨false⟩ sampleLib 3 rfl
  ⟨⟨(w.1 { sampleVirtualService with Spec := ⟨"hosts: nil, gateways: [gw]"⟩ }
        sampleVirtualService).1 (by decide),
     (w.1 { sampleVirtualService with ResourceVersion := "6" } sampleVirtualService).2.1
        (by decide)⟩,
   ⟨(w.2.1 { sampleDestinationRule with Spec := ⟨"host: svc.default.svc.cluster.local, exportTo: []"⟩ }
        sampleDestinationRule).1 (by decide),
     (w.2.1 { sampleDestinationRule with ResourceVersion := "6" } sampleDestinationRule).2.1
        (by decide)⟩,
   ⟨(w.2.2 { sampleGateway with Spec := ⟨"servers: [https-443], selector: nil"⟩ }
        sampleGateway).1 (by decide),
     (w.2.2 { sampleGateway with ResourceVersion := "6" } sampleGateway).2.1
        (by decide)⟩⟩

/-! ## Changes confined to the reason text -/

/-- C25: for two HostRules, two HTTPRules or two AviInfraSettings with equal specs
and equal `Status.Status`, the change filter returns false, whatever their
resource versions, `Status.Error` texts, namespaces and names are. -/
theorem C25_reason_text_is_not_significant (u : Utils) :
    (∀ o n : HostRule, o.Spec = n.Spec → o.Status.Status = n.Status.Status →
      isHostRuleUpdated u o n = false) ∧
    (∀ o n : HTTPRule, o.Spec = n.Spec → o.Status.Status = n.Status.Status →
      isHTTPRuleUpdated u o n = false) ∧
    (∀ o n : AviInfraSetting, o.Spec = n.Spec → o.Status.Status = n.Status.Status →
      isAviInfraUpdated u o n = false) := by
  refine ⟨fun o n hs ht => ?_, fun o n hs ht => ?_, fun o n hs ht => ?_⟩
  · unfold isHostRuleUpdated
    split
    · rfl
    · simp [hs, ht]
  · unfold isHTTPRuleUpdated
    split
    · rfl
    · simp [hs, ht]
  · unfold isAviInfraUpdated
    split
    · rfl
    · simp [hs, ht]

/-- Witness for C25: the new object differs from the old one in its resource
version and in the reason text of its status only. -/
theorem C25_reason_text_is_not_significant_witness :
    isHostRuleUpdated sampleUtils hostRuleNoSSL
      { hostRuleNoSSL with ResourceVersion := "2", Status := ⟨"", "rejected before"⟩ } = false ∧
    isHTTPRuleUpdated sampleUtils httpRuleAccepted
      { httpRuleAccepted with ResourceVersion := "2", Status := ⟨StatusAccepted, "old text"⟩ }
        = false ∧
    isAviInfraUpdated sampleUtils infraSettingSeg
      { infraSettingSeg with ResourceVersion := "2", Status := ⟨"", "old text"⟩ } = false :=
  have w := C25_reason_text_is_not_significant sampleUtils
  ⟨w.1 _ _ rfl rfl, w.2.1 _ _ rfl rfl, w.2.2 _ _ rfl rfl⟩

/-! ## Namespace filter -/

/-- C26: for a MultiClusterIngress or ServiceImport whose namespace is blocked or
not accepted, the Add handler, the Update handler and the Delete handler, given
the object or a tombstone around it, return with an empty trace: no validation,
no status update, no removal from the resource-version cache, no enqueue. -/
theorem C26_namespace_filter (c : AviController) (lib : Lib) (numWorkers : Nat) :
    (∀ m : MultiClusterIngress,
      (lib.IsNamespaceBlocked (lib.SplitMetaNamespaceKey (lib.ObjKey m.Namespace m.Name)) = true ∨
        lib.CheckIfNamespaceAccepted (lib.SplitMetaNamespaceKey (lib.ObjKey m.Namespace m.Name))
          = false) →
      multiClusterIngressAddFunc c lib numWorkers m = ⟨[], Ret.nil⟩ ∧
      (∀ old, multiClusterIngressUpdateFunc c lib numWorkers old m = ⟨[], Ret.nil⟩) ∧
      multiClusterIngressDeleteFunc c lib numWorkers (Object.multiClusterIngress m)
        = ⟨[], Ret.nil⟩ ∧
      (∀ tombstoneKey, multiClusterIngressDeleteFunc c lib numWorkers
        (Object.DeletedFinalStateUnknown tombstoneKey (Object.multiClusterIngress m))
        = ⟨[], Ret.nil⟩)) ∧
    (∀ s : ServiceImport,
      (lib.IsNamespaceBlocked (lib.SplitMetaNamespaceKey (lib.ObjKey s.Namespace s.Name)) = true ∨
        lib.CheckIfNamespaceAccepted (lib.SplitMetaNamespaceKey (lib.ObjKey s.Namespace s.Name))
          = false) →
      serviceImportAddFunc c lib numWorkers s = ⟨[], Ret.nil⟩ ∧
      (∀ old, serviceImportUpdateFunc c lib numWorkers old s = ⟨[], Ret.nil⟩) ∧
      serviceImportDeleteFunc c lib numWorkers (Object.serviceImport s) = ⟨[], Ret.nil⟩ ∧
      (∀ tombstoneKey, serviceImportDeleteFunc c lib numWorkers
        (Object.DeletedFinalStateUnknown tombstoneKey (Object.serviceImport s))
        = ⟨[], Ret.nil⟩)) := by
  constructor
  · intro m hfilter
    have hcond : (lib.IsNamespaceBlocked
        (lib.SplitMetaNamespaceKey (lib.ObjKey m.Namespace m.Name)) ||
        !lib.CheckIfNamespaceAccepted
          (lib.SplitMetaNamespaceKey (lib.ObjKey m.Namespace m.Name))) = true := by
      rcases hfilter with h | h <;> simp [h]
    have hskip : multiClusterIngressAdmit lib numWorkers m = ⟨[], Ret.nil⟩ := by
      unfold multiClusterIngressAdmit
      simp only [hcond, if_true]
    have hdel : deleteAndEnqueueFiltered lib numWorkers lib.MultiClusterIngress
        m.Namespace m.Name = ⟨[], Ret.nil⟩ := by
      unfold deleteAndEnqueueFiltered
      simp only [hcond, if_true]
    refine ⟨?_, fun old => ?_, ?_, fun tombstoneKey => ?_⟩
    · unfold multiClusterIngressAddFunc
      split <;> simp [hskip]
    · unfold multiClusterIngressUpdateFunc
      split_ifs <;> simp [hskip]
    · unfold multiClusterIngressDeleteFunc
      split
      · rfl
      · simp [unwrapDeleted, Object.assertMultiClusterIngress, hdel]
    · unfold multiClusterIngressDeleteFunc
      split
      · rfl
      · simp [unwrapDeleted, Object.assertMultiClusterIngress, Object.assertTombstone, hdel]
  · intro s hfilter
    have hcond : (lib.IsNamespaceBlocked
        (lib.SplitMetaNamespaceKey (lib.ObjKey s.Namespace s.Name)) ||
        !lib.CheckIfNamespaceAccepted
          (lib.SplitMetaNamespaceKey (lib.ObjKey s.Namespace s.Name))) = true := by
      rcases hfilter with h | h <;> simp [h]
    have hskip : serviceImportAdmit lib numWorkers s = ⟨[], Ret.nil⟩ := by
      unfold serviceImportAdmit
      simp only [hcond, if_true]
    have hdel : deleteAndEnqueueFiltered lib numWorkers lib.ServiceImport
        s.Namespace s.Name = ⟨[], Ret.nil⟩ := by
      unfold deleteAndEnqueueFiltered
      simp only [hcond, if_true]
    refine ⟨?_, fun old => ?_, ?_, fun tombstoneKey => ?_⟩
    · unfold serviceImportAddFunc
      split <;> simp [hskip]
    · unfold serviceImportUpdateFunc
      split_ifs <;> simp [hskip]
    · unfold serviceImportDeleteFunc
      split
      · rfl
      · simp [unwrapDeleted, Object.assertServiceImport, hdel]
    · unfold serviceImportDeleteFunc
      split
      · rfl
      · simp [unwrapDeleted, Object.assertServiceImport, Object.assertTombstone, hdel]

/-- Witness for C26: the namespace `default` is blocked, sync is enabled. -/
theorem C26_namespace_filter_witness :
    (multiClusterIngressAddFunc ⟨false⟩ libDefaultBlocked 3 sampleMCI = ⟨[], Ret.nil⟩ ∧
      (∀ old, multiClusterIngressUpdateFunc ⟨false⟩ libDefaultBlocked 3 old sampleMCI
        = ⟨[], Ret.nil⟩) ∧
      multiClusterIngressDeleteFunc ⟨false⟩ libDefaultBlocked 3
        (Object.multiClusterIngress sampleMCI) = ⟨[], Ret.nil⟩ ∧
      (∀ tombstoneKey, multiClusterIngressDeleteFunc ⟨false⟩ libDefaultBlocked 3
        (Object.DeletedFinalStateUnknown tombstoneKey (Object.multiClusterIngress sampleMCI))
        = ⟨[], Ret.nil⟩)) ∧
    (serviceImportAddFunc ⟨false⟩ libDefaultBlocked 3 sampleServiceImport = ⟨[], Ret.nil⟩ ∧
      (∀ old, serviceImportUpdateFunc ⟨false⟩ libDefaultBlocked 3 old sampleServiceImport
        = ⟨[], Ret.nil⟩) ∧
      serviceImportDeleteFunc ⟨false⟩ libDefaultBlocked 3
        (Object.serviceImport sampleServiceImport) = ⟨[], Ret.nil⟩ ∧
      (∀ tombstoneKey, serviceImportDeleteFunc ⟨false⟩ libDefaultBlocked 3
        (Object.DeletedFinalStateUnknown tombstoneKey (Object.serviceImport sampleServiceImport))
        = ⟨[], Ret.nil⟩)) :=
  ⟨(C26_namespace_filter ⟨false⟩ libDefaultBlocked 3).1 sampleMCI (Or.inl (by decide)),
   (C26_namespace_filter ⟨false⟩ libDefaultBlocked 3).2 sampleServiceImport
     (Or.inl (by decide))⟩

/-! ## MultiClusterIngress validation -/

/-- C27: `validateMultiClusterIngressObj` returns nil exactly when the cluster is in
NodePort mode, EVH mode is enabled and `Spec.Config` is non-empty, and otherwise
the error of the first condition that fails, in that order; in every case its
trace is one status update, with `Accepted` true and an empty reason on nil, and
`Accepted` false and the message of the error as reason otherwise. -/
theorem C27_multi_cluster_ingress (lib : Lib) (key : String) (m : MultiClusterIngress) :
    ((validateMultiClusterIngressObj lib key m).ret = Ret.nil ↔
      (lib.IsNodePortMode = true ∧ lib.IsEvhEnabled = true ∧ m.Spec.Config ≠ [])) ∧
    (lib.IsNodePortMode = false →
      (validateMultiClusterIngressObj lib key m).ret =
        Ret.error "ServiceType must be of type NodePort") ∧
    (lib.IsNodePortMode = true → lib.IsEvhEnabled = false →
      (validateMultiClusterIngressObj lib key m).ret = Ret.error "AKO must be in EVH mode") ∧
    (lib.IsNodePortMode = true → lib.IsEvhEnabled = true → m.Spec.Config = [] →
      (validateMultiClusterIngressObj lib key m).ret = Ret.error "config must not be empty") ∧
    ((validateMultiClusterIngressObj lib key m).trace =
      match (validateMultiClusterIngressObj lib key m).ret with
      | Ret.nil => [Event.UpdateMultiClusterIngressStatus key true ""]
      | Ret.error msg => [Event.UpdateMultiClusterIngressStatus key false msg]
      | Ret.panic _ => []) ∧
    (∀ msg, (validateMultiClusterIngressObj lib key m).ret ≠ Ret.panic msg) := by
  unfold validateMultiClusterIngressObj multiClusterIngressError
  cases h1 : lib.IsNodePortMode <;> cases h2 : lib.IsEvhEnabled <;>
    cases h3 : m.Spec.Config <;> simp

/-- Witness for C27: in NodePort and EVH mode a MultiClusterIngress with a backend
is accepted and one with an empty configuration is rejected; outside NodePort
mode, and in NodePort mode without EVH, the mode is the error. -/
theorem C27_multi_cluster_ingress_witness :
    (validateMultiClusterIngressObj sampleLib "MultiClusterIngress/default/m" sampleMCI).ret
      = Ret.nil ∧
    (validateMultiClusterIngressObj { sampleLib with IsNodePortMode := false }
      "MultiClusterIngress/default/m" sampleMCI).ret =
        Ret.error "ServiceType must be of type NodePort" ∧
    (validateMultiClusterIngressObj { sampleLib with IsEvhEnabled := false }
      "MultiClusterIngress/default/m" sampleMCI).ret = Ret.error "AKO must be in EVH mode" ∧
    (validateMultiClusterIngressObj sampleLib "MultiClusterIngress/default/e" emptyMCI).ret
      = Ret.error "config must not be empty" :=
  ⟨(C27_multi_cluster_ingress sampleLib "MultiClusterIngress/default/m" sampleMCI).1.mpr
      ⟨rfl, rfl, by decide⟩,
   (C27_multi_cluster_ingress { sampleLib with IsNodePortMode := false }
      "MultiClusterIngress/default/m" sampleMCI).2.1 rfl,
   (C27_multi_cluster_ingress { sampleLib with IsEvhEnabled := false }
      "MultiClusterIngress/default/m" sampleMCI).2.2.1 rfl rfl,
   (C27_multi_cluster_ingress sampleLib "MultiClusterIngress/default/e" emptyMCI).2.2.2.1
      rfl rfl rfl⟩

/-! ## Run-time failures of reference resolution -/

/-- C28 at its failing inputs: for a collection response with `Count` 1 and an empty
results array, `checkRefOnController` panics on `items[0]`, and so does the
validation of a HostRule that names a WAF policy; it panics as well on results
`null`, and when it makes the slice on a negative `Count` and on a `Count` of
`2^62`, which is beyond the longest slice the runtime makes.  The first holds
for every reference kind, every name and every positive `Count` on the
collection query path: the call panics on `items[0]` when the slice can be
made, and on making the slice when it cannot. -/
theorem C28_index_out_of_range :
    envEmptyResults.AviGetCollectionRaw (collectionURI "WafPolicy" "waf-1") =
      .ok ⟨1, some (Json.arr [])⟩ ∧
    checkRefOnController envEmptyResults "HostRule/default/a" "WafPolicy" "waf-1" =
      ⟨[Event.AviGetCollectionRaw (collectionURI "WafPolicy" "waf-1")],
        Ret.panic "index out of range [0] with length 0"⟩ ∧
    validateHostRuleObj envEmptyResults "HostRule/default/a"
        { sampleHostRule "default" "a" "a.example.com" with
          Spec := ⟨{ (sampleHostRule "default" "a" "a.example.com").Spec.VirtualHost with
            WAFPolicy := "waf-1" }⟩ } =
      ⟨[Event.AviGetCollectionRaw (collectionURI "WafPolicy" "waf-1")],
        Ret.panic "index out of range [0] with length 0"⟩ ∧
    (checkRefOnController
        { sampleEnv with AviGetCollectionRaw := fun _ => .ok ⟨1, some Json.null⟩ }
        "HostRule/default/a" "WafPolicy" "waf-1").ret =
      Ret.panic "index out of range [0] with length 0" ∧
    (checkRefOnController
        { sampleEnv with AviGetCollectionRaw := fun _ => .ok ⟨-1, some (Json.arr [])⟩ }
        "HostRule/default/a" "WafPolicy" "waf-1").ret =
      Ret.panic "makeslice: len out of range" ∧
    (checkRefOnController
        { sampleEnv with
          AviGetCollectionRaw := fun _ =>
            .ok ⟨4611686018427387904, some (Json.arr [Json.obj [("name", Json.str "waf-1")]])⟩ }
        "HostRule/default/a" "WafPolicy" "waf-1").ret =
      Ret.panic "makeslice: len out of range" ∧
    ∀ (env : Env) (key refKey refValue : String) (count : Nat),
      checkRefOnController
          { env with
            IsPublicCloud := false
            AviGetCollectionRaw := fun _ => .ok ⟨(count : Int) + 1, some (Json.arr [])⟩ }
          key refKey refValue =
        ⟨[Event.AviGetCollectionRaw (collectionURI refKey refValue)],
          Ret.panic (if (count : Int) + 1 ≤ env.MaxSliceLen then
            "index out of range [0] with length 0" else "makeslice: len out of range")⟩ := by
  refine ⟨rfl, by decide, by decide, by decide, by decide, by decide, ?_⟩
  intro env key refKey refValue count
  have h0 : ¬ ((count : Int) + 1 = 0) := by omega
  have hneg : ¬ ((count : Int) + 1 < 0) := by omega
  unfold checkRefOnController
  by_cases hmax : (count : Int) + 1 ≤ env.MaxSliceLen
  · have hbig : ¬ (env.MaxSliceLen : Int) < (count : Int) + 1 := not_lt.mpr hmax
    simp [h0, hneg, hbig, hmax, unmarshalRawMessages]
  · have hbig : (env.MaxSliceLen : Int) < (count : Int) + 1 := not_le.mp hmax
    simp [h0, hneg, hbig, hmax]

end AKO
